import Mathlib

/-!
# The loan workflow of the e-books library application

A shallow embedding of `createLoanHandler`, `returnLoanHandler`, `loginHandler`,
`logoutHandler`, `adminUserDeleteHandler` and the middlewares
`requireAuthentication` and `requireAdmin` (`handlers.go`, `main.go`) over an
explicit database state and session, and the properties proved about them.

Modelling conventions.

* The database is a value of type `Store`: the three tables as lists of rows,
  plus the AUTO_INCREMENT counter of `loans`.  Every SQL statement the two
  handlers send is a function on tables that returns the new table and, for an
  `UPDATE`, the number of rows the driver reports as affected.
* A handler runs its statements on a private copy of the store (the
  transaction).  Every `return` before a successful `tx.Commit()` triggers the
  deferred `tx.Rollback()`, so the handler gives back the store it started
  from; only after `Commit` does it give back the modified copy.
* Go `int` values (ids, stock) are `Int`; the ranges of the SQL columns are
  not part of the sources, an out-of-range write is one of the storage
  failures of `Faults`.  `NOW()` is the field `now` of the environment, in
  seconds.
* String comparison in SQL (`status = 'active'`) is equality of strings.
* `ORDER BY loan_date DESC LIMIT 1` returns, among rows with the same greatest
  loan date, the first in table order.
* Log output is modelled for `requireAdmin` only, where a property speaks of it.
* `len(password)` of Go is the length in bytes of the UTF-8 string.
* The password check of `bcrypt` is never called by the handlers modelled here;
  the stored hash is the field `Password` of a user row.
-/

namespace EBooks

/-! ## Data model (`models.go`) -/

/-- Row of the `users` table. -/
structure User where
  ID : Int
  Username : String
  Name : String
  Email : String
  Password : String
  Role : String
  CreatedAt : Nat
deriving DecidableEq, Repr

/-- Row of the `books` table.  The Go field `IsAvailable` is computed by the
queries that list books and is not a column. -/
structure Book where
  ID : Int
  Title : String
  Author : String
  Genre : String
  Stock : Int
  Description : String
  CoverImagePath : String
  PdfFilePath : String
  ReleaseDate : String
deriving DecidableEq, Repr

/-- Row of the `loans` table.  `ReturnDate` is the nullable column
(`sql.NullTime`); the Go fields `Book`, `LoanDateFormatted` and
`ReturnDateFormatted` are filled by the listing queries and are not columns. -/
structure Loan where
  ID : Int
  UserID : Int
  BookID : Int
  LoanDate : Nat
  ReturnDate : Option Nat
  Status : String
deriving DecidableEq, Repr

/-- The database: its three tables and the AUTO_INCREMENT counter of `loans`. -/
structure Store where
  users : List User
  books : List Book
  loans : List Loan
  nextLoanID : Int
deriving DecidableEq, Repr

/-- The primary keys: book ids are pairwise distinct, loan ids are pairwise
distinct and below the AUTO_INCREMENT counter. -/
def Store.WF (st : Store) : Prop :=
  (st.books.map Book.ID).Nodup ∧ (st.loans.map Loan.ID).Nodup ∧
    ∀ l ∈ st.loans, l.ID < st.nextLoanID

instance (st : Store) : Decidable st.WF := by
  unfold Store.WF
  infer_instance

/-- The row of the book with the given id, if there is one. -/
def Store.book? (st : Store) (bookID : Int) : Option Book :=
  st.books.find? (fun b => b.ID == bookID)

/-! ## Session and HTTP plumbing -/

/-- Values the handlers store in the session. -/
inductive SessionValue where
  | int (n : Int)
  | str (s : String)
deriving DecidableEq, Repr

/-- Session data of one request: the key/value map of `scs`. -/
abbrev Session := List (String × SessionValue)

/-- `SessionManager.Put`: bind the key to the value, replacing an old binding. -/
def Session.Put (s : Session) (key : String) (v : SessionValue) : Session :=
  (key, v) :: s.filter (fun p => p.1 != key)

/-- The value bound to a key. -/
def Session.Get (s : Session) (key : String) : Option SessionValue :=
  (s.find? (fun p => p.1 == key)).map Prod.snd

/-- `SessionManager.GetInt`: the integer bound to the key, 0 when the key is
absent or bound to something else. -/
def Session.GetInt (s : Session) (key : String) : Int :=
  match s.Get key with
  | some (.int n) => n
  | _ => 0

/-- `SessionManager.GetString`: the string bound to the key, empty when the key
is absent or bound to something else. -/
def Session.GetString (s : Session) (key : String) : String :=
  match s.Get key with
  | some (.str v) => v
  | _ => ""

/-- `SessionManager.Exists`. -/
def Session.Exists (s : Session) (key : String) : Bool :=
  (s.Get key).isSome

/-- What the handlers read of a request: the method, the path of the URL, the
parsed form `r.Form` (parameters of the body and of the URL) and the parameters
of the URL alone, `r.URL.Query()`. -/
structure Request where
  method : String
  path : String
  form : List (String × String)
  query : List (String × String)
deriving DecidableEq, Repr

/-- `r.FormValue`: the first value of the field, empty when it is absent. -/
def Request.FormValue (r : Request) (key : String) : String :=
  match r.form.find? (fun p => p.1 == key) with
  | some p => p.2
  | none => ""

/-- `r.URL.Query().Get`: the first value of the URL parameter, empty when it is
absent. -/
def Request.QueryGet (r : Request) (key : String) : String :=
  match r.query.find? (fun p => p.1 == key) with
  | some p => p.2
  | none => ""

/-- What a handler writes: `http.Redirect` or `http.Error`. -/
inductive Response where
  | redirect (url : String) (code : Nat)
  | error (body : String) (code : Nat)
deriving DecidableEq, Repr

def StatusSeeOther : Nat := 303
def StatusBadRequest : Nat := 400
def StatusMethodNotAllowed : Nat := 405
def StatusInternalServerError : Nat := 500

/-- Value of a run of decimal digits read left to right from `acc`; `none` on a
character that is not a digit. -/
def parseDigits : List Char → Nat → Option Nat
  | [], acc => some acc
  | c :: cs, acc =>
    if '0' ≤ c ∧ c ≤ '9' then parseDigits cs (acc * 10 + (c.toNat - '0'.toNat)) else none

/-- `strconv.Atoi` on a 64-bit platform: an optional sign, then at least one
decimal digit, and a value that fits `int`. -/
def Atoi (s : String) : Option Int :=
  let body : List Char :=
    match s.data with
    | '-' :: cs => cs
    | '+' :: cs => cs
    | cs => cs
  let neg : Bool :=
    match s.data with
    | '-' :: _ => true
    | _ => false
  match body with
  | [] => none
  | _ =>
    match parseDigits body 0 with
    | none => none
    | some n =>
      if neg then (if n ≤ 2 ^ 63 then some (-(n : Int)) else none)
      else (if n < 2 ^ 63 then some (n : Int) else none)

/-! ## The SQL statements of the loan workflow -/

/-- The `WHERE` clause `user_id = ? AND book_id = ? AND status = 'active'`. -/
def isActiveLoan (userID bookID : Int) (l : Loan) : Bool :=
  l.UserID == userID && l.BookID == bookID && l.Status == "active"

/-- `SELECT COUNT(*) FROM loans WHERE user_id = ? AND book_id = ? AND status = 'active'`. -/
def countActiveLoans (loans : List Loan) (userID bookID : Int) : Nat :=
  (loans.filter (isActiveLoan userID bookID)).length

/-- Effect of `SET stock = stock - 1 WHERE id = ? AND stock > 0` on one row. -/
def decrementRow (bookID : Int) (b : Book) : Book :=
  if b.ID = bookID ∧ 0 < b.Stock then { b with Stock := b.Stock - 1 } else b

/-- `UPDATE books SET stock = stock - 1 WHERE id = ? AND stock > 0`: the new
table and the number of rows affected. -/
def execDecrementStock (books : List Book) (bookID : Int) : List Book × Nat :=
  (books.map (decrementRow bookID),
   (books.filter (fun b => b.ID == bookID && decide (0 < b.Stock))).length)

/-- `INSERT INTO loans (user_id, book_id, status, loan_date) VALUES (?, ?, 'active', NOW())`:
the new row takes the AUTO_INCREMENT id and a NULL return date. -/
def execInsertLoan (st : Store) (userID bookID : Int) (now : Nat) : Store :=
  { st with
    loans := st.loans ++ [{ ID := st.nextLoanID, UserID := userID, BookID := bookID,
                            LoanDate := now, ReturnDate := none, Status := "active" }]
    nextLoanID := st.nextLoanID + 1 }

/-- The row with the greatest loan date, the first such row in table order. -/
def latestLoan : List Loan → Option Loan
  | [] => none
  | l :: ls =>
    match latestLoan ls with
    | none => some l
    | some m => if l.LoanDate < m.LoanDate then some m else some l

/-- `SELECT id FROM loans WHERE user_id = ? AND book_id = ? AND status = 'active'
ORDER BY loan_date DESC LIMIT 1`; `none` is `sql.ErrNoRows`. -/
def selectActiveLoan (loans : List Loan) (userID bookID : Int) : Option Int :=
  (latestLoan (loans.filter (isActiveLoan userID bookID))).map Loan.ID

/-- Effect of `SET status = 'returned', return_date = NOW() WHERE id = ?` on one row. -/
def returnRow (loanID : Int) (now : Nat) (l : Loan) : Loan :=
  if l.ID = loanID then { l with Status := "returned", ReturnDate := some now } else l

/-- `UPDATE loans SET status = 'returned', return_date = NOW() WHERE id = ?`: the
new table and the number of rows affected, which for the MySQL driver as the
program configures it is the number of rows the statement changed. -/
def execReturnLoan (loans : List Loan) (loanID : Int) (now : Nat) : List Loan × Nat :=
  (loans.map (returnRow loanID now),
   (loans.filter (fun l => l.ID == loanID && returnRow loanID now l != l)).length)

/-- Effect of `SET stock = stock + 1 WHERE id = ?` on one row. -/
def incrementRow (bookID : Int) (b : Book) : Book :=
  if b.ID = bookID then { b with Stock := b.Stock + 1 } else b

/-- `UPDATE books SET stock = stock + 1 WHERE id = ?`. -/
def execIncrementStock (books : List Book) (bookID : Int) : List Book :=
  books.map (incrementRow bookID)

/-! ## The handlers -/

/-- Which database calls of a handler run fail, in the order the handlers make
them: `DB.Begin`, the `QueryRow(...).Scan`, the first `tx.Exec`, its
`RowsAffected`, the second `tx.Exec`, `tx.Commit`. -/
structure Faults where
  beginFails : Bool
  queryFails : Bool
  firstExecFails : Bool
  rowsAffectedFails : Bool
  secondExecFails : Bool
  commitFails : Bool
deriving DecidableEq, Repr

/-- No database call fails. -/
def Faults.none : Faults := ⟨false, false, false, false, false, false⟩

/-- What a request finds outside the store: the clock and the storage failures. -/
structure Env where
  now : Nat
  faults : Faults
deriving DecidableEq, Repr

/-- Result of a handler run: the committed store, the session and the response. -/
structure Outcome where
  store : Store
  session : Session
  response : Response
deriving DecidableEq, Repr

/-- The transaction of `createLoanHandler`: the handler from `app.DB.Begin()` to
its end, for the book id and the user id it has read. -/
def createLoanTx (st : Store) (env : Env) (sess : Session) (userID bookID : Int) : Outcome :=
  if env.faults.beginFails then
    ⟨st, sess, .error "Error de servidor al iniciar transacción" StatusInternalServerError⟩
  else if env.faults.queryFails then
    ⟨st, sess.Put "flashError" (.str "Error de servidor al verificar préstamos existentes."),
      .error "Error de servidor al verificar préstamos existentes" StatusInternalServerError⟩
  else if countActiveLoans st.loans userID bookID > 0 then
    ⟨st, sess.Put "flashError" (.str "Ya tienes este libro prestado."),
      .redirect ("/book?id=" ++ toString bookID) StatusSeeOther⟩
  else if env.faults.firstExecFails then
    ⟨st, sess.Put "flashError" (.str "Error al actualizar stock del libro."),
      .error "Error de servidor al actualizar stock del libro" StatusInternalServerError⟩
  else if env.faults.rowsAffectedFails then
    ⟨st, sess.Put "flashError" (.str "Error al verificar stock afectado."),
      .error "Error al verificar filas afectadas" StatusInternalServerError⟩
  else if (execDecrementStock st.books bookID).2 = 0 then
    ⟨st, sess.Put "flashError" (.str "No hay stock disponible para este libro."),
      .redirect ("/book?id=" ++ toString bookID) StatusSeeOther⟩
  else if env.faults.secondExecFails then
    ⟨st, sess.Put "flashError" (.str "Error al registrar el préstamo."),
      .error "Error de servidor al registrar préstamo" StatusInternalServerError⟩
  else if env.faults.commitFails then
    ⟨st, sess.Put "flashError" (.str "Error al finalizar el préstamo."),
      .error "Error de servidor al finalizar transacción de préstamo" StatusInternalServerError⟩
  else
    ⟨execInsertLoan { st with books := (execDecrementStock st.books bookID).1 }
        userID bookID env.now,
      sess.Put "flashSuccess" (.str "¡Libro prestado con éxito!"),
      .redirect ("/book?id=" ++ toString bookID) StatusSeeOther⟩

/-- The handler `createLoanHandler` (BorrowBook): the checks on the request, then
the transaction. -/
def createLoanHandler (st : Store) (env : Env) (sess : Session) (r : Request) : Outcome :=
  if r.method ≠ "POST" then
    ⟨st, sess, .error "Método no permitido" StatusMethodNotAllowed⟩
  else
    match Atoi (r.FormValue "book_id") with
    | none => ⟨st, sess, .error "ID de libro inválido" StatusBadRequest⟩
    | some bookID =>
      if sess.GetInt "authenticatedUserID" = 0 then
        ⟨st, sess, .redirect "/login" StatusSeeOther⟩
      else createLoanTx st env sess (sess.GetInt "authenticatedUserID") bookID

/-- The handler `returnLoanHandler` from its `UPDATE loans` statement to the end,
for the loan id its `SELECT` has read.  `tx` is the state of the tables the
`UPDATE` finds.  In a run without other requests it is the state the `SELECT`
has read; with the isolation level `DB.Begin()` asks for (the default of the
store) it is the last committed state, which another request may have changed
since the `SELECT`. -/
def returnLoanUpdate (tx : Store) (env : Env) (sess : Session) (bookID loanID : Int) :
    Outcome :=
  if env.faults.firstExecFails then
    ⟨tx, sess.Put "flashError" (.str "Error al actualizar el estado del préstamo."),
      .error "Error de servidor al actualizar estado del préstamo" StatusInternalServerError⟩
  else if env.faults.rowsAffectedFails then
    ⟨tx, sess.Put "flashError" (.str "Error al verificar filas afectadas por retorno."),
      .error "Error al verificar filas afectadas por retorno" StatusInternalServerError⟩
  else if (execReturnLoan tx.loans loanID env.now).2 > 0 then
    if env.faults.secondExecFails then
      ⟨tx, sess.Put "flashError" (.str "Error al actualizar stock del libro."),
        .error "Error de servidor al actualizar stock del libro" StatusInternalServerError⟩
    else if env.faults.commitFails then
      ⟨tx, sess.Put "flashError" (.str "Error al finalizar transacción de retorno."),
        .error "Error de servidor al finalizar transacción de retorno"
          StatusInternalServerError⟩
    else
      ⟨{ tx with loans := (execReturnLoan tx.loans loanID env.now).1,
                 books := execIncrementStock tx.books bookID },
        sess.Put "flashSuccess" (.str "¡Libro devuelto con éxito!"),
        .redirect "/my-loans" StatusSeeOther⟩
  else
    ⟨tx, sess.Put "flashError" (.str "El préstamo ya fue devuelto o no es válido."),
      .redirect "/my-loans" StatusSeeOther⟩

/-- The transaction of `returnLoanHandler`: the handler from `app.DB.Begin()` to
its end, for the book id and the user id it has read. -/
def returnLoanTx (st : Store) (env : Env) (sess : Session) (userID bookID : Int) : Outcome :=
  if env.faults.beginFails then
    ⟨st, sess, .error "Error de servidor al iniciar transacción" StatusInternalServerError⟩
  else if env.faults.queryFails then
    ⟨st, sess.Put "flashError" (.str "Error de servidor al buscar el préstamo."),
      .error "Error de servidor al buscar préstamo activo" StatusInternalServerError⟩
  else
    match selectActiveLoan st.loans userID bookID with
    | none =>
      ⟨st, sess.Put "flashError" (.str "No se encontró un préstamo activo para este libro."),
        .redirect "/my-loans" StatusSeeOther⟩
    | some loanID => returnLoanUpdate st env sess bookID loanID

/-- The handler `returnLoanHandler` (ReturnBook): the checks on the request, then
the transaction. -/
def returnLoanHandler (st : Store) (env : Env) (sess : Session) (r : Request) : Outcome :=
  if r.method ≠ "POST" then
    ⟨st, sess, .error "Método no permitido" StatusMethodNotAllowed⟩
  else
    match Atoi (r.FormValue "book_id") with
    | none => ⟨st, sess, .error "ID de libro inválido" StatusBadRequest⟩
    | some bookID =>
      if sess.GetInt "authenticatedUserID" = 0 then
        ⟨st, sess, .redirect "/login" StatusSeeOther⟩
      else returnLoanTx st env sess (sess.GetInt "authenticatedUserID") bookID

/-! ## Login, logout and the session gate -/

/-- The session of a request as the session manager holds it: the token of the
cookie and the data. -/
structure SessionState where
  token : String
  values : Session
deriving DecidableEq, Repr

/-- The calls a handler makes on the session manager, in the order it makes
them. -/
inductive SessionOp where
  | RenewToken
  | Put (key : String) (v : SessionValue)
  | Destroy
deriving DecidableEq, Repr

/-- Effect of one call on the session; `fresh` is the token `RenewToken`
generates. `RenewToken` keeps the data, `Destroy` drops the data and the
token. With the in-memory session store `main` sets up, `RenewToken` fails only
if the random source does; that failure, which `loginHandler` does not check,
is not modelled. -/
def SessionState.apply (fresh : String) (s : SessionState) : SessionOp → SessionState
  | .RenewToken => { s with token := fresh }
  | .Put key v => { s with values := s.values.Put key v }
  | .Destroy => ⟨"", []⟩

/-- Effect of a sequence of calls, first to last. -/
def SessionState.run (fresh : String) (s : SessionState) (ops : List SessionOp) :
    SessionState :=
  ops.foldl (SessionState.apply fresh) s

/-- What `loginHandler` and `logoutHandler` write: a response, the rendered login
page, or nothing. -/
inductive Reply where
  | response (r : Response)
  | page (template : String)
  | empty
deriving DecidableEq, Repr

/-- What a login request finds outside the users table: the token a renewal
generates, whether the `SELECT` fails, whether the login template fails to
parse or to execute. -/
structure LoginEnv where
  freshToken : String
  queryFails : Bool
  templateFails : Bool
deriving DecidableEq, Repr

/-- Result of `loginHandler` and `logoutHandler`: the calls made on the session
manager and what is written. -/
structure LoginOutcome where
  ops : List SessionOp
  reply : Reply
deriving DecidableEq, Repr

/-- `SELECT id, name, role FROM users WHERE username = ?` read by `QueryRow`: the
first row with that username; `none` is `sql.ErrNoRows`. -/
def selectUserByUsername (users : List User) (username : String) : Option User :=
  users.find? (fun u => u.Username == username)

/-- The handler `loginHandler` from its `SELECT` to the end, for the username it
has read. -/
def loginQuery (st : Store) (env : LoginEnv) (username : String) : LoginOutcome :=
  if env.queryFails then
    ⟨[], .response (.error "Error interno del servidor" StatusInternalServerError)⟩
  else
    match selectUserByUsername st.users username with
    | none => ⟨[], .response (.redirect "/login?error=true" StatusSeeOther)⟩
    | some u =>
      ⟨[.RenewToken, .Put "authenticatedUserID" (.int u.ID), .Put "userName" (.str u.Name),
          .Put "userRole" (.str u.Role)],
        .response (.redirect "/catalog" StatusSeeOther)⟩

/-- The handler `loginHandler`: the login page on GET; on POST the check of the
length of the password, then the lookup of the username. -/
def loginHandler (st : Store) (env : LoginEnv) (r : Request) : LoginOutcome :=
  if r.method = "GET" then
    if env.templateFails then
      ⟨[], .response (.error "Error interno del servidor" StatusInternalServerError)⟩
    else ⟨[], .page "login.html"⟩
  else if r.method = "POST" then
    if (r.FormValue "password").utf8ByteSize ≠ 4 then
      ⟨[], .response (.redirect "/login?error=true" StatusSeeOther)⟩
    else loginQuery st env (r.FormValue "username")
  else ⟨[], .empty⟩

/-- The handler `logoutHandler`. -/
def logoutHandler (_r : Request) : LoginOutcome :=
  ⟨[.Destroy], .response (.redirect "/login" StatusSeeOther)⟩

/-- What a routed handler gives: its outcome and the lines it logs. -/
structure Served where
  outcome : Outcome
  log : List String
deriving DecidableEq, Repr

/-- A handler behind the middlewares (`http.Handler`). -/
abbrev Handler := Store → Env → Session → Request → Served

/-- The middleware `requireAuthentication`. -/
def requireAuthentication (next : Handler) : Handler := fun st env sess r =>
  if !sess.Exists "authenticatedUserID" then
    ⟨⟨st, sess, .redirect "/login" StatusSeeOther⟩, []⟩
  else next st env sess r

/-- The middleware `requireAdmin`. -/
def requireAdmin (next : Handler) : Handler := fun st env sess r =>
  if sess.GetString "userRole" ≠ "admin" then
    ⟨⟨st, sess, .redirect "/catalog" StatusSeeOther⟩,
      ["Acceso denegado: Usuario no administrador intentó acceder a " ++ r.path]⟩
  else next st env sess r

/-- The route `/admin/` of `main`:
`mux.Handle("/admin/", app.requireAuthentication(app.requireAdmin(adminRouter)))`. -/
def adminRoute (adminRouter : Handler) : Handler :=
  requireAuthentication (requireAdmin adminRouter)

/-- `DELETE FROM users WHERE id = ?`. -/
def execDeleteUser (users : List User) (userID : Int) : List User :=
  users.filter (fun u => u.ID != userID)

/-- The handler `adminUserDeleteHandler`. Its one database call is the first
`Exec` of `Faults`; the other tables are taken not to depend on the deleted
row. -/
def adminUserDeleteHandler (st : Store) (env : Env) (sess : Session) (r : Request) : Outcome :=
  if r.method ≠ "POST" then
    ⟨st, sess, .error "Método no permitido" StatusMethodNotAllowed⟩
  else
    match Atoi (r.QueryGet "id") with
    | none => ⟨st, sess, .error "ID de usuario inválido" StatusBadRequest⟩
    | some userIDToDelete =>
      if userIDToDelete = sess.GetInt "authenticatedUserID" then
        ⟨st, sess, .redirect "/admin/dashboard?error=self_delete" StatusSeeOther⟩
      else if env.faults.firstExecFails then
        ⟨st, sess, .error "Error al eliminar usuario" StatusInternalServerError⟩
      else
        ⟨{ st with users := execDeleteUser st.users userIDToDelete }, sess,
          .redirect "/admin/dashboard?success=user_deleted" StatusSeeOther⟩

/-! ## Calls and runs -/

/-- The request is a call of the loan workflow by the logged-in user `userID`
on the book `bookID`: a POST whose `book_id` field reads `bookID`, in a session
that carries the identity `userID`. -/
def IsCall (sess : Session) (r : Request) (userID bookID : Int) : Prop :=
  r.method = "POST" ∧ Atoi (r.FormValue "book_id") = some bookID ∧
    sess.GetInt "authenticatedUserID" = userID ∧ userID ≠ 0

instance (sess : Session) (r : Request) (userID bookID : Int) :
    Decidable (IsCall sess r userID bookID) := by
  unfold IsCall
  infer_instance

/-- One call of the loan workflow, with the environment, the session and the
request it runs in. -/
inductive Call where
  | borrowBook (env : Env) (sess : Session) (r : Request)
  | returnBook (env : Env) (sess : Session) (r : Request)
deriving DecidableEq, Repr

/-- What a call answers and commits. -/
def Call.outcome (st : Store) : Call → Outcome
  | .borrowBook env sess r => createLoanHandler st env sess r
  | .returnBook env sess r => returnLoanHandler st env sess r

/-- The store a call commits. -/
def Call.run (st : Store) (c : Call) : Store := (c.outcome st).store

/-- The outcomes of a sequence of calls executed one after another, each on the
store the call before it has committed. -/
def outcomes (st : Store) : List Call → List Outcome
  | [] => []
  | c :: cs => c.outcome st :: outcomes (c.run st) cs

/-- The stock of a book, if the book exists. -/
def Store.stock? (st : Store) (bookID : Int) : Option Int :=
  (st.book? bookID).map Book.Stock

/-- The stores a sequence of calls, executed one after another, goes through:
the initial store and the store after each call. -/
def reached (st : Store) : List Call → List Store
  | [] => [st]
  | c :: cs => st :: reached (c.run st) cs

/-- Every book has a stock of at least 0. -/
def StockNonneg (st : Store) : Prop := ∀ b ∈ st.books, 0 ≤ b.Stock

instance (st : Store) : Decidable (StockNonneg st) := by
  unfold StockNonneg
  infer_instance

/-- No (user, book) pair has more than one loan with status `active`. -/
def AtMostOneActive (st : Store) : Prop :=
  ∀ userID bookID : Int, countActiveLoans st.loans userID bookID ≤ 1

/-! ## Sample data -/

/-- A book row with the given id and stock. -/
def sampleBook (id stock : Int) : Book :=
  ⟨id, "Rayuela", "Julio Cortázar", "Novela", stock, "", "cover.jpg", "book.pdf", "1963-06-28"⟩

/-- A POST of the loan forms with the given `book_id` field. -/
def loanRequest (path bookID : String) : Request :=
  ⟨"POST", path, [("book_id", bookID)], []⟩

/-- The session of the logged-in user with the given id. -/
def sessionOf (userID : Int) : Session :=
  [("authenticatedUserID", .int userID)]

/-- An environment without storage failure. -/
def envAt (now : Nat) : Env := ⟨now, Faults.none⟩

/-- A store with one book in stock and no loan. -/
def freshStore : Store := ⟨[], [sampleBook 1 1, sampleBook 2 0], [], 1⟩

/-- A store in which user 7 holds the only copy of book 1. -/
def lentStore : Store :=
  ⟨[], [sampleBook 1 0, sampleBook 2 3], [⟨1, 7, 1, 100, none, "active"⟩], 2⟩

/-- A run of four calls: two borrows, a return, a borrow. -/
def sampleCalls : List Call :=
  [.borrowBook (envAt 10) (sessionOf 7) (loanRequest "/loan/create" "1"),
   .borrowBook (envAt 11) (sessionOf 8) (loanRequest "/loan/create" "1"),
   .returnBook (envAt 12) (sessionOf 7) (loanRequest "/loan/return" "1"),
   .borrowBook (envAt 13) (sessionOf 8) (loanRequest "/loan/create" "1")]

/-- The store `lentStore` after user 7 has returned book 1 at time 200. -/
def returnedStore : Store :=
  ⟨[], [sampleBook 1 1, sampleBook 2 3], [⟨1, 7, 1, 100, some 200, "returned"⟩], 2⟩

/-! ## Login and the session gate: notions and sample data -/

/-- The response is a server error: `http.Error` with status 500. -/
def Response.isServerError : Response → Bool
  | .error _ code => code == StatusInternalServerError
  | .redirect _ _ => false

/-- The call ended in a storage error: the handler answers with a server error
and the committed store is the one before the call. -/
def RolledBack (st : Store) (o : Outcome) : Prop :=
  o.response.isServerError = true ∧ o.store = st

instance (st : Store) (o : Outcome) : Decidable (RolledBack st o) := by
  unfold RolledBack
  infer_instance

/-- The administrator the seeder inserts; the stored hash is a bcrypt hash of
`admin123`. -/
def seedAdmin : User :=
  ⟨1, "admin", "Administrador", "admin@example.com",
    "$2a$10$ImZPzwcIjveKY3gZ8EvHm.YbX.Sp2qQD7fUq7Mm2vX23Yhgtm12Jq", "admin", 0⟩

/-- The users the seeder inserts; the stored hash of the two plain users is a
bcrypt hash of `user123`. -/
def seededUsers : List User :=
  [seedAdmin,
   ⟨2, "usuario1", "Usuario Prueba Uno", "user1@example.com",
      "$2a$10$6yUj2GSTsciTzCx8aZOQAO..bl51JN.wg9yyYu0ZaooeMvavj2sbu", "user", 0⟩,
   ⟨3, "usuario2", "Usuario Prueba Dos", "user2@example.com",
      "$2a$10$6yUj2GSTsciTzCx8aZOQAO..bl51JN.wg9yyYu0ZaooeMvavj2sbu", "user", 0⟩]

/-- A store with the seeded users. -/
def credStore : Store := ⟨seededUsers, [sampleBook 1 1], [], 1⟩

/-- A POST of the login form. -/
def loginRequest (username password : String) : Request :=
  ⟨"POST", "/login", [("username", username), ("password", password)], []⟩

/-- A login environment without failure. -/
def loginEnv : LoginEnv := ⟨"token-after-login", false, false⟩

/-- The session of a visitor who has not logged in. -/
def guestSession : SessionState := ⟨"token-before-login", []⟩

/-- The session data of a logged-in user. -/
def identitySession (userID : Int) (name role : String) : Session :=
  [("authenticatedUserID", .int userID), ("userName", .str name), ("userRole", .str role)]

/-- A handler that answers every request with the same page, standing for a
wrapped handler. -/
def fixedHandler (body : String) : Handler := fun st _ sess _ =>
  ⟨⟨st, sess, .error body 200⟩, []⟩

/-- A POST of the user deletion with the given `id` parameter in the URL. -/
def deleteUserRequest (id : String) : Request :=
  ⟨"POST", "/admin/users/delete", [("id", id)], [("id", id)]⟩

/-! ## The loan workflow and the catalog: further notions -/

/-- The table of books with the release date of the book `bookID` set to
`date`. -/
def setReleaseDate (bookID : Int) (date : String) (b : Book) : Book :=
  if b.ID = bookID then { b with ReleaseDate := date } else b

/-- The store in which the release date of the book `bookID` is `date` and
everything else is as in `st`. -/
def Store.withReleaseDate (st : Store) (bookID : Int) (date : String) : Store :=
  { st with books := st.books.map (setReleaseDate bookID date) }

/-- The `WHERE release_date <= NOW()` of the query of `catalogHandler`; the
comparison of a stored date with the clock is the one of the store, `dueBy`. -/
def catalogShows (dueBy : String → Nat → Bool) (now : Nat) (b : Book) : Bool :=
  dueBy b.ReleaseDate now

/-- A user row without its password hash. -/
def User.withoutPassword (u : User) : User := { u with Password := "" }

/-- A store with one upcoming book in stock. -/
def upcomingStore : Store :=
  ⟨[], [⟨5, "Drácula", "Bram Stoker", "Gótico", 20, "", "dracula.jpg", "dracula.pdf",
          "2999-01-01"⟩], [], 1⟩

/-- A date comparison for dates written year first: the stored date is due
when it is not after `2026-11-02`, whatever the clock. -/
def dueByToday (date : String) (_now : Nat) : Bool :=
  decide (date.data ≤ "2026-11-02".data)

/-- The number of loans with status `active` of a book. -/
def activeLoansOfBook (loans : List Loan) (bookID : Int) : Nat :=
  (loans.filter (fun l => l.BookID == bookID && l.Status == "active")).length

/-- The copies of an existing book: its stock plus the number of its active
loans. -/
def Store.copies? (st : Store) (bookID : Int) : Option Int :=
  (st.stock? bookID).map (fun s => s + (activeLoansOfBook st.loans bookID : Int))

/-- A loan row after a call, compared with the row before: the same id, user,
book and loan date, and the same row altogether when it was `returned`. -/
def LoanKept (old new : Loan) : Prop :=
  new.ID = old.ID ∧ new.UserID = old.UserID ∧ new.BookID = old.BookID ∧
    new.LoanDate = old.LoanDate ∧ (old.Status = "returned" → new = old)

/-- A store in which user 7 has returned book 1 and user 8 holds book 2. -/
def historyStore : Store :=
  ⟨[], [sampleBook 1 2, sampleBook 2 0],
    [⟨1, 7, 1, 100, some 200, "returned"⟩, ⟨2, 8, 2, 150, none, "active"⟩], 3⟩

/-- The handler `createLoanHandler` from its `UPDATE books` statement to the end,
for the book id and the user id it has read, after its duplicate check has
counted no active loan. `tx` is the state of the tables the `UPDATE` finds: in
a run without other requests the state the duplicate check has read, otherwise
the last committed state, which another request may have changed since the
check. -/
def createLoanUpdate (tx : Store) (env : Env) (sess : Session) (userID bookID : Int) :
    Outcome :=
  if env.faults.firstExecFails then
    ⟨tx, sess.Put "flashError" (.str "Error al actualizar stock del libro."),
      .error "Error de servidor al actualizar stock del libro" StatusInternalServerError⟩
  else if env.faults.rowsAffectedFails then
    ⟨tx, sess.Put "flashError" (.str "Error al verificar stock afectado."),
      .error "Error al verificar filas afectadas" StatusInternalServerError⟩
  else if (execDecrementStock tx.books bookID).2 = 0 then
    ⟨tx, sess.Put "flashError" (.str "No hay stock disponible para este libro."),
      .redirect ("/book?id=" ++ toString bookID) StatusSeeOther⟩
  else if env.faults.secondExecFails then
    ⟨tx, sess.Put "flashError" (.str "Error al registrar el préstamo."),
      .error "Error de servidor al registrar préstamo" StatusInternalServerError⟩
  else if env.faults.commitFails then
    ⟨tx, sess.Put "flashError" (.str "Error al finalizar el préstamo."),
      .error "Error de servidor al finalizar transacción de préstamo" StatusInternalServerError⟩
  else
    ⟨execInsertLoan { tx with books := (execDecrementStock tx.books bookID).1 }
        userID bookID env.now,
      sess.Put "flashSuccess" (.str "¡Libro prestado con éxito!"),
      .redirect ("/book?id=" ++ toString bookID) StatusSeeOther⟩

/-- A store with two copies of book 1 and no loan. -/
def twoCopiesStore : Store := ⟨[], [sampleBook 1 2], [], 1⟩

/-- The store `twoCopiesStore` after user 7 has borrowed book 1 at time 10. -/
def oneCopyLentStore : Store :=
  ⟨[], [sampleBook 1 1], [⟨1, 7, 1, 10, none, "active"⟩], 2⟩

/-! ## The other writers of the store: admin handlers and seeding

The columns an `INSERT` does not name, the ids `AUTO_INCREMENT` gives to users
and books, the result of an upload, the hash `bcrypt` computes, the clock as
the store keeps it and the integer the store reads in a string parameter of
`WHERE id = ?` are not in the sources: the environments below carry them. -/

/-- What `adminBookSaveHandler` finds outside the store. `coverUpload` and
`pdfUpload` are the results of `uploadFile`: `none` for an error, the empty
name when no file was sent. -/
structure BookSaveEnv where
  today : String
  nextMonth : String
  coverUpload : Option String
  pdfUpload : Option String
  newBookID : Int
  defaultGenre : String
  defaultStock : Int
  sqlID : String → Option Int
  insertFails : Bool
  beginFails : Bool
  coverExecFails : Bool
  pdfExecFails : Bool
  textExecFails : Bool
  commitFails : Bool

/-- The three `UPDATE books ... WHERE id = ?` of `adminBookSaveHandler` on one row:
the cover and the PDF when a file was sent, then title, author, description
and release date. -/
def saveBookRow (id : Option Int) (coverPath pdfPath title author description date : String)
    (b : Book) : Book :=
  if some b.ID = id then
    { b with
      CoverImagePath := if coverPath ≠ "" then coverPath else b.CoverImagePath
      PdfFilePath := if pdfPath ≠ "" then pdfPath else b.PdfFilePath
      Title := title
      Author := author
      Description := description
      ReleaseDate := date }
  else b

/-- The handler `adminBookSaveHandler`. The error of its `tx.Commit()` is not
checked: when the commit fails the handler still redirects. -/
def adminBookSaveHandler (st : Store) (env : BookSaveEnv) (sess : Session) (r : Request) :
    Outcome :=
  match env.coverUpload with
  | none => ⟨st, sess, .error "Error al subir imagen de portada" StatusInternalServerError⟩
  | some coverPath =>
    match env.pdfUpload with
    | none => ⟨st, sess, .error "Error al subir archivo PDF" StatusInternalServerError⟩
    | some pdfPath =>
      if r.FormValue "book_id" = "" ∨ r.FormValue "book_id" = "0" then
        if env.insertFails then
          ⟨st, sess, .error "Error de servidor al guardar libro" StatusInternalServerError⟩
        else
          ⟨{ st with
              books := st.books ++
              [⟨env.newBookID, r.FormValue "title", r.FormValue "author", env.defaultGenre,
                env.defaultStock, r.FormValue "description", coverPath, pdfPath,
                if r.FormValue "is_upcoming" = "on" then env.nextMonth else env.today⟩] },
            sess, .redirect "/admin/dashboard?success=book_saved" StatusSeeOther⟩
      else if env.beginFails then
        ⟨st, sess, .error "Error de servidor" StatusInternalServerError⟩
      else if coverPath ≠ "" ∧ env.coverExecFails = true then
        ⟨st, sess, .error "Error de servidor" StatusInternalServerError⟩
      else if pdfPath ≠ "" ∧ env.pdfExecFails = true then
        ⟨st, sess, .error "Error de servidor" StatusInternalServerError⟩
      else if env.textExecFails then
        ⟨st, sess, .error "Error de servidor" StatusInternalServerError⟩
      else if env.commitFails then
        ⟨st, sess, .redirect "/admin/dashboard?success=book_saved" StatusSeeOther⟩
      else
        ⟨{ st with
            books := st.books.map
              (saveBookRow (env.sqlID (r.FormValue "book_id")) coverPath pdfPath
                (r.FormValue "title") (r.FormValue "author") (r.FormValue "description")
                (if r.FormValue "is_upcoming" = "on" then env.nextMonth else env.today)) },
          sess, .redirect "/admin/dashboard?success=book_saved" StatusSeeOther⟩

/-- What `adminBookDeleteHandler` finds outside the store. -/
structure BookDeleteEnv where
  sqlID : String → Option Int
  queryFails : Bool
  deleteFails : Bool

/-- `DELETE FROM books WHERE id = ?` with the id the store reads in the
parameter. -/
def execDeleteBook (books : List Book) (id : Option Int) : List Book :=
  books.filter (fun b => decide (some b.ID ≠ id))

/-- The handler `adminBookDeleteHandler`; the removal of the files of the book is
not part of the store. The other tables are taken not to depend on the deleted
row. -/
def adminBookDeleteHandler (st : Store) (env : BookDeleteEnv) (sess : Session)
    (r : Request) : Outcome :=
  if r.method ≠ "POST" then
    ⟨st, sess, .error "Método no permitido" StatusMethodNotAllowed⟩
  else if r.QueryGet "id" = "" then
    ⟨st, sess, .error "ID de libro no proporcionado" StatusBadRequest⟩
  else if env.queryFails then
    ⟨st, sess, .error "Error de servidor" StatusInternalServerError⟩
  else if env.deleteFails then
    ⟨st, sess, .error "Error al eliminar libro" StatusInternalServerError⟩
  else
    ⟨{ st with books := execDeleteBook st.books (env.sqlID (r.QueryGet "id")) }, sess,
      .redirect "/admin/dashboard?success=book_deleted" StatusSeeOther⟩

/-- What `adminUserSaveHandler` finds outside the store; `hash` is
`bcrypt.GenerateFromPassword`, `none` when it fails. -/
structure UserSaveEnv where
  hash : String → Option String
  newUserID : Int
  createdAt : Nat
  sqlID : String → Option Int
  execFails : Bool

/-- The `UPDATE users ... WHERE id = ?` of `adminUserSaveHandler` on one row, with
the new hash when a password was sent. -/
def saveUserRow (id : Option Int) (username name email role : String)
    (hash : Option String) (u : User) : User :=
  if some u.ID = id then
    { u with
      Username := username
      Name := name
      Email := email
      Role := role
      Password := match hash with
        | some h => h
        | none => u.Password }
  else u

/-- The handler `adminUserSaveHandler`. -/
def adminUserSaveHandler (st : Store) (env : UserSaveEnv) (sess : Session) (r : Request) :
    Outcome :=
  if r.method ≠ "POST" then
    ⟨st, sess, .error "Método no permitido" StatusMethodNotAllowed⟩
  else if r.FormValue "username" = "" ∨ r.FormValue "name" = "" ∨ r.FormValue "email" = "" ∨
      r.FormValue "role" = "" then
    ⟨st, sess, .redirect "/admin/users/new?error=campos_requeridos" StatusSeeOther⟩
  else if r.FormValue "user_id" = "" ∨ r.FormValue "user_id" = "0" then
    if r.FormValue "password" = "" then
      ⟨st, sess, .redirect "/admin/users/new?error=password_requerida" StatusSeeOther⟩
    else
      match env.hash (r.FormValue "password") with
      | none =>
        ⟨st, sess, .error "Error interno al procesar contraseña" StatusInternalServerError⟩
      | some h =>
        if env.execFails then
          ⟨st, sess, .error "Error al crear usuario" StatusInternalServerError⟩
        else
          ⟨{ st with
              users := st.users ++
              [⟨env.newUserID, r.FormValue "username", r.FormValue "name", r.FormValue "email",
                h, r.FormValue "role", env.createdAt⟩] },
            sess, .redirect "/admin/dashboard?success=user_saved" StatusSeeOther⟩
  else if r.FormValue "password" ≠ "" then
    match env.hash (r.FormValue "password") with
    | none =>
      ⟨st, sess, .error "Error interno al procesar nueva contraseña" StatusInternalServerError⟩
    | some h =>
      if env.execFails then
        ⟨st, sess, .error "Error al actualizar usuario" StatusInternalServerError⟩
      else
        ⟨{ st with
            users := st.users.map
              (saveUserRow (env.sqlID (r.FormValue "user_id")) (r.FormValue "username")
                (r.FormValue "name") (r.FormValue "email") (r.FormValue "role") (some h)) },
          sess, .redirect "/admin/dashboard?success=user_saved" StatusSeeOther⟩
  else if env.execFails then
    ⟨st, sess, .error "Error al actualizar usuario" StatusInternalServerError⟩
  else
    ⟨{ st with
        users := st.users.map
          (saveUserRow (env.sqlID (r.FormValue "user_id")) (r.FormValue "username")
            (r.FormValue "name") (r.FormValue "email") (r.FormValue "role") none) },
      sess, .redirect "/admin/dashboard?success=user_saved" StatusSeeOther⟩

/-- What `seedUsers` finds outside the store; `hashPassword` gives the empty
string when it fails, its error being dropped. -/
structure SeedUsersEnv where
  hashPassword : String → String
  newUserID : Int
  createdAt : Nat
  countFails : Bool
  insertFails : Bool

/-- The function `seedUsers`. The error of the count is dropped, the count staying
0; when the insert fails the program ends with the store as it was. -/
def seedUsers (st : Store) (env : SeedUsersEnv) : Store :=
  if (if env.countFails then 0 else st.users.length) > 0 then st
  else if env.insertFails then st
  else
    { st with
      users := st.users ++
        [⟨env.newUserID, "admin", "Administrador", "admin@example.com",
            env.hashPassword "admin123", "admin", env.createdAt⟩,
          ⟨env.newUserID + 1, "usuario1", "Usuario Prueba Uno", "user1@example.com",
            env.hashPassword "user123", "user", env.createdAt⟩,
          ⟨env.newUserID + 2, "usuario2", "Usuario Prueba Dos", "user2@example.com",
            env.hashPassword "user123", "user", env.createdAt⟩] }

/-- One book of the seeding tables, as the loop of `seedBooks` has it after the
lookups of title, author, genre and PDF name, with the fate of its insert. -/
structure SeedBook where
  title : String
  author : String
  genre : String
  imgFilename : String
  pdfFilename : String
  upcoming : Bool
  insertFails : Bool

/-- What `seedBooks` finds outside the store: the seeding tables, the clock a
month ahead and a month back, and the first free id. -/
structure SeedBooksEnv where
  bookImageFilenames : List SeedBook
  nextMonth : String
  lastMonth : String
  newBookID : Int
  countFails : Bool
  prepareFails : Bool

/-- The rows the loop of `seedBooks` inserts, each with stock 20; a failed insert is
only logged. -/
def seedBookRows (nextMonth lastMonth : String) : Int → List SeedBook → List Book
  | _, [] => []
  | id, b :: rest =>
    if b.insertFails then seedBookRows nextMonth lastMonth id rest
    else
      ⟨id, b.title, b.author, b.genre, 20, "Descripción de " ++ b.title, b.imgFilename,
          b.pdfFilename, if b.upcoming then nextMonth else lastMonth⟩ ::
        seedBookRows nextMonth lastMonth (id + 1) rest

/-- The function `seedBooks`. -/
def seedBooks (st : Store) (env : SeedBooksEnv) : Store :=
  if (if env.countFails then 0 else st.books.length) ≥ env.bookImageFilenames.length then st
  else if env.prepareFails then st
  else
    { st with
      books := st.books ++
        seedBookRows env.nextMonth env.lastMonth env.newBookID env.bookImageFilenames }

/-- The statements of `seedLoans` that can fail, in the order of the source. -/
structure SeedLoansFaults where
  countFails : Bool
  userQueryFails : Bool
  book1QueryFails : Bool
  book2QueryFails : Bool
  book3QueryFails : Bool
  insert1Fails : Bool
  update1Fails : Bool
  insert2Fails : Bool
  insert3Fails : Bool
  update3Fails : Bool

/-- No statement of `seedLoans` fails. -/
def SeedLoansFaults.none : SeedLoansFaults :=
  ⟨false, false, false, false, false, false, false, false, false, false⟩

/-- `SELECT id FROM books WHERE title = ?` scanned into an `int` that starts at
0, the error dropped. -/
def selectBookIDByTitle (books : List Book) (title : String) (fails : Bool) : Int :=
  if fails then 0
  else
    match books.find? (fun b => b.Title == title) with
    | some b => b.ID
    | none => 0

/-- `UPDATE books SET stock = stock - 1 WHERE id = ?`, the statement of
`seedLoans`: no condition on the stock. -/
def execLowerStock (books : List Book) (bookID : Int) : List Book :=
  books.map (fun b => if b.ID = bookID then { b with Stock := b.Stock - 1 } else b)

/-- One of the two active loans of `seedLoans`: when the book was found, the
`INSERT INTO loans` and, when that did not fail, the lowering of the stock,
whose error is dropped. Each statement is sent on the pool, not in a
transaction. -/
def seedActiveLoan (st : Store) (userID bookID : Int) (loanDate : Nat)
    (insertFails updateFails : Bool) : Store :=
  if bookID = 0 then st
  else if insertFails then st
  else if updateFails then
    { st with
      loans := st.loans ++ [⟨st.nextLoanID, userID, bookID, loanDate, none, "active"⟩]
      nextLoanID := st.nextLoanID + 1 }
  else
    { st with
      loans := st.loans ++ [⟨st.nextLoanID, userID, bookID, loanDate, none, "active"⟩]
      nextLoanID := st.nextLoanID + 1
      books := execLowerStock st.books bookID }

/-- The returned loan of `seedLoans`: one `INSERT INTO loans`, no change of
stock. -/
def seedReturnedLoan (st : Store) (userID bookID : Int) (loanDate returnDate : Nat)
    (insertFails : Bool) : Store :=
  if bookID = 0 then st
  else if insertFails then st
  else
    { st with
      loans := st.loans ++
        [⟨st.nextLoanID, userID, bookID, loanDate, some returnDate, "returned"⟩]
      nextLoanID := st.nextLoanID + 1 }

/-- The function `seedLoans` at the clock `now` in seconds, a day being 86400 of
them. The three book ids are read before the first insert. -/
def seedLoans (st : Store) (now : Nat) (f : SeedLoansFaults) : Store :=
  if (if f.countFails then 0 else st.loans.length) > 0 then st
  else if f.userQueryFails then st
  else
    match selectUserByUsername st.users "usuario1" with
    | none => st
    | some u =>
      seedActiveLoan
        (seedReturnedLoan
          (seedActiveLoan st u.ID (selectBookIDByTitle st.books "1984" f.book1QueryFails)
            (now - 7 * 86400) f.insert1Fails f.update1Fails)
          u.ID (selectBookIDByTitle st.books "El Principito" f.book2QueryFails)
          (now - 30 * 86400) (now - 15 * 86400) f.insert2Fails)
        u.ID (selectBookIDByTitle st.books "Maus" f.book3QueryFails)
        (now - 2 * 86400) f.insert3Fails f.update3Fails

/-- The handlers that send only `SELECT` statements to the store, or none. -/
inductive ReadOnlyHandler where
  | homeRedirectHandler
  | catalogHandler
  | upcomingReleasesHandler
  | bookDetailHandler
  | myLoansHandler
  | adminDashboardHandler
  | adminBookFormHandler
  | adminUserFormHandler

/-- The operations of the program other than the two calls of the loan workflow,
each with what it finds outside the store. -/
inductive Operation where
  | login (env : LoginEnv) (r : Request)
  | logout (r : Request)
  | view (h : ReadOnlyHandler) (r : Request)
  | adminBookSave (env : BookSaveEnv) (sess : Session) (r : Request)
  | adminBookDelete (env : BookDeleteEnv) (sess : Session) (r : Request)
  | adminUserSave (env : UserSaveEnv) (sess : Session) (r : Request)
  | adminUserDelete (env : Env) (sess : Session) (r : Request)
  | seedUsers (env : SeedUsersEnv)
  | seedBooks (env : SeedBooksEnv)
  | seedLoans (now : Nat) (f : SeedLoansFaults)

/-- The store an operation leaves. `loginHandler` sends one `SELECT`,
`logoutHandler` no statement. -/
def Operation.run (st : Store) : Operation → Store
  | .login _ _ => st
  | .logout _ => st
  | .view _ _ => st
  | .adminBookSave env sess r => (adminBookSaveHandler st env sess r).store
  | .adminBookDelete env sess r => (adminBookDeleteHandler st env sess r).store
  | .adminUserSave env sess r => (adminUserSaveHandler st env sess r).store
  | .adminUserDelete env sess r => (adminUserDeleteHandler st env sess r).store
  | .seedUsers env => EBooks.seedUsers st env
  | .seedBooks env => EBooks.seedBooks st env
  | .seedLoans now f => EBooks.seedLoans st now f

/-- Whether the operation is a run of `seedLoans`. -/
def Operation.isSeedLoans : Operation → Bool
  | .seedLoans _ _ => true
  | _ => false

/-- Whether the operation is a request to `adminBookDeleteHandler`. -/
def Operation.isBookDelete : Operation → Bool
  | .adminBookDelete _ _ _ => true
  | _ => false

/-- The status of a loan, if the loan exists. -/
def Store.loanStatus? (st : Store) (loanID : Int) : Option String :=
  (st.loans.find? (fun l => l.ID == loanID)).map Loan.Status

/-- A store after `seedUsers` and `seedBooks`, before `seedLoans`: the user
`usuario1`, the three books `seedLoans` looks for, each with stock 20, and no
loan. -/
def seededStore : Store :=
  ⟨[⟨1, "admin", "Administrador", "admin@example.com", "", "admin", 0⟩,
    ⟨2, "usuario1", "Usuario Prueba Uno", "user1@example.com", "", "user", 0⟩],
   [⟨1, "1984", "George Orwell", "Distopía", 20, "Descripción de 1984", "1984.jpg",
      "1984.pdf", "2026-10-02"⟩,
    ⟨2, "El Principito", "Antoine de Saint-Exupéry", "Fábula", 20,
      "Descripción de El Principito", "el_principito.jpg", "el_principito.pdf", "2026-10-02"⟩,
    ⟨3, "Maus", "Art Spiegelman", "Novela Gráfica", 20, "Descripción de Maus", "maus.jpg",
      "maus.pdf", "2026-10-02"⟩],
   [], 1⟩

/-- What `adminBookSaveHandler` finds on 2026-11-02 when no file is sent and no
statement fails, the store reading decimal ids. -/
def bookSaveEnv : BookSaveEnv :=
  ⟨"2026-11-02", "2026-12-02", some "", some "", 4, "", 0, Atoi,
    false, false, false, false, false, false⟩

/-- The form an administrator sends to edit book 1. -/
def bookSaveRequest : Request :=
  ⟨"POST", "/admin/books/save",
    [("book_id", "1"), ("title", "Mil novecientos ochenta y cuatro"),
      ("author", "George Orwell"), ("description", "Nueva edición")], []⟩

/-! ## Lemmas -/

theorem map_split {α : Type} (f : α → α) (pre post : List α) (b : α)
    (hpre : ∀ x ∈ pre, f x = x) (hpost : ∀ x ∈ post, f x = x) :
    (pre ++ b :: post).map f = pre ++ f b :: post := by
  rw [List.map_append, List.map_cons]
  congr 1
  · conv_rhs => rw [← List.map_id pre]
    exact List.map_congr_left (by simpa using hpre)
  · congr 1
    conv_rhs => rw [← List.map_id post]
    exact List.map_congr_left (by simpa using hpost)

theorem split_of_mem_nodup {α : Type} (key : α → Int) (l : List α) (b : α)
    (hmem : b ∈ l) (hnd : (l.map key).Nodup) :
    ∃ pre post, l = pre ++ b :: post ∧ (∀ x ∈ pre, key x ≠ key b) ∧
      (∀ x ∈ post, key x ≠ key b) := by
  obtain ⟨pre, post, rfl⟩ := List.append_of_mem hmem
  refine ⟨pre, post, rfl, ?_, ?_⟩
  · intro x hx hk
    rw [List.map_append, List.map_cons, List.nodup_append] at hnd
    exact hnd.2.2 (List.mem_map_of_mem key hx) (hk ▸ List.mem_cons_self _ _)
  · intro x hx hk
    rw [List.map_append, List.map_cons, List.nodup_append] at hnd
    have := (List.nodup_cons.mp hnd.2.1).1
    exact this (hk ▸ List.mem_map_of_mem key hx)

theorem Session.GetString_Put (s : Session) (key v : String) :
    (s.Put key (.str v)).GetString key = v := by
  simp [Session.Put, Session.GetString, Session.Get]

theorem book?_mem {st : Store} {bookID : Int} {b : Book} (h : st.book? bookID = some b) :
    b ∈ st.books ∧ b.ID = bookID := by
  unfold Store.book? at h
  have h1 := List.mem_of_find?_eq_some h
  have h2 := List.find?_some h
  exact ⟨h1, by simpa using h2⟩

/-! ### The branches of `createLoanHandler` -/

theorem createLoanHandler_call (st : Store) (env : Env) (sess : Session) (r : Request)
    (userID bookID : Int) (hc : IsCall sess r userID bookID) :
    createLoanHandler st env sess r = createLoanTx st env sess userID bookID := by
  obtain ⟨hm, ha, hu, hne⟩ := hc
  subst hu
  unfold createLoanHandler
  rw [if_neg (by simp [hm]), ha]
  simp only [hne, if_false]

theorem createLoanHandler_cases (st : Store) (env : Env) (sess : Session) (r : Request) :
    (createLoanHandler st env sess r).store = st ∨
    ∃ userID bookID, createLoanHandler st env sess r = createLoanTx st env sess userID bookID := by
  unfold createLoanHandler
  by_cases h1 : r.method ≠ "POST"
  · rw [if_pos h1]; exact Or.inl rfl
  · rw [if_neg h1]
    cases hA : Atoi (r.FormValue "book_id") with
    | none => exact Or.inl rfl
    | some bookID =>
      by_cases h2 : sess.GetInt "authenticatedUserID" = 0
      · simp only [h2, if_true]; exact Or.inl trivial
      · simp only [h2, if_false]; exact Or.inr ⟨_, _, rfl⟩

theorem createLoanTx_alreadyBorrowed (st : Store) (env : Env) (sess : Session)
    (userID bookID : Int)
    (hb : env.faults.beginFails = false) (hq : env.faults.queryFails = false)
    (hcount : 0 < countActiveLoans st.loans userID bookID) :
    createLoanTx st env sess userID bookID =
      ⟨st, sess.Put "flashError" (.str "Ya tienes este libro prestado."),
        .redirect ("/book?id=" ++ toString bookID) StatusSeeOther⟩ := by
  simp only [createLoanTx, hb, hq, hcount, if_false, if_true, gt_iff_lt, Bool.false_eq_true]

theorem createLoanTx_noRows (st : Store) (env : Env) (sess : Session)
    (userID bookID : Int)
    (hb : env.faults.beginFails = false) (hq : env.faults.queryFails = false)
    (he : env.faults.firstExecFails = false) (hr : env.faults.rowsAffectedFails = false)
    (hcount : countActiveLoans st.loans userID bookID = 0)
    (hrows : (execDecrementStock st.books bookID).2 = 0) :
    createLoanTx st env sess userID bookID =
      ⟨st, sess.Put "flashError" (.str "No hay stock disponible para este libro."),
        .redirect ("/book?id=" ++ toString bookID) StatusSeeOther⟩ := by
  simp only [createLoanTx, hb, hq, he, hr, hcount, hrows, if_false, if_true, gt_iff_lt,
    Bool.false_eq_true, lt_self_iff_false]

theorem createLoanTx_commit (st : Store) (env : Env) (sess : Session)
    (userID bookID : Int) (hf : env.faults = Faults.none)
    (hcount : countActiveLoans st.loans userID bookID = 0)
    (hrows : (execDecrementStock st.books bookID).2 ≠ 0) :
    createLoanTx st env sess userID bookID =
      ⟨execInsertLoan { st with books := (execDecrementStock st.books bookID).1 }
          userID bookID env.now,
        sess.Put "flashSuccess" (.str "¡Libro prestado con éxito!"),
        .redirect ("/book?id=" ++ toString bookID) StatusSeeOther⟩ := by
  simp only [createLoanTx, hf, Faults.none, hcount, hrows, if_false, gt_iff_lt,
    Bool.false_eq_true, lt_self_iff_false]

/-- The store `createLoanTx` commits is the old one, or the old one after the
stock decrement has affected a row and the loan row of a pair without active
loan has been inserted. -/
theorem createLoanTx_store (st : Store) (env : Env) (sess : Session) (userID bookID : Int) :
    (createLoanTx st env sess userID bookID).store = st ∨
    (countActiveLoans st.loans userID bookID = 0 ∧
      (createLoanTx st env sess userID bookID).store =
        execInsertLoan { st with books := (execDecrementStock st.books bookID).1 }
          userID bookID env.now) := by
  unfold createLoanTx
  split_ifs with h1 h2 h3 h4 h5 h6 h7 h8
  all_goals first
    | exact Or.inl rfl
    | exact Or.inr ⟨by omega, rfl⟩

/-! ### The branches of `returnLoanHandler` -/

theorem returnLoanHandler_call (st : Store) (env : Env) (sess : Session) (r : Request)
    (userID bookID : Int) (hc : IsCall sess r userID bookID) :
    returnLoanHandler st env sess r = returnLoanTx st env sess userID bookID := by
  obtain ⟨hm, ha, hu, hne⟩ := hc
  subst hu
  unfold returnLoanHandler
  rw [if_neg (by simp [hm]), ha]
  simp only [hne, if_false]

theorem returnLoanHandler_cases (st : Store) (env : Env) (sess : Session) (r : Request) :
    (returnLoanHandler st env sess r).store = st ∨
    ∃ userID bookID, returnLoanHandler st env sess r = returnLoanTx st env sess userID bookID := by
  unfold returnLoanHandler
  by_cases h1 : r.method ≠ "POST"
  · rw [if_pos h1]; exact Or.inl rfl
  · rw [if_neg h1]
    cases hA : Atoi (r.FormValue "book_id") with
    | none => exact Or.inl rfl
    | some bookID =>
      by_cases h2 : sess.GetInt "authenticatedUserID" = 0
      · simp only [h2, if_true]; exact Or.inl trivial
      · simp only [h2, if_false]; exact Or.inr ⟨_, _, rfl⟩

theorem returnLoanUpdate_store (tx : Store) (env : Env) (sess : Session) (bookID loanID : Int) :
    (returnLoanUpdate tx env sess bookID loanID).store = tx ∨
    (0 < (execReturnLoan tx.loans loanID env.now).2 ∧
      (returnLoanUpdate tx env sess bookID loanID).store =
        { tx with loans := (execReturnLoan tx.loans loanID env.now).1,
                  books := execIncrementStock tx.books bookID }) := by
  unfold returnLoanUpdate
  split_ifs
  all_goals first
    | exact Or.inl rfl
    | exact Or.inr ⟨by assumption, rfl⟩

theorem returnLoanTx_store (st : Store) (env : Env) (sess : Session) (userID bookID : Int) :
    (returnLoanTx st env sess userID bookID).store = st ∨
    ∃ loanID, selectActiveLoan st.loans userID bookID = some loanID ∧
      (returnLoanTx st env sess userID bookID).store =
        { st with loans := (execReturnLoan st.loans loanID env.now).1,
                  books := execIncrementStock st.books bookID } := by
  unfold returnLoanTx
  split_ifs with h1 h2
  · exact Or.inl rfl
  · exact Or.inl rfl
  · cases hS : selectActiveLoan st.loans userID bookID with
    | none => exact Or.inl rfl
    | some loanID =>
      rcases returnLoanUpdate_store st env sess bookID loanID with h | ⟨_, h⟩
      · exact Or.inl h
      · exact Or.inr ⟨loanID, rfl, h⟩

theorem returnLoanTx_noActive (st : Store) (env : Env) (sess : Session)
    (userID bookID : Int)
    (hb : env.faults.beginFails = false) (hq : env.faults.queryFails = false)
    (hsel : selectActiveLoan st.loans userID bookID = none) :
    returnLoanTx st env sess userID bookID =
      ⟨st, sess.Put "flashError" (.str "No se encontró un préstamo activo para este libro."),
        .redirect "/my-loans" StatusSeeOther⟩ := by
  simp only [returnLoanTx, hb, hq, hsel, if_false, Bool.false_eq_true]

theorem returnLoanUpdate_commit (tx : Store) (env : Env) (sess : Session)
    (bookID loanID : Int) (hf : env.faults = Faults.none)
    (hrows : 0 < (execReturnLoan tx.loans loanID env.now).2) :
    returnLoanUpdate tx env sess bookID loanID =
      ⟨{ tx with loans := (execReturnLoan tx.loans loanID env.now).1,
                 books := execIncrementStock tx.books bookID },
        sess.Put "flashSuccess" (.str "¡Libro devuelto con éxito!"),
        .redirect "/my-loans" StatusSeeOther⟩ := by
  simp only [returnLoanUpdate, hf, Faults.none, hrows, if_false, if_true, gt_iff_lt,
    Bool.false_eq_true]

theorem returnLoanUpdate_noRows (tx : Store) (env : Env) (sess : Session)
    (bookID loanID : Int)
    (he : env.faults.firstExecFails = false) (hr : env.faults.rowsAffectedFails = false)
    (hrows : (execReturnLoan tx.loans loanID env.now).2 = 0) :
    returnLoanUpdate tx env sess bookID loanID =
      ⟨tx, sess.Put "flashError" (.str "El préstamo ya fue devuelto o no es válido."),
        .redirect "/my-loans" StatusSeeOther⟩ := by
  simp only [returnLoanUpdate, he, hr, hrows, if_false, gt_iff_lt, Bool.false_eq_true,
    lt_self_iff_false]

theorem returnLoanTx_commit (st : Store) (env : Env) (sess : Session)
    (userID bookID loanID : Int) (hf : env.faults = Faults.none)
    (hsel : selectActiveLoan st.loans userID bookID = some loanID)
    (hrows : 0 < (execReturnLoan st.loans loanID env.now).2) :
    returnLoanTx st env sess userID bookID =
      ⟨{ st with loans := (execReturnLoan st.loans loanID env.now).1,
                 books := execIncrementStock st.books bookID },
        sess.Put "flashSuccess" (.str "¡Libro devuelto con éxito!"),
        .redirect "/my-loans" StatusSeeOther⟩ := by
  rw [← returnLoanUpdate_commit st env sess bookID loanID hf hrows]
  simp only [returnLoanTx, hf, Faults.none, hsel, if_false, Bool.false_eq_true]

theorem decrementRow_nonneg (bookID : Int) (b : Book) (h : 0 ≤ b.Stock) :
    0 ≤ (decrementRow bookID b).Stock := by
  unfold decrementRow
  split_ifs with hc
  · have := hc.2
    show 0 ≤ b.Stock - 1
    omega
  · exact h

theorem incrementRow_nonneg (bookID : Int) (b : Book) (h : 0 ≤ b.Stock) :
    0 ≤ (incrementRow bookID b).Stock := by
  unfold incrementRow
  split_ifs with hc
  · show 0 ≤ b.Stock + 1
    omega
  · exact h

theorem createLoanTx_stockNonneg (st : Store) (env : Env) (sess : Session)
    (userID bookID : Int) (h : StockNonneg st) :
    StockNonneg (createLoanTx st env sess userID bookID).store := by
  rcases createLoanTx_store st env sess userID bookID with he | ⟨_, he⟩
  · rw [he]; exact h
  · rw [he]
    intro b hb
    simp only [execInsertLoan, execDecrementStock, List.mem_map] at hb
    obtain ⟨a, ha, rfl⟩ := hb
    exact decrementRow_nonneg bookID a (h a ha)

theorem returnLoanTx_stockNonneg (st : Store) (env : Env) (sess : Session)
    (userID bookID : Int) (h : StockNonneg st) :
    StockNonneg (returnLoanTx st env sess userID bookID).store := by
  rcases returnLoanTx_store st env sess userID bookID with he | ⟨loanID, _, he⟩
  · rw [he]; exact h
  · rw [he]
    intro b hb
    simp only [execIncrementStock, List.mem_map] at hb
    obtain ⟨a, ha, rfl⟩ := hb
    exact incrementRow_nonneg bookID a (h a ha)

theorem Call.run_stockNonneg (st : Store) (c : Call) (h : StockNonneg st) :
    StockNonneg (c.run st) := by
  cases c with
  | borrowBook env sess r =>
    rcases createLoanHandler_cases st env sess r with he | ⟨u, b, he⟩
    · simp only [Call.run, Call.outcome, he]; exact h
    · simp only [Call.run, Call.outcome, he]; exact createLoanTx_stockNonneg st env sess u b h
  | returnBook env sess r =>
    rcases returnLoanHandler_cases st env sess r with he | ⟨u, b, he⟩
    · simp only [Call.run, Call.outcome, he]; exact h
    · simp only [Call.run, Call.outcome, he]; exact returnLoanTx_stockNonneg st env sess u b h

/-- An invariant of single calls holds in every store a run reaches. -/
theorem reached_invariant (P : Store → Prop) (hstep : ∀ st c, P st → P (Call.run st c))
    (calls : List Call) : ∀ st, P st → ∀ s ∈ reached st calls, P s := by
  induction calls with
  | nil =>
    intro st h s hs
    simp only [reached, List.mem_singleton] at hs
    exact hs ▸ h
  | cons c cs ih =>
    intro st h s hs
    simp only [reached, List.mem_cons] at hs
    rcases hs with rfl | hs
    · exact h
    · exact ih (c.run st) (hstep st c h) s hs

theorem countActiveLoans_append (l₁ l₂ : List Loan) (u b : Int) :
    countActiveLoans (l₁ ++ l₂) u b = countActiveLoans l₁ u b + countActiveLoans l₂ u b := by
  simp [countActiveLoans, List.filter_append]

theorem isActiveLoan_returnRow (u b loanID : Int) (now : Nat) (l : Loan)
    (h : isActiveLoan u b (returnRow loanID now l) = true) :
    returnRow loanID now l = l ∧ isActiveLoan u b l = true := by
  unfold returnRow at h ⊢
  split_ifs at h ⊢ with hc
  · simp [isActiveLoan] at h
  · exact ⟨rfl, h⟩

theorem countActiveLoans_returnRow_le (loans : List Loan) (loanID : Int) (now : Nat)
    (u b : Int) :
    countActiveLoans (loans.map (returnRow loanID now)) u b ≤ countActiveLoans loans u b := by
  induction loans with
  | nil => simp [countActiveLoans]
  | cons l ls ih =>
    unfold countActiveLoans at ih ⊢
    rw [List.map_cons, List.filter_cons, List.filter_cons]
    cases h : isActiveLoan u b (returnRow loanID now l) with
    | false =>
      cases h2 : isActiveLoan u b l with
      | false => simpa using ih
      | true =>
        simp only [Bool.false_eq_true, if_false, if_true, List.length_cons]
        omega
    | true =>
      rw [(isActiveLoan_returnRow u b loanID now l h).2]
      simp only [if_true, List.length_cons]
      omega

theorem createLoanTx_atMostOneActive (st : Store) (env : Env) (sess : Session)
    (userID bookID : Int) (h : AtMostOneActive st) :
    AtMostOneActive (createLoanTx st env sess userID bookID).store := by
  rcases createLoanTx_store st env sess userID bookID with he | ⟨h0, he⟩
  · rw [he]; exact h
  · rw [he]
    intro u b
    simp only [execInsertLoan, countActiveLoans_append]
    by_cases hp : u = userID ∧ b = bookID
    · obtain ⟨rfl, rfl⟩ := hp
      rw [h0]
      simp only [countActiveLoans, zero_add]
      exact List.length_filter_le _ _
    · have : countActiveLoans
          [(⟨st.nextLoanID, userID, bookID, env.now, none, "active"⟩ : Loan)] u b = 0 := by
        simp only [countActiveLoans, List.length_eq_zero, List.filter_eq_nil_iff,
          List.mem_singleton, forall_eq, isActiveLoan, Bool.and_eq_true, beq_iff_eq, not_and]
        intro h1 _
        exact absurd ⟨h1.1.symm, h1.2.symm⟩ hp
      rw [this]
      exact h u b

theorem returnLoanTx_atMostOneActive (st : Store) (env : Env) (sess : Session)
    (userID bookID : Int) (h : AtMostOneActive st) :
    AtMostOneActive (returnLoanTx st env sess userID bookID).store := by
  rcases returnLoanTx_store st env sess userID bookID with he | ⟨loanID, _, he⟩
  · rw [he]; exact h
  · rw [he]
    intro u b
    exact le_trans (countActiveLoans_returnRow_le st.loans loanID env.now u b) (h u b)

theorem Call.run_atMostOneActive (st : Store) (c : Call) (h : AtMostOneActive st) :
    AtMostOneActive (c.run st) := by
  cases c with
  | borrowBook env sess r =>
    rcases createLoanHandler_cases st env sess r with he | ⟨u, b, he⟩
    · simp only [Call.run, Call.outcome, he]; exact h
    · simp only [Call.run, Call.outcome, he]; exact createLoanTx_atMostOneActive st env sess u b h
  | returnBook env sess r =>
    rcases returnLoanHandler_cases st env sess r with he | ⟨u, b, he⟩
    · simp only [Call.run, Call.outcome, he]; exact h
    · simp only [Call.run, Call.outcome, he]; exact returnLoanTx_atMostOneActive st env sess u b h

/-! ### The SQL statements on a table whose key is unique -/

theorem isActiveLoan_iff (userID bookID : Int) (l : Loan) :
    isActiveLoan userID bookID l = true ↔
      l.UserID = userID ∧ l.BookID = bookID ∧ l.Status = "active" := by
  simp [isActiveLoan, and_assoc]

theorem countActiveLoans_pos (loans : List Loan) (userID bookID : Int)
    (h : ∃ l ∈ loans, l.UserID = userID ∧ l.BookID = bookID ∧ l.Status = "active") :
    0 < countActiveLoans loans userID bookID := by
  obtain ⟨l, hl, hact⟩ := h
  unfold countActiveLoans
  apply List.length_pos_of_mem (a := l)
  exact List.mem_filter.mpr ⟨hl, (isActiveLoan_iff userID bookID l).mpr hact⟩

theorem filter_active_eq_nil (loans : List Loan) (userID bookID : Int)
    (h : ∀ l ∈ loans, ¬(l.UserID = userID ∧ l.BookID = bookID ∧ l.Status = "active")) :
    loans.filter (isActiveLoan userID bookID) = [] := by
  rw [List.filter_eq_nil_iff]
  intro l hl hact
  exact h l hl ((isActiveLoan_iff userID bookID l).mp hact)

theorem countActiveLoans_zero (loans : List Loan) (userID bookID : Int)
    (h : ∀ l ∈ loans, ¬(l.UserID = userID ∧ l.BookID = bookID ∧ l.Status = "active")) :
    countActiveLoans loans userID bookID = 0 := by
  unfold countActiveLoans
  rw [filter_active_eq_nil loans userID bookID h]
  rfl

theorem selectActiveLoan_none (loans : List Loan) (userID bookID : Int)
    (h : ∀ l ∈ loans, ¬(l.UserID = userID ∧ l.BookID = bookID ∧ l.Status = "active")) :
    selectActiveLoan loans userID bookID = none := by
  unfold selectActiveLoan
  rw [filter_active_eq_nil loans userID bookID h]
  rfl

theorem latestLoan_spec (l : List Loan) :
    (l = [] ∧ latestLoan l = none) ∨
    ∃ m, latestLoan l = some m ∧ m ∈ l ∧ ∀ x ∈ l, x.LoanDate ≤ m.LoanDate := by
  induction l with
  | nil => exact Or.inl ⟨rfl, rfl⟩
  | cons a as ih =>
    right
    rcases ih with ⟨rfl, _⟩ | ⟨m, hm, hmem, hmax⟩
    · exact ⟨a, rfl, List.mem_cons_self _ _, by simp⟩
    · simp only [latestLoan, hm]
      by_cases hlt : a.LoanDate < m.LoanDate
      · refine ⟨m, by simp [hlt], List.mem_cons_of_mem _ hmem, ?_⟩
        intro x hx
        rcases List.mem_cons.mp hx with rfl | hx
        · omega
        · exact hmax x hx
      · refine ⟨a, by simp [hlt], List.mem_cons_self _ _, ?_⟩
        intro x hx
        rcases List.mem_cons.mp hx with rfl | hx
        · exact le_refl _
        · have := hmax x hx
          omega

/-- The `SELECT` of `returnLoanHandler` finds a loan as soon as the pair has an
active one: a row of the table, active for the pair, whose loan date is the
greatest among the active loans of the pair. -/
theorem selectActiveLoan_some (loans : List Loan) (userID bookID : Int)
    (h : ∃ l ∈ loans, l.UserID = userID ∧ l.BookID = bookID ∧ l.Status = "active") :
    ∃ L, selectActiveLoan loans userID bookID = some L.ID ∧ L ∈ loans ∧
      (L.UserID = userID ∧ L.BookID = bookID ∧ L.Status = "active") ∧
      ∀ x ∈ loans, (x.UserID = userID ∧ x.BookID = bookID ∧ x.Status = "active") →
        x.LoanDate ≤ L.LoanDate := by
  obtain ⟨l, hl, hact⟩ := h
  have hmemf : l ∈ loans.filter (isActiveLoan userID bookID) :=
    List.mem_filter.mpr ⟨hl, (isActiveLoan_iff userID bookID l).mpr hact⟩
  rcases latestLoan_spec (loans.filter (isActiveLoan userID bookID)) with ⟨hnil, _⟩ | ⟨m, hm, hmem, hmax⟩
  · rw [hnil] at hmemf
    exact absurd hmemf (List.not_mem_nil _)
  · have hm2 := List.mem_filter.mp hmem
    refine ⟨m, ?_, hm2.1, (isActiveLoan_iff userID bookID m).mp hm2.2, ?_⟩
    · simp only [selectActiveLoan, hm, Option.map_some']
    · intro x hx hxa
      exact hmax x (List.mem_filter.mpr ⟨hx, (isActiveLoan_iff userID bookID x).mpr hxa⟩)

theorem execDecrementStock_split (pre post : List Book) (b : Book) (bookID : Int)
    (hpre : ∀ x ∈ pre, x.ID ≠ bookID) (hpost : ∀ x ∈ post, x.ID ≠ bookID)
    (hb : b.ID = bookID) :
    execDecrementStock (pre ++ b :: post) bookID =
      (pre ++ decrementRow bookID b :: post, if 0 < b.Stock then 1 else 0) := by
  unfold execDecrementStock
  refine Prod.ext ?_ ?_
  · exact map_split _ pre post b (fun x hx => by simp [decrementRow, hpre x hx])
      (fun x hx => by simp [decrementRow, hpost x hx])
  · have h1 : pre.filter (fun b => b.ID == bookID && decide (0 < b.Stock)) = [] := by
      rw [List.filter_eq_nil_iff]
      intro x hx; simp [hpre x hx]
    have h2 : post.filter (fun b => b.ID == bookID && decide (0 < b.Stock)) = [] := by
      rw [List.filter_eq_nil_iff]
      intro x hx; simp [hpost x hx]
    simp only [List.filter_append, List.filter_cons, h1, h2, hb, beq_self_eq_true,
      Bool.true_and, decide_eq_true_eq, List.nil_append]
    split_ifs <;> rfl

theorem execIncrementStock_split (pre post : List Book) (b : Book) (bookID : Int)
    (hpre : ∀ x ∈ pre, x.ID ≠ bookID) (hpost : ∀ x ∈ post, x.ID ≠ bookID) :
    execIncrementStock (pre ++ b :: post) bookID = pre ++ incrementRow bookID b :: post := by
  unfold execIncrementStock
  exact map_split _ pre post b (fun x hx => by simp [incrementRow, hpre x hx])
    (fun x hx => by simp [incrementRow, hpost x hx])

theorem execReturnLoan_split (pre post : List Loan) (L : Loan) (loanID : Int) (now : Nat)
    (hpre : ∀ x ∈ pre, x.ID ≠ loanID) (hpost : ∀ x ∈ post, x.ID ≠ loanID)
    (hL : L.ID = loanID) :
    execReturnLoan (pre ++ L :: post) loanID now =
      (pre ++ returnRow loanID now L :: post,
        if returnRow loanID now L = L then 0 else 1) := by
  unfold execReturnLoan
  refine Prod.ext ?_ ?_
  · exact map_split _ pre post L (fun x hx => by simp [returnRow, hpre x hx])
      (fun x hx => by simp [returnRow, hpost x hx])
  · have h1 : pre.filter (fun l => l.ID == loanID && returnRow loanID now l != l) = [] := by
      rw [List.filter_eq_nil_iff]
      intro x hx; simp [hpre x hx]
    have h2 : post.filter (fun l => l.ID == loanID && returnRow loanID now l != l) = [] := by
      rw [List.filter_eq_nil_iff]
      intro x hx; simp [hpost x hx]
    simp only [List.filter_append, List.filter_cons, h1, h2, hL, beq_self_eq_true,
      Bool.true_and, List.nil_append, bne_iff_ne, ne_eq, ite_not]
    split_ifs <;> rfl

/-- In a well-formed store the row of a book is the only row with its id. -/
theorem Store.WF.books_split {st : Store} (hwf : st.WF) {bookID : Int} {b : Book}
    (hb : st.book? bookID = some b) :
    ∃ pre post, st.books = pre ++ b :: post ∧ b.ID = bookID ∧
      (∀ x ∈ pre, x.ID ≠ bookID) ∧ (∀ x ∈ post, x.ID ≠ bookID) := by
  obtain ⟨hmem, hid⟩ := book?_mem hb
  obtain ⟨pre, post, hsplit, hpre, hpost⟩ := split_of_mem_nodup Book.ID st.books b hmem hwf.1
  exact ⟨pre, post, hsplit, hid, hid ▸ hpre, hid ▸ hpost⟩

/-- In a well-formed store a loan row is the only row with its id. -/
theorem Store.WF.loans_split {st : Store} (hwf : st.WF) {L : Loan} (hL : L ∈ st.loans) :
    ∃ pre post, st.loans = pre ++ L :: post ∧
      (∀ x ∈ pre, x.ID ≠ L.ID) ∧ (∀ x ∈ post, x.ID ≠ L.ID) :=
  split_of_mem_nodup Loan.ID st.loans L hL hwf.2.1

theorem returnRow_active_ne (loanID : Int) (now : Nat) (L : Loan) (hL : L.ID = loanID)
    (hact : L.Status = "active") : returnRow loanID now L ≠ L := by
  intro h
  have := congrArg Loan.Status h
  simp [returnRow, hL, hact] at this

/-! ### Whole calls on a store whose tables are given row by row -/

theorem book?_split (st : Store) (pre post : List Book) (b : Book) (bookID : Int)
    (hbooks : st.books = pre ++ b :: post) (hpre : ∀ x ∈ pre, x.ID ≠ bookID)
    (hid : b.ID = bookID) : st.book? bookID = some b := by
  unfold Store.book?
  rw [hbooks, List.find?_append]
  have h1 : pre.find? (fun b => b.ID == bookID) = none := by
    rw [List.find?_eq_none]
    intro x hx
    simp [hpre x hx]
  rw [h1, List.find?_cons]
  simp [hid]

/-- A borrow that goes through, on a store whose book row is singled out. -/
theorem createLoanHandler_step (st : Store) (env : Env) (sess : Session) (r : Request)
    (userID bookID : Int) (pre post : List Book) (b : Book)
    (hc : IsCall sess r userID bookID) (hf : env.faults = Faults.none)
    (hbooks : st.books = pre ++ b :: post) (hpre : ∀ x ∈ pre, x.ID ≠ bookID)
    (hpost : ∀ x ∈ post, x.ID ≠ bookID) (hid : b.ID = bookID) (hpos : 0 < b.Stock)
    (hcount : countActiveLoans st.loans userID bookID = 0) :
    createLoanHandler st env sess r =
      ⟨{ st with
          books := pre ++ { b with Stock := b.Stock - 1 } :: post
          loans := st.loans ++ [⟨st.nextLoanID, userID, bookID, env.now, none, "active"⟩]
          nextLoanID := st.nextLoanID + 1 },
        sess.Put "flashSuccess" (.str "¡Libro prestado con éxito!"),
        .redirect ("/book?id=" ++ toString bookID) StatusSeeOther⟩ := by
  have hexec : execDecrementStock st.books bookID =
      (pre ++ { b with Stock := b.Stock - 1 } :: post, 1) := by
    rw [hbooks, execDecrementStock_split pre post b bookID hpre hpost hid]
    simp [decrementRow, hid, hpos]
  rw [createLoanHandler_call st env sess r userID bookID hc,
    createLoanTx_commit st env sess userID bookID hf hcount
      (by rw [hexec]; exact Nat.one_ne_zero), hexec]
  rfl

/-- A borrow that finds no copy left, on a store whose book row is singled out. -/
theorem createLoanHandler_step_noStock (st : Store) (env : Env) (sess : Session)
    (r : Request) (userID bookID : Int) (pre post : List Book) (b : Book)
    (hc : IsCall sess r userID bookID) (hf : env.faults = Faults.none)
    (hbooks : st.books = pre ++ b :: post) (hpre : ∀ x ∈ pre, x.ID ≠ bookID)
    (hpost : ∀ x ∈ post, x.ID ≠ bookID) (hid : b.ID = bookID) (h0 : b.Stock = 0)
    (hcount : countActiveLoans st.loans userID bookID = 0) :
    createLoanHandler st env sess r =
      ⟨st, sess.Put "flashError" (.str "No hay stock disponible para este libro."),
        .redirect ("/book?id=" ++ toString bookID) StatusSeeOther⟩ := by
  have hrows : (execDecrementStock st.books bookID).2 = 0 := by
    rw [hbooks, execDecrementStock_split pre post b bookID hpre hpost hid]
    simp [h0]
  rw [createLoanHandler_call st env sess r userID bookID hc]
  exact createLoanTx_noRows st env sess userID bookID (by rw [hf]; rfl) (by rw [hf]; rfl)
    (by rw [hf]; rfl) (by rw [hf]; rfl) hcount hrows

/-- A return that goes through, on a store whose loan row and book row are
singled out. -/
theorem returnLoanHandler_step (st : Store) (env : Env) (sess : Session) (r : Request)
    (userID bookID : Int) (lpre lpost : List Loan) (L : Loan) (pre post : List Book) (b : Book)
    (hc : IsCall sess r userID bookID) (hf : env.faults = Faults.none)
    (hloans : st.loans = lpre ++ L :: lpost) (hlpre : ∀ x ∈ lpre, x.ID ≠ L.ID)
    (hlpost : ∀ x ∈ lpost, x.ID ≠ L.ID) (hact : L.Status = "active")
    (hsel : selectActiveLoan st.loans userID bookID = some L.ID)
    (hbooks : st.books = pre ++ b :: post) (hpre : ∀ x ∈ pre, x.ID ≠ bookID)
    (hpost : ∀ x ∈ post, x.ID ≠ bookID) (hid : b.ID = bookID) :
    returnLoanHandler st env sess r =
      ⟨{ st with
          loans := lpre ++ { L with Status := "returned", ReturnDate := some env.now } :: lpost
          books := pre ++ { b with Stock := b.Stock + 1 } :: post },
        sess.Put "flashSuccess" (.str "¡Libro devuelto con éxito!"),
        .redirect "/my-loans" StatusSeeOther⟩ := by
  have hrow : returnRow L.ID env.now L =
      { L with Status := "returned", ReturnDate := some env.now } := by
    simp [returnRow]
  have hexec : execReturnLoan st.loans L.ID env.now =
      (lpre ++ { L with Status := "returned", ReturnDate := some env.now } :: lpost, 1) := by
    rw [hloans, execReturnLoan_split lpre lpost L L.ID env.now hlpre hlpost rfl,
      if_neg (returnRow_active_ne L.ID env.now L rfl hact), hrow]
  have hinc : execIncrementStock st.books bookID =
      pre ++ { b with Stock := b.Stock + 1 } :: post := by
    rw [hbooks, execIncrementStock_split pre post b bookID hpre hpost]
    simp [incrementRow, hid]
  rw [returnLoanHandler_call st env sess r userID bookID hc,
    returnLoanTx_commit st env sess userID bookID L.ID hf hsel
      (by rw [hexec]; exact Nat.one_pos), hexec, hinc]

/-- The `SELECT` of `returnLoanHandler` on a table in which the last row is the
only active loan of the pair. -/
theorem selectActiveLoan_append_single (loans : List Loan) (L : Loan) (userID bookID : Int)
    (hno : ∀ l ∈ loans, ¬(l.UserID = userID ∧ l.BookID = bookID ∧ l.Status = "active"))
    (hL : L.UserID = userID ∧ L.BookID = bookID ∧ L.Status = "active") :
    selectActiveLoan (loans ++ [L]) userID bookID = some L.ID := by
  unfold selectActiveLoan
  rw [List.filter_append, filter_active_eq_nil loans userID bookID hno]
  have : [L].filter (isActiveLoan userID bookID) = [L] := by
    rw [List.filter_eq_self]
    intro a ha
    rw [List.mem_singleton.mp ha]
    exact (isActiveLoan_iff userID bookID L).mpr hL
  rw [this]
  rfl

theorem stock?_split (st : Store) (pre post : List Book) (b : Book) (bookID : Int)
    (hbooks : st.books = pre ++ b :: post) (hpre : ∀ x ∈ pre, x.ID ≠ bookID)
    (hid : b.ID = bookID) : st.stock? bookID = some b.Stock := by
  unfold Store.stock?
  rw [book?_split st pre post b bookID hbooks hpre hid]
  rfl

/-! ### Login -/

/-- A POST whose password is not 4 bytes long stops at the length check. -/
theorem loginHandler_post_gate (st : Store) (env : LoginEnv) (r : Request)
    (hm : r.method = "POST") (hlen : (r.FormValue "password").utf8ByteSize ≠ 4) :
    loginHandler st env r = ⟨[], .response (.redirect "/login?error=true" StatusSeeOther)⟩ := by
  unfold loginHandler
  rw [if_neg (by rw [hm]; decide), if_pos hm, if_pos hlen]

theorem loginHandler_post_pass (st : Store) (env : LoginEnv) (r : Request)
    (hm : r.method = "POST") (hlen : (r.FormValue "password").utf8ByteSize = 4) :
    loginHandler st env r = loginQuery st env (r.FormValue "username") := by
  unfold loginHandler
  rw [if_neg (by rw [hm]; decide), if_pos hm, if_neg (by rw [hlen]; exact fun h => h rfl)]

theorem loginQuery_found (st : Store) (env : LoginEnv) (username : String) (u : User)
    (hq : env.queryFails = false) (hsel : selectUserByUsername st.users username = some u) :
    loginQuery st env username =
      ⟨[.RenewToken, .Put "authenticatedUserID" (.int u.ID), .Put "userName" (.str u.Name),
          .Put "userRole" (.str u.Role)],
        .response (.redirect "/catalog" StatusSeeOther)⟩ := by
  simp only [loginQuery, hq, hsel, if_false, Bool.false_eq_true]

theorem loginQuery_missing (st : Store) (env : LoginEnv) (username : String)
    (hq : env.queryFails = false) (hsel : selectUserByUsername st.users username = none) :
    loginQuery st env username =
      ⟨[], .response (.redirect "/login?error=true" StatusSeeOther)⟩ := by
  simp only [loginQuery, hq, hsel, if_false, Bool.false_eq_true]

theorem loginQuery_fails (st : Store) (env : LoginEnv) (username : String)
    (hq : env.queryFails = true) :
    loginQuery st env username =
      ⟨[], .response (.error "Error interno del servidor" StatusInternalServerError)⟩ := by
  simp only [loginQuery, hq, if_true]

/-- The lookup of the username of a row of the table finds a row with that
username. -/
theorem selectUserByUsername_of_mem (users : List User) (u : User) (hu : u ∈ users) :
    ∃ v, selectUserByUsername users u.Username = some v ∧ v ∈ users ∧
      v.Username = u.Username := by
  unfold selectUserByUsername
  cases h : users.find? (fun x => x.Username == u.Username) with
  | none =>
    rw [List.find?_eq_none] at h
    exact absurd (by simp) (h u hu)
  | some v =>
    exact ⟨v, rfl, List.mem_of_find?_eq_some h, by simpa using List.find?_some h⟩

theorem selectUserByUsername_some (users : List User) (username : String) (v : User)
    (h : selectUserByUsername users username = some v) :
    v ∈ users ∧ v.Username = username := by
  unfold selectUserByUsername at h
  exact ⟨List.mem_of_find?_eq_some h, by simpa using List.find?_some h⟩

/-- The session after the calls of an accepted login: the renewed token and the
three keys of the identity. -/
theorem SessionState.run_login (fresh : String) (sess : SessionState) (u : User) :
    (sess.run fresh [.RenewToken, .Put "authenticatedUserID" (.int u.ID),
        .Put "userName" (.str u.Name), .Put "userRole" (.str u.Role)]).token = fresh ∧
    (sess.run fresh [.RenewToken, .Put "authenticatedUserID" (.int u.ID),
        .Put "userName" (.str u.Name), .Put "userRole" (.str u.Role)]).values.GetInt
      "authenticatedUserID" = u.ID ∧
    (sess.run fresh [.RenewToken, .Put "authenticatedUserID" (.int u.ID),
        .Put "userName" (.str u.Name), .Put "userRole" (.str u.Role)]).values.GetString
      "userName" = u.Name ∧
    (sess.run fresh [.RenewToken, .Put "authenticatedUserID" (.int u.ID),
        .Put "userName" (.str u.Name), .Put "userRole" (.str u.Role)]).values.GetString
      "userRole" = u.Role := by
  refine ⟨rfl, ?_, ?_, ?_⟩
  · simp [SessionState.run, SessionState.apply, Session.Put, Session.GetInt, Session.Get]
  · simp [SessionState.run, SessionState.apply, Session.Put, Session.GetString, Session.Get]
  · simp [SessionState.run, SessionState.apply, Session.Put, Session.GetString, Session.Get]

/-! ### The book table when no row has the id -/

theorem execDecrementStock_absent (books : List Book) (bookID : Int)
    (h : ∀ b ∈ books, b.ID ≠ bookID) : (execDecrementStock books bookID).2 = 0 := by
  unfold execDecrementStock
  simp only [List.length_eq_zero, List.filter_eq_nil_iff]
  intro b hb
  simp [h b hb]

theorem book?_none {st : Store} {bookID : Int} (h : st.book? bookID = none) :
    ∀ b ∈ st.books, b.ID ≠ bookID := by
  unfold Store.book? at h
  rw [List.find?_eq_none] at h
  intro b hb hid
  exact h b hb (by simp [hid])

/-! ### The release date -/

theorem decrementRow_setReleaseDate (bookID k : Int) (date : String) (b : Book) :
    decrementRow bookID (setReleaseDate k date b) =
      setReleaseDate k date (decrementRow bookID b) := by
  obtain ⟨id, title, author, genre, stock, descr, cover, pdf, rel⟩ := b
  simp only [decrementRow, setReleaseDate]
  split_ifs <;> simp_all

theorem execDecrementStock_setReleaseDate (books : List Book) (bookID k : Int)
    (date : String) :
    execDecrementStock (books.map (setReleaseDate k date)) bookID =
      ((execDecrementStock books bookID).1.map (setReleaseDate k date),
        (execDecrementStock books bookID).2) := by
  unfold execDecrementStock
  refine Prod.ext ?_ ?_
  · simp only [List.map_map]
    apply List.map_congr_left
    intro b _
    exact decrementRow_setReleaseDate bookID k date b
  · simp only [List.filter_map, List.length_map]
    congr 1
    apply List.filter_congr
    intro b _
    obtain ⟨id, title, author, genre, stock, descr, cover, pdf, rel⟩ := b
    simp only [setReleaseDate, Function.comp]
    split_ifs <;> rfl

/-- `createLoanTx` commutes with a change of release date. -/
theorem createLoanTx_withReleaseDate (st : Store) (env : Env) (sess : Session)
    (userID bookID k : Int) (date : String) :
    createLoanTx (st.withReleaseDate k date) env sess userID bookID =
      ⟨((createLoanTx st env sess userID bookID).store).withReleaseDate k date,
        (createLoanTx st env sess userID bookID).session,
        (createLoanTx st env sess userID bookID).response⟩ := by
  unfold createLoanTx
  simp only [Store.withReleaseDate, execDecrementStock_setReleaseDate]
  split_ifs <;> rfl

theorem createLoanHandler_withReleaseDate (st : Store) (env : Env) (sess : Session)
    (r : Request) (k : Int) (date : String) :
    createLoanHandler (st.withReleaseDate k date) env sess r =
      ⟨((createLoanHandler st env sess r).store).withReleaseDate k date,
        (createLoanHandler st env sess r).session,
        (createLoanHandler st env sess r).response⟩ := by
  unfold createLoanHandler
  by_cases h1 : r.method ≠ "POST"
  · rw [if_pos h1, if_pos h1]
  · rw [if_neg h1, if_neg h1]
    cases hA : Atoi (r.FormValue "book_id") with
    | none => rfl
    | some bookID =>
      by_cases h2 : sess.GetInt "authenticatedUserID" = 0
      · simp only [h2, if_true]
      · simp only [h2, if_false]
        exact createLoanTx_withReleaseDate st env sess _ bookID k date

theorem stock?_withReleaseDate (st : Store) (k : Int) (date : String) (bookID : Int) :
    (st.withReleaseDate k date).stock? bookID = st.stock? bookID := by
  simp only [Store.stock?, Store.book?, Store.withReleaseDate, List.find?_map, Option.map_map]
  have h : ((fun b : Book => b.ID == bookID) ∘ setReleaseDate k date) =
      (fun b : Book => b.ID == bookID) := by
    funext b
    simp only [Function.comp, setReleaseDate]
    split_ifs <;> rfl
  rw [h]
  congr 1
  funext b
  simp only [Function.comp, setReleaseDate]
  split_ifs <;> rfl

/-! ### Login and the stored hash -/

theorem selectUserByUsername_withoutPassword (us₁ us₂ : List User) (username : String)
    (h : us₁.map User.withoutPassword = us₂.map User.withoutPassword) :
    (selectUserByUsername us₁ username).map User.withoutPassword =
      (selectUserByUsername us₂ username).map User.withoutPassword := by
  have key : ∀ us : List User,
      (selectUserByUsername us username).map User.withoutPassword =
        (us.map User.withoutPassword).find? (fun u => u.Username == username) := by
    intro us
    unfold selectUserByUsername
    rw [List.find?_map]
    rfl
  rw [key us₁, key us₂, h]

theorem loginQuery_withoutPassword (st₁ st₂ : Store) (env : LoginEnv) (username : String)
    (h : st₁.users.map User.withoutPassword = st₂.users.map User.withoutPassword) :
    loginQuery st₁ env username = loginQuery st₂ env username := by
  have hsel := selectUserByUsername_withoutPassword st₁.users st₂.users username h
  unfold loginQuery
  cases h₁ : selectUserByUsername st₁.users username with
  | none =>
    cases h₂ : selectUserByUsername st₂.users username with
    | none => rfl
    | some u₂ => rw [h₁, h₂] at hsel; cases hsel
  | some u₁ =>
    cases h₂ : selectUserByUsername st₂.users username with
    | none => rw [h₁, h₂] at hsel; cases hsel
    | some u₂ =>
      rw [h₁, h₂] at hsel
      simp only [Option.map_some', Option.some.injEq] at hsel
      have hid : u₁.ID = u₂.ID := by
        have := congrArg User.ID hsel
        exact this
      have hname : u₁.Name = u₂.Name := by
        have := congrArg User.Name hsel
        exact this
      have hrole : u₁.Role = u₂.Role := by
        have := congrArg User.Role hsel
        exact this
      simp only [hid, hname, hrole]

/-! ### Well-formed stores along the loan workflow -/

theorem map_ID_decrementRow (books : List Book) (bookID : Int) :
    (books.map (decrementRow bookID)).map Book.ID = books.map Book.ID := by
  rw [List.map_map]
  apply List.map_congr_left
  intro b _
  simp only [Function.comp, decrementRow]
  split_ifs <;> rfl

theorem map_ID_incrementRow (books : List Book) (bookID : Int) :
    (books.map (incrementRow bookID)).map Book.ID = books.map Book.ID := by
  rw [List.map_map]
  apply List.map_congr_left
  intro b _
  simp only [Function.comp, incrementRow]
  split_ifs <;> rfl

theorem map_ID_returnRow (loans : List Loan) (loanID : Int) (now : Nat) :
    (loans.map (returnRow loanID now)).map Loan.ID = loans.map Loan.ID := by
  rw [List.map_map]
  apply List.map_congr_left
  intro l _
  simp only [Function.comp, returnRow]
  split_ifs <;> rfl

/-- The committed store of `createLoanTx`, with the condition under which it
differs from the old one. -/
theorem createLoanTx_store_rows (st : Store) (env : Env) (sess : Session)
    (userID bookID : Int) :
    (createLoanTx st env sess userID bookID).store = st ∨
    ((execDecrementStock st.books bookID).2 ≠ 0 ∧
      (createLoanTx st env sess userID bookID).store =
        execInsertLoan { st with books := (execDecrementStock st.books bookID).1 }
          userID bookID env.now) := by
  unfold createLoanTx
  split_ifs with h1 h2 h3 h4 h5 h6 h7 h8
  all_goals first
    | exact Or.inl rfl
    | exact Or.inr ⟨by assumption, rfl⟩

theorem createLoanTx_WF (st : Store) (env : Env) (sess : Session) (userID bookID : Int)
    (hwf : st.WF) : (createLoanTx st env sess userID bookID).store.WF := by
  rcases createLoanTx_store st env sess userID bookID with h | ⟨_, h⟩
  · rw [h]; exact hwf
  · rw [h]
    obtain ⟨hb, hl, hlt⟩ := hwf
    refine ⟨?_, ?_, ?_⟩
    · show ((execDecrementStock st.books bookID).1.map Book.ID).Nodup
      unfold execDecrementStock
      rw [map_ID_decrementRow]
      exact hb
    · show ((st.loans ++ [_]).map Loan.ID).Nodup
      rw [List.map_append, List.nodup_append]
      refine ⟨hl, List.nodup_singleton _, ?_⟩
      intro x hx hx'
      rw [List.map_singleton, List.mem_singleton] at hx'
      obtain ⟨l, hlmem, rfl⟩ := List.mem_map.mp hx
      have := hlt l hlmem
      rw [hx'] at this
      exact lt_irrefl _ this
    · intro l hlmem
      show l.ID < st.nextLoanID + 1
      have hlmem' : l ∈ st.loans ++ [(⟨st.nextLoanID, userID, bookID, env.now, none, "active"⟩ : Loan)] :=
        hlmem
      rcases List.mem_append.mp hlmem' with h1 | h1
      · have := hlt l h1
        omega
      · rw [List.mem_singleton.mp h1]
        show st.nextLoanID < st.nextLoanID + 1
        omega

theorem returnLoanTx_WF (st : Store) (env : Env) (sess : Session) (userID bookID : Int)
    (hwf : st.WF) : (returnLoanTx st env sess userID bookID).store.WF := by
  rcases returnLoanTx_store st env sess userID bookID with h | ⟨loanID, _, h⟩
  · rw [h]; exact hwf
  · rw [h]
    obtain ⟨hb, hl, hlt⟩ := hwf
    refine ⟨?_, ?_, ?_⟩
    · show ((execIncrementStock st.books bookID).map Book.ID).Nodup
      unfold execIncrementStock
      rw [map_ID_incrementRow]
      exact hb
    · show ((execReturnLoan st.loans loanID env.now).1.map Loan.ID).Nodup
      unfold execReturnLoan
      rw [map_ID_returnRow]
      exact hl
    · intro l hlmem
      have hlmem' : l ∈ st.loans.map (returnRow loanID env.now) := hlmem
      obtain ⟨l0, hl0, rfl⟩ := List.mem_map.mp hlmem'
      have := hlt l0 hl0
      show (returnRow loanID env.now l0).ID < st.nextLoanID
      unfold returnRow
      split_ifs <;> exact this

theorem Call.run_WF (st : Store) (c : Call) (hwf : st.WF) : (c.run st).WF := by
  cases c with
  | borrowBook env sess r =>
    rcases createLoanHandler_cases st env sess r with he | ⟨u, b, he⟩
    · simp only [Call.run, Call.outcome, he]; exact hwf
    · simp only [Call.run, Call.outcome, he]; exact createLoanTx_WF st env sess u b hwf
  | returnBook env sess r =>
    rcases returnLoanHandler_cases st env sess r with he | ⟨u, b, he⟩
    · simp only [Call.run, Call.outcome, he]; exact hwf
    · simp only [Call.run, Call.outcome, he]; exact returnLoanTx_WF st env sess u b hwf

/-! ### Conservation of copies -/

theorem selectActiveLoan_eq_some (loans : List Loan) (userID bookID loanID : Int)
    (h : selectActiveLoan loans userID bookID = some loanID) :
    ∃ L ∈ loans, L.ID = loanID ∧ L.UserID = userID ∧ L.BookID = bookID ∧
      L.Status = "active" := by
  unfold selectActiveLoan at h
  rcases latestLoan_spec (loans.filter (isActiveLoan userID bookID)) with
    ⟨_, hnone⟩ | ⟨m, hm, hmem, _⟩
  · rw [hnone] at h; cases h
  · rw [hm] at h
    simp only [Option.map_some', Option.some.injEq] at h
    have hm2 := List.mem_filter.mp hmem
    exact ⟨m, hm2.1, h, (isActiveLoan_iff userID bookID m).mp hm2.2⟩

theorem find?_map_ID (books : List Book) (f : Book → Book) (hf : ∀ x, (f x).ID = x.ID)
    (bookID : Int) :
    (books.map f).find? (fun b => b.ID == bookID) =
      (books.find? (fun b => b.ID == bookID)).map f := by
  rw [List.find?_map]
  have h : ((fun b : Book => b.ID == bookID) ∘ f) = (fun b : Book => b.ID == bookID) := by
    funext b
    simp only [Function.comp, hf b]
  rw [h]

theorem decrementRow_ID (bookID : Int) (b : Book) : (decrementRow bookID b).ID = b.ID := by
  unfold decrementRow
  split_ifs <;> rfl

theorem incrementRow_ID (bookID : Int) (b : Book) : (incrementRow bookID b).ID = b.ID := by
  unfold incrementRow
  split_ifs <;> rfl

theorem activeLoansOfBook_append (l₁ l₂ : List Loan) (b : Int) :
    activeLoansOfBook (l₁ ++ l₂) b = activeLoansOfBook l₁ b + activeLoansOfBook l₂ b := by
  simp [activeLoansOfBook, List.filter_append]

theorem activeLoansOfBook_cons (l : Loan) (ls : List Loan) (b : Int) :
    activeLoansOfBook (l :: ls) b =
      (if l.BookID = b ∧ l.Status = "active" then 1 else 0) + activeLoansOfBook ls b := by
  unfold activeLoansOfBook
  rw [List.filter_cons]
  by_cases h : l.BookID = b ∧ l.Status = "active"
  · have : (l.BookID == b && l.Status == "active") = true := by simp [h.1, h.2]
    rw [this, if_pos h]
    simp only [if_true, List.length_cons]
    omega
  · have : (l.BookID == b && l.Status == "active") = false := by
      simp only [Bool.and_eq_false_imp, beq_iff_eq, beq_eq_false_iff_ne, ne_eq]
      intro h1 h2
      exact h ⟨h1, h2⟩
    rw [this, if_neg h]
    simp

/-- In a well-formed store the stock decrement reports a row only if the row
of the book has a stock above 0. -/
theorem Store.WF.stock_pos_of_rows {st : Store} (hwf : st.WF) {bookID : Int}
    (hrows : (execDecrementStock st.books bookID).2 ≠ 0) :
    ∃ bk, st.book? bookID = some bk ∧ 0 < bk.Stock := by
  cases hbk : st.book? bookID with
  | none => exact absurd (execDecrementStock_absent st.books bookID (book?_none hbk)) hrows
  | some bk =>
    obtain ⟨pre, post, hsplit, hid, hpre, hpost⟩ := hwf.books_split hbk
    rw [hsplit, execDecrementStock_split pre post bk bookID hpre hpost hid] at hrows
    refine ⟨bk, rfl, ?_⟩
    by_contra hneg
    simp [hneg] at hrows

theorem copies?_borrow (st : Store) (hwf : st.WF) (userID bookID : Int) (now : Nat)
    (hrows : (execDecrementStock st.books bookID).2 ≠ 0) (b : Int) :
    (execInsertLoan { st with books := (execDecrementStock st.books bookID).1 }
        userID bookID now).copies? b = st.copies? b := by
  obtain ⟨bk, hbk, hpos⟩ := hwf.stock_pos_of_rows hrows
  have hid := (book?_mem hbk).2
  have hbook : (execInsertLoan { st with books := (execDecrementStock st.books bookID).1 }
      userID bookID now).book? b = (st.book? b).map (decrementRow bookID) :=
    find?_map_ID st.books (decrementRow bookID) (decrementRow_ID bookID) b
  have hact : activeLoansOfBook (execInsertLoan
      { st with books := (execDecrementStock st.books bookID).1 } userID bookID now).loans b =
      activeLoansOfBook st.loans b + (if bookID = b then 1 else 0) := by
    show activeLoansOfBook (st.loans ++ [_]) b = _
    rw [activeLoansOfBook_append, activeLoansOfBook_cons]
    simp [activeLoansOfBook]
  unfold Store.copies? Store.stock?
  rw [hbook, hact]
  by_cases hb : bookID = b
  · subst hb
    rw [hbk]
    simp only [Option.map_some', if_true, Option.some.injEq]
    have : (decrementRow bookID bk).Stock = bk.Stock - 1 := by
      simp [decrementRow, hid, hpos]
    rw [this]
    push_cast
    ring
  · rw [if_neg hb]
    cases hx : st.book? b with
    | none => rfl
    | some x =>
      have hxid := (book?_mem hx).2
      have : decrementRow bookID x = x := by
        unfold decrementRow
        rw [if_neg]
        intro h
        exact hb (h.1.symm.trans hxid)
      simp only [Option.map_some', this, Nat.add_zero]

theorem copies?_return (st : Store) (hwf : st.WF) (userID bookID loanID : Int) (now : Nat)
    (hsel : selectActiveLoan st.loans userID bookID = some loanID) (b : Int) :
    ({ st with
        loans := (execReturnLoan st.loans loanID now).1
        books := execIncrementStock st.books bookID } : Store).copies? b =
      st.copies? b := by
  obtain ⟨L, hmem, hLid, _, hLbook, hLact⟩ := selectActiveLoan_eq_some st.loans userID bookID
    loanID hsel
  obtain ⟨pre, post, hls, hpre, hpost⟩ := hwf.loans_split hmem
  rw [hLid] at hpre hpost
  have hbook : ({ st with
      loans := (execReturnLoan st.loans loanID now).1
      books := execIncrementStock st.books bookID } : Store).book? b =
      (st.book? b).map (incrementRow bookID) :=
    find?_map_ID st.books (incrementRow bookID) (incrementRow_ID bookID) b
  have hrow : returnRow loanID now L = { L with Status := "returned", ReturnDate := some now } := by
    simp [returnRow, hLid]
  have hact : (activeLoansOfBook ({ st with
      loans := (execReturnLoan st.loans loanID now).1
      books := execIncrementStock st.books bookID } : Store).loans b : Int) +
      (if bookID = b then 1 else 0) = activeLoansOfBook st.loans b := by
    show (activeLoansOfBook (execReturnLoan st.loans loanID now).1 b : Int) + _ = _
    rw [hls, execReturnLoan_split pre post L loanID now hpre hpost hLid, hrow]
    simp only [activeLoansOfBook_append, activeLoansOfBook_cons, hLbook, hLact]
    by_cases hb : bookID = b
    · simp [hb]
      ring
    · simp [hb]
  unfold Store.copies? Store.stock?
  rw [hbook, ← hact]
  cases hx : st.book? b with
  | none => rfl
  | some x =>
    have hxid := (book?_mem hx).2
    simp only [Option.map_some', Option.some.injEq]
    by_cases hb : bookID = b
    · have : (incrementRow bookID x).Stock = x.Stock + 1 := by
        simp [incrementRow, hxid, hb]
      rw [this, if_pos hb]
      ring
    · have : incrementRow bookID x = x := by
        unfold incrementRow
        rw [if_neg]
        intro h
        exact hb (h.symm.trans hxid)
      rw [this, if_neg hb]
      ring

theorem Call.run_copies? (st : Store) (c : Call) (hwf : st.WF) (b : Int) :
    (c.run st).copies? b = st.copies? b := by
  cases c with
  | borrowBook env sess r =>
    rcases createLoanHandler_cases st env sess r with he | ⟨u, k, he⟩
    · simp only [Call.run, Call.outcome, he]
    · simp only [Call.run, Call.outcome, he]
      rcases createLoanTx_store_rows st env sess u k with h | ⟨hrows, h⟩
      · rw [h]
      · rw [h]; exact copies?_borrow st hwf u k env.now hrows b
  | returnBook env sess r =>
    rcases returnLoanHandler_cases st env sess r with he | ⟨u, k, he⟩
    · simp only [Call.run, Call.outcome, he]
    · simp only [Call.run, Call.outcome, he]
      rcases returnLoanTx_store st env sess u k with h | ⟨loanID, hsel, h⟩
      · rw [h]
      · rw [h]; exact copies?_return st hwf u k loanID env.now hsel b

/-! ### The loan rows that a call keeps -/

theorem LoanKept.refl (l : Loan) : LoanKept l l := ⟨rfl, rfl, rfl, rfl, fun _ => rfl⟩

theorem forall₂_LoanKept_self (loans : List Loan) : List.Forall₂ LoanKept loans loans :=
  List.forall₂_same.mpr (fun l _ => LoanKept.refl l)

/-- The status update of `returnLoanHandler`, for the loan id its `SELECT` read in
a well-formed store, keeps every row and leaves the returned rows as they
are. -/
theorem forall₂_LoanKept_return (st : Store) (hwf : st.WF) (userID bookID loanID : Int)
    (now : Nat) (hsel : selectActiveLoan st.loans userID bookID = some loanID) :
    List.Forall₂ LoanKept st.loans (execReturnLoan st.loans loanID now).1 := by
  obtain ⟨L, hmem, hLid, _, _, hLact⟩ := selectActiveLoan_eq_some st.loans userID bookID
    loanID hsel
  unfold execReturnLoan
  rw [List.forall₂_map_right_iff, List.forall₂_same]
  intro x hx
  refine ⟨?_, ?_, ?_, ?_, ?_⟩
  · unfold returnRow; split_ifs <;> rfl
  · unfold returnRow; split_ifs <;> rfl
  · unfold returnRow; split_ifs <;> rfl
  · unfold returnRow; split_ifs <;> rfl
  · intro hret
    unfold returnRow
    rw [if_neg]
    intro hid
    have hxL : x = L := List.inj_on_of_nodup_map hwf.2.1 hx hmem (hid.trans hLid.symm)
    rw [hxL, hLact] at hret
    exact absurd hret (by decide)

theorem Call.run_loans_kept (st : Store) (c : Call) (hwf : st.WF) :
    ∃ rows extra, (c.run st).loans = rows ++ extra ∧ List.Forall₂ LoanKept st.loans rows := by
  cases c with
  | borrowBook env sess r =>
    rcases createLoanHandler_cases st env sess r with he | ⟨u, k, he⟩
    · exact ⟨st.loans, [], by simp only [Call.run, Call.outcome, he, List.append_nil],
        forall₂_LoanKept_self st.loans⟩
    · rcases createLoanTx_store st env sess u k with h | ⟨_, h⟩
      · exact ⟨st.loans, [], by simp only [Call.run, Call.outcome, he, h, List.append_nil],
          forall₂_LoanKept_self st.loans⟩
      · exact ⟨st.loans, [⟨st.nextLoanID, u, k, env.now, none, "active"⟩],
          by simp only [Call.run, Call.outcome, he, h]; rfl, forall₂_LoanKept_self st.loans⟩
  | returnBook env sess r =>
    rcases returnLoanHandler_cases st env sess r with he | ⟨u, k, he⟩
    · exact ⟨st.loans, [], by simp only [Call.run, Call.outcome, he, List.append_nil],
        forall₂_LoanKept_self st.loans⟩
    · rcases returnLoanTx_store st env sess u k with h | ⟨loanID, hsel, h⟩
      · exact ⟨st.loans, [], by simp only [Call.run, Call.outcome, he, h, List.append_nil],
          forall₂_LoanKept_self st.loans⟩
      · exact ⟨(execReturnLoan st.loans loanID env.now).1, [],
          by simp only [Call.run, Call.outcome, he, h, List.append_nil],
          forall₂_LoanKept_return st hwf u k loanID env.now hsel⟩

/-! ### The two parts of the transaction of `createLoanHandler` -/

/-- In a run without other requests `createLoanTx` is its duplicate check
followed by `createLoanUpdate` on the same store. -/
theorem createLoanTx_eq_update (st : Store) (env : Env) (sess : Session)
    (userID bookID : Int) (hb : env.faults.beginFails = false)
    (hq : env.faults.queryFails = false)
    (hcount : countActiveLoans st.loans userID bookID = 0) :
    createLoanTx st env sess userID bookID = createLoanUpdate st env sess userID bookID := by
  simp only [createLoanTx, createLoanUpdate, hb, hq, hcount, if_false, Bool.false_eq_true,
    gt_iff_lt, lt_self_iff_false]

/-! ### What the admin handlers and the seeding functions leave of stock and loans -/

theorem stock?_append (st : Store) (extra : List Book) (bookID s : Int)
    (h : st.stock? bookID = some s) :
    ({ st with books := st.books ++ extra } : Store).stock? bookID = some s := by
  unfold Store.stock? Store.book? at h ⊢
  cases hf : st.books.find? (fun b => b.ID == bookID) with
  | none => rw [hf] at h; cases h
  | some b =>
    rw [hf] at h
    simp only [List.find?_append, hf]
    exact h

theorem stock?_map_keep (st : Store) (f : Book → Book) (hID : ∀ x, (f x).ID = x.ID)
    (hStock : ∀ x, (f x).Stock = x.Stock) (bookID : Int) :
    ({ st with books := st.books.map f } : Store).stock? bookID = st.stock? bookID := by
  unfold Store.stock? Store.book?
  simp only [find?_map_ID st.books f hID bookID, Option.map_map]
  congr 1
  funext b
  exact hStock b

theorem find?_execDeleteBook (books : List Book) (id : Option Int) (bookID : Int) :
    (execDeleteBook books id).find? (fun b => b.ID == bookID) =
      if some bookID = id then none else books.find? (fun b => b.ID == bookID) := by
  unfold execDeleteBook
  induction books with
  | nil => simp
  | cons b rest ih =>
    by_cases hp : some b.ID = id
    · rw [List.filter_cons_of_neg (by simpa using hp), ih]
      by_cases hq : b.ID = bookID
      · simp only [if_pos (hq ▸ hp)]
      · split_ifs with h
        · rfl
        · rw [List.find?_cons_of_neg _ (by simpa using hq)]
    · rw [List.filter_cons_of_pos (by simpa using hp)]
      by_cases hq : b.ID = bookID
      · rw [List.find?_cons_of_pos _ (by simpa using hq), if_neg (hq ▸ hp),
          List.find?_cons_of_pos _ (by simpa using hq)]
      · rw [List.find?_cons_of_neg _ (by simpa using hq), ih,
          List.find?_cons_of_neg _ (by simpa using hq)]

theorem saveBookRow_ID (id : Option Int) (c p t a d date : String) (b : Book) :
    (saveBookRow id c p t a d date b).ID = b.ID := by
  unfold saveBookRow
  split_ifs <;> rfl

theorem saveBookRow_Stock (id : Option Int) (c p t a d date : String) (b : Book) :
    (saveBookRow id c p t a d date b).Stock = b.Stock := by
  unfold saveBookRow
  split_ifs <;> rfl

theorem adminBookSaveHandler_loans (st : Store) (env : BookSaveEnv) (sess : Session)
    (r : Request) : (adminBookSaveHandler st env sess r).store.loans = st.loans := by
  unfold adminBookSaveHandler
  cases env.coverUpload with
  | none => rfl
  | some coverPath =>
    cases env.pdfUpload with
    | none => rfl
    | some pdfPath =>
      simp only
      split_ifs <;> rfl

theorem adminBookSaveHandler_stock (st : Store) (env : BookSaveEnv) (sess : Session)
    (r : Request) (bookID s : Int) (h : st.stock? bookID = some s) :
    (adminBookSaveHandler st env sess r).store.stock? bookID = some s := by
  unfold adminBookSaveHandler
  cases env.coverUpload with
  | none => exact h
  | some coverPath =>
    cases env.pdfUpload with
    | none => exact h
    | some pdfPath =>
      simp only
      split_ifs
      all_goals first
        | exact h
        | exact stock?_append st _ bookID s h
        | exact (stock?_map_keep st _ (saveBookRow_ID _ _ _ _ _ _ _)
            (saveBookRow_Stock _ _ _ _ _ _ _) bookID).trans h

theorem adminBookDeleteHandler_loans (st : Store) (env : BookDeleteEnv) (sess : Session)
    (r : Request) : (adminBookDeleteHandler st env sess r).store.loans = st.loans := by
  unfold adminBookDeleteHandler
  split_ifs <;> rfl

theorem adminBookDeleteHandler_stock (st : Store) (env : BookDeleteEnv) (sess : Session)
    (r : Request) (bookID s : Int) (h : st.stock? bookID = some s) :
    (adminBookDeleteHandler st env sess r).store.stock? bookID = some s ∨
    (adminBookDeleteHandler st env sess r).store.stock? bookID = none := by
  unfold adminBookDeleteHandler
  split_ifs
  · exact Or.inl h
  · exact Or.inl h
  · exact Or.inl h
  · exact Or.inl h
  · unfold Store.stock? Store.book? at h ⊢
    simp only [find?_execDeleteBook]
    split_ifs
    · exact Or.inr rfl
    · exact Or.inl h

theorem adminUserSaveHandler_rows (st : Store) (env : UserSaveEnv) (sess : Session)
    (r : Request) :
    (adminUserSaveHandler st env sess r).store.books = st.books ∧
    (adminUserSaveHandler st env sess r).store.loans = st.loans := by
  unfold adminUserSaveHandler
  cases env.hash (r.FormValue "password") with
  | none => simp only; split_ifs <;> exact ⟨rfl, rfl⟩
  | some h => simp only; split_ifs <;> exact ⟨rfl, rfl⟩

theorem adminUserDeleteHandler_rows (st : Store) (env : Env) (sess : Session)
    (r : Request) :
    (adminUserDeleteHandler st env sess r).store.books = st.books ∧
    (adminUserDeleteHandler st env sess r).store.loans = st.loans := by
  unfold adminUserDeleteHandler
  cases Atoi (r.QueryGet "id") with
  | none => simp only; split_ifs <;> exact ⟨rfl, rfl⟩
  | some k => simp only; split_ifs <;> exact ⟨rfl, rfl⟩

theorem seedUsers_rows (st : Store) (env : SeedUsersEnv) :
    (seedUsers st env).books = st.books ∧ (seedUsers st env).loans = st.loans := by
  unfold seedUsers
  split_ifs <;> exact ⟨rfl, rfl⟩

theorem seedBooks_loans (st : Store) (env : SeedBooksEnv) :
    (seedBooks st env).loans = st.loans := by
  unfold seedBooks
  split_ifs <;> rfl

theorem seedBooks_stock (st : Store) (env : SeedBooksEnv) (bookID s : Int)
    (h : st.stock? bookID = some s) : (seedBooks st env).stock? bookID = some s := by
  unfold seedBooks
  split_ifs
  all_goals first
    | exact h
    | exact stock?_append st _ bookID s h

theorem stock?_of_books (st st' : Store) (hb : st'.books = st.books) (bookID : Int) :
    st'.stock? bookID = st.stock? bookID := by
  unfold Store.stock? Store.book?
  rw [hb]

theorem seedLoans_seeded (st : Store) (now : Nat) (f : SeedLoansFaults)
    (hl : st.loans ≠ []) (hc : f.countFails = false) : seedLoans st now f = st := by
  unfold seedLoans
  have hpos : 0 < st.loans.length := List.length_pos.mpr hl
  rw [hc]
  simp only [Bool.false_eq_true, if_false]
  rw [if_pos hpos]

theorem createLoanHandler_atomic (st : Store) (env : Env) (sess : Session) (r : Request) :
    (createLoanHandler st env sess r).store = st ∨
    ∃ userID bookID, (execDecrementStock st.books bookID).2 ≠ 0 ∧
      (createLoanHandler st env sess r).store =
        execInsertLoan { st with books := (execDecrementStock st.books bookID).1 }
          userID bookID env.now := by
  rcases createLoanHandler_cases st env sess r with h | ⟨userID, bookID, h⟩
  · exact Or.inl h
  · rw [h]
    rcases createLoanTx_store_rows st env sess userID bookID with h1 | h1
    · exact Or.inl h1
    · exact Or.inr ⟨userID, bookID, h1⟩

theorem returnLoanHandler_atomic (st : Store) (env : Env) (sess : Session) (r : Request) :
    (returnLoanHandler st env sess r).store = st ∨
    ∃ userID bookID loanID, selectActiveLoan st.loans userID bookID = some loanID ∧
      (returnLoanHandler st env sess r).store =
        { st with loans := (execReturnLoan st.loans loanID env.now).1,
                  books := execIncrementStock st.books bookID } := by
  rcases returnLoanHandler_cases st env sess r with h | ⟨userID, bookID, h⟩
  · exact Or.inl h
  · rw [h]
    rcases returnLoanTx_store st env sess userID bookID with h1 | ⟨loanID, h1⟩
    · exact Or.inl h1
    · exact Or.inr ⟨userID, bookID, loanID, h1⟩

/-! ## The claims -/

/-- C1: stock never goes negative. From a store in which every book has stock
at least 0, every store reached by a finite sequence of `createLoanHandler` and
`returnLoanHandler` calls, whatever their requests, sessions, clocks and
storage failures, has every book at stock at least 0. -/
theorem stock_never_negative (st : Store) (calls : List Call) (h : StockNonneg st) :
    ∀ s ∈ reached st calls, StockNonneg s :=
  reached_invariant StockNonneg Call.run_stockNonneg calls st h

theorem stock_never_negative_witness :
    StockNonneg freshStore ∧ ∀ s ∈ reached freshStore sampleCalls, StockNonneg s :=
  ⟨by decide, stock_never_negative freshStore sampleCalls (by decide)⟩

/-- C2: at most one active loan per pair. From a store in which every
(user, book) pair has at most one loan with status `active`, the same holds in
every store reached by a finite sequence of `createLoanHandler` and
`returnLoanHandler` calls. -/
theorem at_most_one_active_loan (st : Store) (calls : List Call) (h : AtMostOneActive st) :
    ∀ s ∈ reached st calls, AtMostOneActive s :=
  reached_invariant AtMostOneActive Call.run_atMostOneActive calls st h

theorem at_most_one_active_loan_witness :
    AtMostOneActive lentStore ∧ ∀ s ∈ reached lentStore sampleCalls, AtMostOneActive s :=
  ⟨fun _ _ => List.length_filter_le _ _,
   at_most_one_active_loan lentStore sampleCalls (fun _ _ => List.length_filter_le _ _)⟩

/-- C3: when the user already has an active loan of the book, `createLoanHandler`
answers with the flash error "Ya tienes este libro prestado." and a redirect to
the book page, whatever the stock of the book, and commits nothing: the store
is the one before the call. -/
theorem borrow_already_borrowed (st : Store) (env : Env) (sess : Session) (r : Request)
    (userID bookID : Int) (hc : IsCall sess r userID bookID)
    (hb : env.faults.beginFails = false) (hq : env.faults.queryFails = false)
    (hact : ∃ l ∈ st.loans, l.UserID = userID ∧ l.BookID = bookID ∧ l.Status = "active") :
    (createLoanHandler st env sess r).store = st ∧
    (createLoanHandler st env sess r).session =
      sess.Put "flashError" (.str "Ya tienes este libro prestado.") ∧
    (createLoanHandler st env sess r).response =
      .redirect ("/book?id=" ++ toString bookID) StatusSeeOther := by
  rw [createLoanHandler_call st env sess r userID bookID hc,
    createLoanTx_alreadyBorrowed st env sess userID bookID hb hq
      (countActiveLoans_pos st.loans userID bookID hact)]
  exact ⟨rfl, rfl, rfl⟩

theorem borrow_already_borrowed_witness :
    (createLoanHandler lentStore (envAt 200) (sessionOf 7)
        (loanRequest "/loan/create" "1")).store = lentStore ∧
    (createLoanHandler lentStore (envAt 200) (sessionOf 7)
        (loanRequest "/loan/create" "1")).session =
      (sessionOf 7).Put "flashError" (.str "Ya tienes este libro prestado.") ∧
    (createLoanHandler lentStore (envAt 200) (sessionOf 7)
        (loanRequest "/loan/create" "1")).response =
      .redirect ("/book?id=" ++ toString (1 : Int)) StatusSeeOther :=
  borrow_already_borrowed lentStore (envAt 200) (sessionOf 7) (loanRequest "/loan/create" "1")
    7 1 (by decide) rfl rfl (by decide)

/-- C4: when the user has no active loan of the book and the stock of the book
is 0, `createLoanHandler` answers with the flash error "No hay stock disponible
para este libro." and a redirect to the book page, and commits nothing: the
store is the one before the call, so the stock is still 0 and the loans table
has no new row. -/
theorem borrow_out_of_stock (st : Store) (env : Env) (sess : Session) (r : Request)
    (userID bookID : Int) (b : Book) (hwf : st.WF) (hc : IsCall sess r userID bookID)
    (hb : env.faults.beginFails = false) (hq : env.faults.queryFails = false)
    (he : env.faults.firstExecFails = false) (hr : env.faults.rowsAffectedFails = false)
    (hno : ∀ l ∈ st.loans, ¬(l.UserID = userID ∧ l.BookID = bookID ∧ l.Status = "active"))
    (hbook : st.book? bookID = some b) (h0 : b.Stock = 0) :
    (createLoanHandler st env sess r).store = st ∧
    (createLoanHandler st env sess r).session =
      sess.Put "flashError" (.str "No hay stock disponible para este libro.") ∧
    (createLoanHandler st env sess r).response =
      .redirect ("/book?id=" ++ toString bookID) StatusSeeOther ∧
    (createLoanHandler st env sess r).store.stock? bookID = some 0 ∧
    (createLoanHandler st env sess r).store.loans = st.loans := by
  obtain ⟨pre, post, hsplit, hid, hpre, hpost⟩ := hwf.books_split hbook
  have hrows : (execDecrementStock st.books bookID).2 = 0 := by
    rw [hsplit, execDecrementStock_split pre post b bookID hpre hpost hid]
    simp [h0]
  rw [createLoanHandler_call st env sess r userID bookID hc,
    createLoanTx_noRows st env sess userID bookID hb hq he hr
      (countActiveLoans_zero st.loans userID bookID hno) hrows]
  refine ⟨rfl, rfl, rfl, ?_, rfl⟩
  show (st.book? bookID).map Book.Stock = some 0
  rw [hbook, Option.map_some', h0]

theorem borrow_out_of_stock_witness :
    (createLoanHandler lentStore (envAt 200) (sessionOf 8)
        (loanRequest "/loan/create" "1")).store = lentStore ∧
    (createLoanHandler lentStore (envAt 200) (sessionOf 8)
        (loanRequest "/loan/create" "1")).session =
      (sessionOf 8).Put "flashError" (.str "No hay stock disponible para este libro.") ∧
    (createLoanHandler lentStore (envAt 200) (sessionOf 8)
        (loanRequest "/loan/create" "1")).response =
      .redirect ("/book?id=" ++ toString (1 : Int)) StatusSeeOther ∧
    (createLoanHandler lentStore (envAt 200) (sessionOf 8)
        (loanRequest "/loan/create" "1")).store.stock? 1 = some 0 ∧
    (createLoanHandler lentStore (envAt 200) (sessionOf 8)
        (loanRequest "/loan/create" "1")).store.loans = lentStore.loans :=
  borrow_out_of_stock lentStore (envAt 200) (sessionOf 8) (loanRequest "/loan/create" "1")
    8 1 (sampleBook 1 0) (by decide) (by decide) rfl rfl rfl rfl (by decide) (by decide) rfl

/-- C5: when the book exists with a stock above 0, the logged-in user (id not 0)
has no active loan of it and no storage call fails, `createLoanHandler` succeeds
(flash "¡Libro prestado con éxito!", redirect to the book page) and the store it
commits is the old one with exactly two changes: in the books table the one row
of that book has its stock lowered by 1, and the loans table has one new row at
its end, for that user and that book, with status `active`, loan date `now` and
no return date (the AUTO_INCREMENT counter moves past the id of the new row).
Every other book row, every earlier loan row and the users table are as
before. -/
theorem borrow_success (st : Store) (env : Env) (sess : Session) (r : Request)
    (userID bookID : Int) (b : Book) (hwf : st.WF) (hc : IsCall sess r userID bookID)
    (hf : env.faults = Faults.none)
    (hno : ∀ l ∈ st.loans, ¬(l.UserID = userID ∧ l.BookID = bookID ∧ l.Status = "active"))
    (hbook : st.book? bookID = some b) (hpos : 0 < b.Stock) :
    ∃ pre post, st.books = pre ++ b :: post ∧
      createLoanHandler st env sess r =
        ⟨{ st with
            books := pre ++ { b with Stock := b.Stock - 1 } :: post
            loans := st.loans ++ [⟨st.nextLoanID, userID, bookID, env.now, none, "active"⟩]
            nextLoanID := st.nextLoanID + 1 },
          sess.Put "flashSuccess" (.str "¡Libro prestado con éxito!"),
          .redirect ("/book?id=" ++ toString bookID) StatusSeeOther⟩ := by
  obtain ⟨pre, post, hsplit, hid, hpre, hpost⟩ := hwf.books_split hbook
  have hexec : execDecrementStock st.books bookID =
      (pre ++ { b with Stock := b.Stock - 1 } :: post, 1) := by
    rw [hsplit, execDecrementStock_split pre post b bookID hpre hpost hid]
    simp [decrementRow, hid, hpos]
  refine ⟨pre, post, hsplit, ?_⟩
  rw [createLoanHandler_call st env sess r userID bookID hc,
    createLoanTx_commit st env sess userID bookID hf
      (countActiveLoans_zero st.loans userID bookID hno) (by rw [hexec]; exact Nat.one_ne_zero)]
  rw [hexec]
  rfl

theorem borrow_success_witness :
    ∃ pre post, freshStore.books = pre ++ sampleBook 1 1 :: post ∧
      createLoanHandler freshStore (envAt 10) (sessionOf 7) (loanRequest "/loan/create" "1") =
        ⟨{ freshStore with
            books := pre ++ { sampleBook 1 1 with Stock := (sampleBook 1 1).Stock - 1 } :: post
            loans := freshStore.loans ++ [⟨freshStore.nextLoanID, 7, 1, 10, none, "active"⟩]
            nextLoanID := freshStore.nextLoanID + 1 },
          (sessionOf 7).Put "flashSuccess" (.str "¡Libro prestado con éxito!"),
          .redirect ("/book?id=" ++ toString (1 : Int)) StatusSeeOther⟩ :=
  borrow_success freshStore (envAt 10) (sessionOf 7) (loanRequest "/loan/create" "1")
    7 1 (sampleBook 1 1) (by decide) (by decide) rfl (by decide) (by decide) (by decide)

/-- C6: when the user has no loan with status `active` of the book,
`returnLoanHandler` answers with the flash error "No se encontró un préstamo
activo para este libro." and a redirect (303, not a server error) to
`/my-loans`, and commits nothing: the store, and so the stock of the book, is
the one before the call. -/
theorem return_no_active_loan (st : Store) (env : Env) (sess : Session) (r : Request)
    (userID bookID : Int) (hc : IsCall sess r userID bookID)
    (hb : env.faults.beginFails = false) (hq : env.faults.queryFails = false)
    (hno : ∀ l ∈ st.loans, ¬(l.UserID = userID ∧ l.BookID = bookID ∧ l.Status = "active")) :
    (returnLoanHandler st env sess r).store = st ∧
    (returnLoanHandler st env sess r).session =
      sess.Put "flashError" (.str "No se encontró un préstamo activo para este libro.") ∧
    (returnLoanHandler st env sess r).response = .redirect "/my-loans" 303 ∧
    (returnLoanHandler st env sess r).store.stock? bookID = st.stock? bookID := by
  rw [returnLoanHandler_call st env sess r userID bookID hc,
    returnLoanTx_noActive st env sess userID bookID hb hq
      (selectActiveLoan_none st.loans userID bookID hno)]
  exact ⟨rfl, rfl, rfl, rfl⟩

theorem return_no_active_loan_witness :
    (returnLoanHandler lentStore (envAt 200) (sessionOf 8)
        (loanRequest "/loan/return" "1")).store = lentStore ∧
    (returnLoanHandler lentStore (envAt 200) (sessionOf 8)
        (loanRequest "/loan/return" "1")).session =
      (sessionOf 8).Put "flashError"
        (.str "No se encontró un préstamo activo para este libro.") ∧
    (returnLoanHandler lentStore (envAt 200) (sessionOf 8)
        (loanRequest "/loan/return" "1")).response = .redirect "/my-loans" 303 ∧
    (returnLoanHandler lentStore (envAt 200) (sessionOf 8)
        (loanRequest "/loan/return" "1")).store.stock? 1 = lentStore.stock? 1 :=
  return_no_active_loan lentStore (envAt 200) (sessionOf 8) (loanRequest "/loan/return" "1")
    8 1 (by decide) rfl rfl (by decide)

/-- C7: when the book exists, the user has an active loan of it and no storage
call fails, `returnLoanHandler` succeeds (flash "¡Libro devuelto con éxito!",
redirect to `/my-loans`) and the store it commits is the old one with exactly
two changes: one loan row, an active loan of the pair whose loan date is the
greatest among the active loans of the pair, now has status `returned` and
return date `now`, and the one row of the book has its stock raised by 1. Every
other loan row, every other book row, the users table and the AUTO_INCREMENT
counter are as before. -/
theorem return_success (st : Store) (env : Env) (sess : Session) (r : Request)
    (userID bookID : Int) (b : Book) (hwf : st.WF) (hc : IsCall sess r userID bookID)
    (hf : env.faults = Faults.none) (hbook : st.book? bookID = some b)
    (hact : ∃ l ∈ st.loans, l.UserID = userID ∧ l.BookID = bookID ∧ l.Status = "active") :
    ∃ L lpre lpost bpre bpost,
      st.loans = lpre ++ L :: lpost ∧ st.books = bpre ++ b :: bpost ∧
      (L.UserID = userID ∧ L.BookID = bookID ∧ L.Status = "active") ∧
      (∀ x ∈ st.loans, (x.UserID = userID ∧ x.BookID = bookID ∧ x.Status = "active") →
        x.LoanDate ≤ L.LoanDate) ∧
      returnLoanHandler st env sess r =
        ⟨{ st with
            loans := lpre ++ { L with Status := "returned", ReturnDate := some env.now } :: lpost
            books := bpre ++ { b with Stock := b.Stock + 1 } :: bpost },
          sess.Put "flashSuccess" (.str "¡Libro devuelto con éxito!"),
          .redirect "/my-loans" StatusSeeOther⟩ := by
  obtain ⟨L, hsel, hmem, hLact, hmax⟩ := selectActiveLoan_some st.loans userID bookID hact
  obtain ⟨lpre, lpost, hls, hlpre, hlpost⟩ := hwf.loans_split hmem
  obtain ⟨bpre, bpost, hbs, hid, hbpre, hbpost⟩ := hwf.books_split hbook
  have hrow : returnRow L.ID env.now L =
      { L with Status := "returned", ReturnDate := some env.now } := by
    simp [returnRow]
  have hexec : execReturnLoan st.loans L.ID env.now =
      (lpre ++ { L with Status := "returned", ReturnDate := some env.now } :: lpost, 1) := by
    rw [hls, execReturnLoan_split lpre lpost L L.ID env.now hlpre hlpost rfl,
      if_neg (returnRow_active_ne L.ID env.now L rfl hLact.2.2), hrow]
  have hinc : execIncrementStock st.books bookID =
      bpre ++ { b with Stock := b.Stock + 1 } :: bpost := by
    rw [hbs, execIncrementStock_split bpre bpost b bookID hbpre hbpost]
    simp [incrementRow, hid]
  refine ⟨L, lpre, lpost, bpre, bpost, hls, hbs, hLact, hmax, ?_⟩
  rw [returnLoanHandler_call st env sess r userID bookID hc,
    returnLoanTx_commit st env sess userID bookID L.ID hf hsel (by rw [hexec]; exact Nat.one_pos),
    hexec, hinc]

theorem return_success_witness :
    ∃ L lpre lpost bpre bpost,
      lentStore.loans = lpre ++ L :: lpost ∧ lentStore.books = bpre ++ sampleBook 1 0 :: bpost ∧
      (L.UserID = 7 ∧ L.BookID = 1 ∧ L.Status = "active") ∧
      (∀ x ∈ lentStore.loans, (x.UserID = 7 ∧ x.BookID = 1 ∧ x.Status = "active") →
        x.LoanDate ≤ L.LoanDate) ∧
      returnLoanHandler lentStore (envAt 200) (sessionOf 7) (loanRequest "/loan/return" "1") =
        ⟨{ lentStore with
            loans := lpre ++ { L with Status := "returned", ReturnDate := some 200 } :: lpost
            books := bpre ++ { sampleBook 1 0 with Stock := (sampleBook 1 0).Stock + 1 } :: bpost },
          (sessionOf 7).Put "flashSuccess" (.str "¡Libro devuelto con éxito!"),
          .redirect "/my-loans" StatusSeeOther⟩ :=
  return_success lentStore (envAt 200) (sessionOf 7) (loanRequest "/loan/return" "1")
    7 1 (sampleBook 1 0) (by decide) (by decide) rfl (by decide) (by decide)

/-- C8, the code where it departs from the claim. Two return requests of user 7
for book 1 reach the server while loan 1 is active: both `SELECT`s read loan id
1. The first request runs to its end at time 200 and commits `returnedStore`
(loan closed, stock 1). The `UPDATE loans ... WHERE id = ?` of the second
request then runs at time 201 on the closed loan: it has no condition on the
status, rewrites the return date, reports one row affected, and the handler
raises the stock a second time, to 2, and answers with the success flash. -/
theorem return_update_hits_closed_loan :
    selectActiveLoan lentStore.loans 7 1 = some 1 ∧
    (returnLoanHandler lentStore (envAt 200) (sessionOf 7)
        (loanRequest "/loan/return" "1")).store = returnedStore ∧
    returnedStore.stock? 1 = some 1 ∧
    selectActiveLoan returnedStore.loans 7 1 = none ∧
    execReturnLoan returnedStore.loans 1 201 = ([⟨1, 7, 1, 100, some 201, "returned"⟩], 1) ∧
    (returnLoanUpdate returnedStore (envAt 201) (sessionOf 7) 1 1).session =
      (sessionOf 7).Put "flashSuccess" (.str "¡Libro devuelto con éxito!") ∧
    (returnLoanUpdate returnedStore (envAt 201) (sessionOf 7) 1 1).store.stock? 1 = some 2 ∧
    (returnLoanUpdate returnedStore (envAt 201) (sessionOf 7) 1 1).store.loans =
      [⟨1, 7, 1, 100, some 201, "returned"⟩] := by
  decide

/-- C9: round trip. In a store where the book exists with a stock above 0 and
the user has no loan row of the book, with no storage failure and a clock that
does not go backwards, `createLoanHandler` followed by `returnLoanHandler` of
the same user on the same book both succeed; the books table, and so the stock
of the book, is what it was before the borrow; and the pair has exactly one
loan row, with status `returned` and a return date that is set and not before
its loan date. -/
theorem borrow_return_round_trip (st : Store) (env₁ env₂ : Env) (sess₁ sess₂ : Session)
    (r₁ r₂ : Request) (userID bookID : Int) (b : Book) (hwf : st.WF)
    (hc₁ : IsCall sess₁ r₁ userID bookID) (hc₂ : IsCall sess₂ r₂ userID bookID)
    (hf₁ : env₁.faults = Faults.none) (hf₂ : env₂.faults = Faults.none)
    (hbook : st.book? bookID = some b) (hpos : 0 < b.Stock)
    (hnone : ∀ l ∈ st.loans, ¬(l.UserID = userID ∧ l.BookID = bookID))
    (hclock : env₁.now ≤ env₂.now) :
    ∃ o₁ o₂ L t,
      outcomes st [.borrowBook env₁ sess₁ r₁, .returnBook env₂ sess₂ r₂] = [o₁, o₂] ∧
      o₁.session = sess₁.Put "flashSuccess" (.str "¡Libro prestado con éxito!") ∧
      o₁.response = .redirect ("/book?id=" ++ toString bookID) StatusSeeOther ∧
      o₂.session = sess₂.Put "flashSuccess" (.str "¡Libro devuelto con éxito!") ∧
      o₂.response = .redirect "/my-loans" StatusSeeOther ∧
      o₂.store.books = st.books ∧ o₂.store.stock? bookID = some b.Stock ∧
      o₂.store.loans.filter (fun l => l.UserID == userID && l.BookID == bookID) = [L] ∧
      L.Status = "returned" ∧ L.ReturnDate = some t ∧ L.LoanDate ≤ t := by
  obtain ⟨pre, post, hbs, hid, hpre, hpost⟩ := hwf.books_split hbook
  have hno : ∀ l ∈ st.loans,
      ¬(l.UserID = userID ∧ l.BookID = bookID ∧ l.Status = "active") :=
    fun l hl h => hnone l hl ⟨h.1, h.2.1⟩
  have h₁ := createLoanHandler_step st env₁ sess₁ r₁ userID bookID pre post b hc₁ hf₁ hbs
    hpre hpost hid hpos (countActiveLoans_zero st.loans userID bookID hno)
  have hsel := selectActiveLoan_append_single st.loans
    ⟨st.nextLoanID, userID, bookID, env₁.now, none, "active"⟩ userID bookID hno ⟨rfl, rfl, rfl⟩
  have h₂ := returnLoanHandler_step (createLoanHandler st env₁ sess₁ r₁).store env₂ sess₂ r₂
    userID bookID st.loans [] ⟨st.nextLoanID, userID, bookID, env₁.now, none, "active"⟩
    pre post { b with Stock := b.Stock - 1 } hc₂ hf₂ (by rw [h₁])
    (fun x hx => ne_of_lt (hwf.2.2 x hx)) (fun x hx => absurd hx (List.not_mem_nil x)) rfl
    (by rw [h₁]; exact hsel) (by rw [h₁]) hpre hpost hid
  have hb : ({ b with Stock := b.Stock - 1 + 1 } : Book) = b := by
    cases b
    simp
  refine ⟨_, _, ⟨st.nextLoanID, userID, bookID, env₁.now, some env₂.now, "returned"⟩, env₂.now,
    rfl, ?_, ?_, ?_, ?_, ?_, ?_, ?_, rfl, rfl, hclock⟩
  · simp only [Call.outcome]; rw [h₁]
  · simp only [Call.outcome]; rw [h₁]
  · simp only [Call.run, Call.outcome]; rw [h₂]
  · simp only [Call.run, Call.outcome]; rw [h₂]
  · simp only [Call.run, Call.outcome]; rw [h₂]
    show pre ++ { b with Stock := b.Stock - 1 + 1 } :: post = st.books
    rw [hb, hbs]
  · simp only [Call.run, Call.outcome]; rw [h₂]
    show Store.stock? ⟨_, pre ++ { b with Stock := b.Stock - 1 + 1 } :: post, _, _⟩ bookID = _
    rw [hb]
    simp only [Store.stock?]
    rw [book?_split _ pre post b bookID rfl hpre hid]
    rfl
  · simp only [Call.run, Call.outcome]; rw [h₂]
    show (st.loans ++ [_]).filter _ = _
    rw [List.filter_append]
    have : st.loans.filter (fun l => l.UserID == userID && l.BookID == bookID) = [] := by
      rw [List.filter_eq_nil_iff]
      intro l hl h
      simp only [Bool.and_eq_true, beq_iff_eq] at h
      exact hnone l hl h
    rw [this]
    simp

theorem borrow_return_round_trip_witness :
    ∃ o₁ o₂ L t,
      outcomes freshStore [.borrowBook (envAt 10) (sessionOf 7) (loanRequest "/loan/create" "1"),
        .returnBook (envAt 12) (sessionOf 7) (loanRequest "/loan/return" "1")] = [o₁, o₂] ∧
      o₁.session = (sessionOf 7).Put "flashSuccess" (.str "¡Libro prestado con éxito!") ∧
      o₁.response = .redirect ("/book?id=" ++ toString (1 : Int)) StatusSeeOther ∧
      o₂.session = (sessionOf 7).Put "flashSuccess" (.str "¡Libro devuelto con éxito!") ∧
      o₂.response = .redirect "/my-loans" StatusSeeOther ∧
      o₂.store.books = freshStore.books ∧ o₂.store.stock? 1 = some (sampleBook 1 1).Stock ∧
      o₂.store.loans.filter (fun l => l.UserID == 7 && l.BookID == 1) = [L] ∧
      L.Status = "returned" ∧ L.ReturnDate = some t ∧ L.LoanDate ≤ t :=
  borrow_return_round_trip freshStore (envAt 10) (envAt 12) (sessionOf 7) (sessionOf 7)
    (loanRequest "/loan/create" "1") (loanRequest "/loan/return" "1") 7 1 (sampleBook 1 1)
    (by decide) (by decide) (by decide) rfl rfl (by decide) (by decide) (by decide) (by decide)

/-- C10: the scenario. Book `A` has stock 1 and the loans table is empty; `X`
and `Y` are two distinct logged-in users and no storage call fails. Then
`X` borrows `A`, `Y` borrows `A`, `X` returns `A`, `Y` borrows `A`, executed one
after another, answer success, "No hay stock disponible para este libro.",
success, success, and the stock of `A` after the four calls is 0, 0, 1, 0. -/
theorem scenario_one_copy_two_users (st : Store) (env₁ env₂ env₃ env₄ : Env)
    (sx₁ sy₂ sx₃ sy₄ : Session) (r₁ r₂ r₃ r₄ : Request) (X Y A : Int) (b : Book)
    (hwf : st.WF) (hXY : X ≠ Y)
    (hc₁ : IsCall sx₁ r₁ X A) (hc₂ : IsCall sy₂ r₂ Y A)
    (hc₃ : IsCall sx₃ r₃ X A) (hc₄ : IsCall sy₄ r₄ Y A)
    (hf₁ : env₁.faults = Faults.none) (hf₂ : env₂.faults = Faults.none)
    (hf₃ : env₃.faults = Faults.none) (hf₄ : env₄.faults = Faults.none)
    (hbook : st.book? A = some b) (hone : b.Stock = 1) (hloans : st.loans = []) :
    ∃ o₁ o₂ o₃ o₄,
      outcomes st [.borrowBook env₁ sx₁ r₁, .borrowBook env₂ sy₂ r₂,
        .returnBook env₃ sx₃ r₃, .borrowBook env₄ sy₄ r₄] = [o₁, o₂, o₃, o₄] ∧
      (o₁.session = sx₁.Put "flashSuccess" (.str "¡Libro prestado con éxito!") ∧
        o₁.response = .redirect ("/book?id=" ++ toString A) StatusSeeOther ∧
        o₁.store.stock? A = some 0) ∧
      (o₂.session = sy₂.Put "flashError" (.str "No hay stock disponible para este libro.") ∧
        o₂.response = .redirect ("/book?id=" ++ toString A) StatusSeeOther ∧
        o₂.store.stock? A = some 0) ∧
      (o₃.session = sx₃.Put "flashSuccess" (.str "¡Libro devuelto con éxito!") ∧
        o₃.response = .redirect "/my-loans" StatusSeeOther ∧
        o₃.store.stock? A = some 1) ∧
      (o₄.session = sy₄.Put "flashSuccess" (.str "¡Libro prestado con éxito!") ∧
        o₄.response = .redirect ("/book?id=" ++ toString A) StatusSeeOther ∧
        o₄.store.stock? A = some 0) := by
  obtain ⟨pre, post, hbs, hid, hpre, hpost⟩ := hwf.books_split hbook
  have hnoX : ∀ l ∈ st.loans, ¬(l.UserID = X ∧ l.BookID = A ∧ l.Status = "active") := by
    rw [hloans]; intro l hl; exact absurd hl (List.not_mem_nil l)
  -- X borrows the only copy
  have h₁ := createLoanHandler_step st env₁ sx₁ r₁ X A pre post b hc₁ hf₁ hbs
    hpre hpost hid (by omega) (countActiveLoans_zero st.loans X A hnoX)
  -- Y finds no copy
  have hnoY₁ : ∀ l ∈ (createLoanHandler st env₁ sx₁ r₁).store.loans,
      ¬(l.UserID = Y ∧ l.BookID = A ∧ l.Status = "active") := by
    rw [h₁, hloans]
    intro l hl h
    simp only [List.nil_append, List.mem_singleton] at hl
    rw [hl] at h
    exact hXY h.1
  have h₂ := createLoanHandler_step_noStock (createLoanHandler st env₁ sx₁ r₁).store env₂ sy₂ r₂
    Y A pre post { b with Stock := b.Stock - 1 } hc₂ hf₂ (by rw [h₁]) hpre hpost hid
    (show b.Stock - 1 = 0 by omega) (countActiveLoans_zero _ Y A hnoY₁)
  -- X returns the copy
  have hsel := selectActiveLoan_append_single st.loans
    ⟨st.nextLoanID, X, A, env₁.now, none, "active"⟩ X A hnoX ⟨rfl, rfl, rfl⟩
  have h₃ := returnLoanHandler_step
    (createLoanHandler (createLoanHandler st env₁ sx₁ r₁).store env₂ sy₂ r₂).store env₃ sx₃ r₃
    X A st.loans [] ⟨st.nextLoanID, X, A, env₁.now, none, "active"⟩
    pre post { b with Stock := b.Stock - 1 } hc₃ hf₃ (by rw [h₂, h₁])
    (fun x hx => ne_of_lt (hwf.2.2 x hx)) (fun x hx => absurd hx (List.not_mem_nil x)) rfl
    (by rw [h₂, h₁]; exact hsel) (by rw [h₂, h₁]) hpre hpost hid
  -- Y borrows it
  have hnoY₃ : ∀ l ∈ (returnLoanHandler
      (createLoanHandler (createLoanHandler st env₁ sx₁ r₁).store env₂ sy₂ r₂).store
      env₃ sx₃ r₃).store.loans, ¬(l.UserID = Y ∧ l.BookID = A ∧ l.Status = "active") := by
    rw [h₃, hloans]
    intro l hl h
    simp only [List.nil_append, List.mem_singleton] at hl
    rw [hl] at h
    exact hXY h.1
  have h₄ := createLoanHandler_step (returnLoanHandler
      (createLoanHandler (createLoanHandler st env₁ sx₁ r₁).store env₂ sy₂ r₂).store
      env₃ sx₃ r₃).store env₄ sy₄ r₄ Y A pre post { b with Stock := b.Stock - 1 + 1 }
    hc₄ hf₄ (by rw [h₃]) hpre hpost hid (show 0 < b.Stock - 1 + 1 by omega)
    (countActiveLoans_zero _ Y A hnoY₃)
  refine ⟨_, _, _, _, rfl, ⟨?_, ?_, ?_⟩, ⟨?_, ?_, ?_⟩, ⟨?_, ?_, ?_⟩, ⟨?_, ?_, ?_⟩⟩
  · simp only [Call.outcome]; rw [h₁]
  · simp only [Call.outcome]; rw [h₁]
  · simp only [Call.outcome]; rw [h₁]
    rw [stock?_split _ pre post { b with Stock := b.Stock - 1 } A rfl hpre hid]
    show some (b.Stock - 1) = some 0
    rw [hone]; rfl
  · simp only [Call.run, Call.outcome]; rw [h₂]
  · simp only [Call.run, Call.outcome]; rw [h₂]
  · simp only [Call.run, Call.outcome]; rw [h₂, h₁]
    rw [stock?_split _ pre post { b with Stock := b.Stock - 1 } A rfl hpre hid]
    show some (b.Stock - 1) = some 0
    rw [hone]; rfl
  · simp only [Call.run, Call.outcome]; rw [h₃]
  · simp only [Call.run, Call.outcome]; rw [h₃]
  · simp only [Call.run, Call.outcome]; rw [h₃]
    rw [stock?_split _ pre post { b with Stock := b.Stock - 1 + 1 } A rfl hpre hid]
    show some (b.Stock - 1 + 1) = some 1
    rw [hone]; rfl
  · simp only [Call.run, Call.outcome]; rw [h₄]
  · simp only [Call.run, Call.outcome]; rw [h₄]
  · simp only [Call.run, Call.outcome]; rw [h₄]
    rw [stock?_split _ pre post { b with Stock := b.Stock - 1 + 1 - 1 } A rfl hpre hid]
    show some (b.Stock - 1 + 1 - 1) = some 0
    rw [hone]; rfl

theorem scenario_one_copy_two_users_witness :
    ∃ o₁ o₂ o₃ o₄,
      outcomes freshStore sampleCalls = [o₁, o₂, o₃, o₄] ∧
      (o₁.session = (sessionOf 7).Put "flashSuccess" (.str "¡Libro prestado con éxito!") ∧
        o₁.response = .redirect ("/book?id=" ++ toString (1 : Int)) StatusSeeOther ∧
        o₁.store.stock? 1 = some 0) ∧
      (o₂.session =
          (sessionOf 8).Put "flashError" (.str "No hay stock disponible para este libro.") ∧
        o₂.response = .redirect ("/book?id=" ++ toString (1 : Int)) StatusSeeOther ∧
        o₂.store.stock? 1 = some 0) ∧
      (o₃.session = (sessionOf 7).Put "flashSuccess" (.str "¡Libro devuelto con éxito!") ∧
        o₃.response = .redirect "/my-loans" StatusSeeOther ∧
        o₃.store.stock? 1 = some 1) ∧
      (o₄.session = (sessionOf 8).Put "flashSuccess" (.str "¡Libro prestado con éxito!") ∧
        o₄.response = .redirect ("/book?id=" ++ toString (1 : Int)) StatusSeeOther ∧
        o₄.store.stock? 1 = some 0) :=
  scenario_one_copy_two_users freshStore (envAt 10) (envAt 11) (envAt 12) (envAt 13)
    (sessionOf 7) (sessionOf 8) (sessionOf 7) (sessionOf 8)
    (loanRequest "/loan/create" "1") (loanRequest "/loan/create" "1")
    (loanRequest "/loan/return" "1") (loanRequest "/loan/create" "1") 7 8 1 (sampleBook 1 1)
    (by decide) (by decide) (by decide) (by decide) (by decide) (by decide)
    rfl rfl rfl rfl (by decide) rfl rfl

/-! ## Login and the session gate -/

/-- C11, where the code departs from the claim: the stored hash of `admin` is a
bcrypt hash of `admin123`, and the submitted passwords `zzzz` and `aaaa`, which
do not match it, both log in as `admin`: the handler renews the token, attaches
the identity of the row and redirects to `/catalog`. The same holds whatever
hash is stored for the user. -/
theorem login_accepts_wrong_password :
    loginHandler credStore loginEnv (loginRequest "admin" "zzzz") =
      ⟨[.RenewToken, .Put "authenticatedUserID" (.int 1), .Put "userName" (.str "Administrador"),
          .Put "userRole" (.str "admin")],
        .response (.redirect "/catalog" StatusSeeOther)⟩ ∧
    loginHandler credStore loginEnv (loginRequest "admin" "aaaa") =
      ⟨[.RenewToken, .Put "authenticatedUserID" (.int 1), .Put "userName" (.str "Administrador"),
          .Put "userRole" (.str "admin")],
        .response (.redirect "/catalog" StatusSeeOther)⟩ ∧
    (guestSession.run loginEnv.freshToken
        (loginHandler credStore loginEnv (loginRequest "admin" "zzzz")).ops).values.GetInt
      "authenticatedUserID" = 1 ∧
    (∀ hash : String,
      (loginHandler ⟨[⟨1, "admin", "Administrador", "admin@example.com", hash, "admin", 0⟩], [], [], 1⟩
        loginEnv (loginRequest "admin" "zzzz")).reply =
        .response (.redirect "/catalog" StatusSeeOther)) := by
  refine ⟨by decide, by decide, by decide, ?_⟩
  intro hash
  rw [loginHandler_post_pass _ _ _ rfl (by decide)]
  rw [loginQuery_found _ _ _ ⟨1, "admin", "Administrador", "admin@example.com", hash, "admin", 0⟩
    rfl (by simp [selectUserByUsername, loginRequest, Request.FormValue])]

/-- C11 as amended: for a username present in the users table and a submitted
password that is not exactly 4 bytes long, whether or not it matches the stored
hash, `loginHandler` (POST) answers with a redirect to `/login?error=true` and
makes no call on the session, so no identity is attached. A password of 4 bytes
is not compared with the stored hash: when the lookup does not fail, the login
is accepted with the identity of the row found for the username. -/
theorem login_rejects_other_lengths (st : Store) (env : LoginEnv) (sess : SessionState)
    (r : Request) (u : User) (hm : r.method = "POST") (hu : u ∈ st.users)
    (hname : r.FormValue "username" = u.Username) :
    ((r.FormValue "password").utf8ByteSize ≠ 4 →
      (loginHandler st env r).reply = .response (.redirect "/login?error=true" StatusSeeOther) ∧
      (loginHandler st env r).ops = [] ∧
      sess.run env.freshToken (loginHandler st env r).ops = sess) ∧
    ((r.FormValue "password").utf8ByteSize = 4 → env.queryFails = false →
      ∃ v ∈ st.users, v.Username = u.Username ∧
        (loginHandler st env r).reply = .response (.redirect "/catalog" StatusSeeOther) ∧
        (sess.run env.freshToken (loginHandler st env r).ops).values.GetInt
          "authenticatedUserID" = v.ID) := by
  constructor
  · intro hlen
    rw [loginHandler_post_gate st env r hm hlen]
    exact ⟨rfl, rfl, rfl⟩
  · intro hlen hq
    obtain ⟨v, hsel, hv, hvn⟩ := selectUserByUsername_of_mem st.users u hu
    rw [loginHandler_post_pass st env r hm hlen, hname, loginQuery_found st env _ v hq hsel]
    exact ⟨v, hv, hvn, rfl, (SessionState.run_login env.freshToken sess v).2.1⟩

theorem login_rejects_other_lengths_witness :
    (loginHandler credStore loginEnv (loginRequest "admin" "admin123")).reply =
      .response (.redirect "/login?error=true" StatusSeeOther) ∧
    (loginHandler credStore loginEnv (loginRequest "admin" "admin123")).ops = [] ∧
    guestSession.run loginEnv.freshToken
      (loginHandler credStore loginEnv (loginRequest "admin" "admin123")).ops = guestSession :=
  (login_rejects_other_lengths credStore loginEnv guestSession (loginRequest "admin" "admin123")
    seedAdmin
    rfl (by decide) rfl).1 (by decide)

/-- C12, where the code departs from the claim: with the same password `zzzz`,
wrong for `admin`, the existing username `admin` is redirected to `/catalog`
and the username `nadie`, which is not in the table, to `/login?error=true`. The
two answers differ, so the response tells whether the username exists. -/
theorem login_tells_existing_username :
    selectUserByUsername credStore.users "nadie" = none ∧
    loginHandler credStore loginEnv (loginRequest "nadie" "zzzz") =
      ⟨[], .response (.redirect "/login?error=true" StatusSeeOther)⟩ ∧
    (loginHandler credStore loginEnv (loginRequest "admin" "zzzz")).reply =
      .response (.redirect "/catalog" StatusSeeOther) ∧
    loginHandler credStore loginEnv (loginRequest "admin" "zzzz") ≠
      loginHandler credStore loginEnv (loginRequest "nadie" "zzzz") := by
  decide

/-- C12 as amended: for a password that is not exactly 4 bytes long, a login
with an existing username and a login with a username that is not in the table
give the identical result: the redirect to `/login?error=true` and no call on
the session. For a password of 4 bytes whose lookup does not fail the two
differ: the existing username is redirected to `/catalog` with an identity
attached, the other to `/login?error=true`. -/
theorem login_same_answer_off_length (st : Store) (env : LoginEnv) (r₁ r₂ : Request)
    (u : User) (hm₁ : r₁.method = "POST") (hm₂ : r₂.method = "POST")
    (hpw : r₁.FormValue "password" = r₂.FormValue "password")
    (hu : u ∈ st.users) (hname : r₁.FormValue "username" = u.Username)
    (hnone : selectUserByUsername st.users (r₂.FormValue "username") = none) :
    ((r₁.FormValue "password").utf8ByteSize ≠ 4 →
      loginHandler st env r₁ = loginHandler st env r₂ ∧
      loginHandler st env r₁ =
        ⟨[], .response (.redirect "/login?error=true" StatusSeeOther)⟩) ∧
    ((r₁.FormValue "password").utf8ByteSize = 4 → env.queryFails = false →
      (loginHandler st env r₁).reply = .response (.redirect "/catalog" StatusSeeOther) ∧
      (loginHandler st env r₁).ops ≠ [] ∧
      loginHandler st env r₂ =
        ⟨[], .response (.redirect "/login?error=true" StatusSeeOther)⟩) := by
  constructor
  · intro hlen
    rw [loginHandler_post_gate st env r₁ hm₁ hlen,
      loginHandler_post_gate st env r₂ hm₂ (hpw ▸ hlen)]
    exact ⟨rfl, rfl⟩
  · intro hlen hq
    obtain ⟨v, hsel, _, _⟩ := selectUserByUsername_of_mem st.users u hu
    rw [loginHandler_post_pass st env r₁ hm₁ hlen, hname, loginQuery_found st env _ v hq hsel,
      loginHandler_post_pass st env r₂ hm₂ (hpw ▸ hlen), loginQuery_missing st env _ hq hnone]
    exact ⟨rfl, by simp, rfl⟩

theorem login_same_answer_off_length_witness :
    loginHandler credStore loginEnv (loginRequest "admin" "clave") =
      loginHandler credStore loginEnv (loginRequest "nadie" "clave") ∧
    loginHandler credStore loginEnv (loginRequest "admin" "clave") =
      ⟨[], .response (.redirect "/login?error=true" StatusSeeOther)⟩ :=
  (login_same_answer_off_length credStore loginEnv (loginRequest "admin" "clave")
    (loginRequest "nadie" "clave")
    seedAdmin
    rfl rfl rfl (by decide) rfl (by decide)).1 (by decide)

/-- C13, where the code departs from the claim: the check is `len(password) != 4`
on the bytes of the string. The password `añod` has 4 characters and 5 bytes and
is rejected by the check; the password `ñu1` has 3 characters and 4 bytes,
passes it and logs in. -/
theorem length_gate_counts_bytes :
    "añod".length = 4 ∧ "añod".utf8ByteSize = 5 ∧
    loginHandler credStore loginEnv (loginRequest "admin" "añod") =
      ⟨[], .response (.redirect "/login?error=true" StatusSeeOther)⟩ ∧
    "ñu1".length = 3 ∧ "ñu1".utf8ByteSize = 4 ∧
    (loginHandler credStore loginEnv (loginRequest "admin" "ñu1")).reply =
      .response (.redirect "/catalog" StatusSeeOther) := by
  decide

/-- C13 as amended: for every username and every password that is not exactly 4
bytes long, `loginHandler` (POST) answers with a redirect to
`/login?error=true` whatever the users table and whether or not the lookup would
fail, so before the table is queried, and makes no call on the session. A
password of exactly 4 bytes always passes the check: the handler goes on with
the lookup of the username. -/
theorem length_gate (st : Store) (env : LoginEnv) (sess : SessionState) (r : Request)
    (hm : r.method = "POST") :
    ((r.FormValue "password").utf8ByteSize ≠ 4 →
      (∀ (st' : Store) (env' : LoginEnv), loginHandler st' env' r =
        ⟨[], .response (.redirect "/login?error=true" StatusSeeOther)⟩) ∧
      sess.run env.freshToken (loginHandler st env r).ops = sess) ∧
    ((r.FormValue "password").utf8ByteSize = 4 →
      loginHandler st env r = loginQuery st env (r.FormValue "username")) := by
  constructor
  · intro hlen
    refine ⟨fun st' env' => loginHandler_post_gate st' env' r hm hlen, ?_⟩
    rw [loginHandler_post_gate st env r hm hlen]
    rfl
  · intro hlen
    exact loginHandler_post_pass st env r hm hlen

theorem length_gate_witness :
    loginHandler credStore ⟨"token-after-login", true, false⟩ (loginRequest "usuario1" "user123") =
      ⟨[], .response (.redirect "/login?error=true" StatusSeeOther)⟩ ∧
    guestSession.run loginEnv.freshToken
      (loginHandler credStore loginEnv (loginRequest "usuario1" "user123")).ops = guestSession :=
  ⟨((length_gate credStore loginEnv guestSession (loginRequest "usuario1" "user123") rfl).1
      (by decide)).1 credStore ⟨"token-after-login", true, false⟩,
   ((length_gate credStore loginEnv guestSession (loginRequest "usuario1" "user123") rfl).1
      (by decide)).2⟩

/-- C14: on a POST, when `loginHandler` accepts the login (redirect to
`/catalog`) its calls on the session are, in this order, `RenewToken` and then
the three `Put` of the identity of the row found for the submitted username;
the session then has the renewed token, `authenticatedUserID` = the id of the
row, `userName` = its name and `userRole` = its role. When it does not accept
the login it makes no call on the session, so none of the three keys is
written. The login is accepted when the password has 4 bytes, the lookup does
not fail and finds a row. -/
theorem login_attaches_identity (st : Store) (env : LoginEnv) (sess : SessionState)
    (r : Request) (hm : r.method = "POST") :
    ((loginHandler st env r).reply = .response (.redirect "/catalog" StatusSeeOther) →
      ∃ u, selectUserByUsername st.users (r.FormValue "username") = some u ∧
        (loginHandler st env r).ops =
          [.RenewToken, .Put "authenticatedUserID" (.int u.ID), .Put "userName" (.str u.Name),
            .Put "userRole" (.str u.Role)] ∧
        (sess.run env.freshToken (loginHandler st env r).ops).token = env.freshToken ∧
        (sess.run env.freshToken (loginHandler st env r).ops).values.GetInt
          "authenticatedUserID" = u.ID ∧
        (sess.run env.freshToken (loginHandler st env r).ops).values.GetString
          "userName" = u.Name ∧
        (sess.run env.freshToken (loginHandler st env r).ops).values.GetString
          "userRole" = u.Role) ∧
    ((loginHandler st env r).reply ≠ .response (.redirect "/catalog" StatusSeeOther) →
      (loginHandler st env r).ops = [] ∧
      sess.run env.freshToken (loginHandler st env r).ops = sess) ∧
    (∀ u, (r.FormValue "password").utf8ByteSize = 4 → env.queryFails = false →
      selectUserByUsername st.users (r.FormValue "username") = some u →
      (loginHandler st env r).reply = .response (.redirect "/catalog" StatusSeeOther)) := by
  by_cases hlen : (r.FormValue "password").utf8ByteSize = 4
  · rw [loginHandler_post_pass st env r hm hlen]
    cases hq : env.queryFails with
    | true =>
      rw [loginQuery_fails st env _ hq]
      refine ⟨fun h => ?_, fun _ => ⟨rfl, rfl⟩, fun u _ h => ?_⟩
      · exact absurd h (by decide)
      · exact absurd h (by decide)
    | false =>
      cases hsel : selectUserByUsername st.users (r.FormValue "username") with
      | none =>
        rw [loginQuery_missing st env _ hq hsel]
        refine ⟨fun h => ?_, fun _ => ⟨rfl, rfl⟩, fun u _ _ h => ?_⟩
        · exact absurd h (by decide)
        · exact absurd h (by simp)
      | some u =>
        rw [loginQuery_found st env _ u hq hsel]
        obtain ⟨h1, h2, h3, h4⟩ := SessionState.run_login env.freshToken sess u
        refine ⟨fun _ => ⟨u, rfl, rfl, h1, h2, h3, h4⟩, fun h => absurd rfl h, fun _ _ _ _ => rfl⟩
  · rw [loginHandler_post_gate st env r hm hlen]
    refine ⟨fun h => ?_, fun _ => ⟨rfl, rfl⟩, fun u h => absurd h hlen⟩
    exact absurd h (by decide)

theorem login_attaches_identity_witness :
    (loginHandler credStore loginEnv (loginRequest "usuario1" "1234")).reply =
      .response (.redirect "/catalog" StatusSeeOther) ∧
    ∃ u, selectUserByUsername credStore.users
          ((loginRequest "usuario1" "1234").FormValue "username") = some u ∧
        (loginHandler credStore loginEnv (loginRequest "usuario1" "1234")).ops =
          [.RenewToken, .Put "authenticatedUserID" (.int u.ID), .Put "userName" (.str u.Name),
            .Put "userRole" (.str u.Role)] ∧
        (guestSession.run loginEnv.freshToken
          (loginHandler credStore loginEnv (loginRequest "usuario1" "1234")).ops).token =
          loginEnv.freshToken ∧
        (guestSession.run loginEnv.freshToken
          (loginHandler credStore loginEnv (loginRequest "usuario1" "1234")).ops).values.GetInt
          "authenticatedUserID" = u.ID ∧
        (guestSession.run loginEnv.freshToken
          (loginHandler credStore loginEnv (loginRequest "usuario1" "1234")).ops).values.GetString
          "userName" = u.Name ∧
        (guestSession.run loginEnv.freshToken
          (loginHandler credStore loginEnv (loginRequest "usuario1" "1234")).ops).values.GetString
          "userRole" = u.Role :=
  ⟨by decide,
   (login_attaches_identity credStore loginEnv guestSession (loginRequest "usuario1" "1234")
      rfl).1 (by decide)⟩

/-- C15: `requireAuthentication`. For every store, session and request, the
answer of the middleware is the answer of the wrapped handler, whatever the
wrapped handler, exactly when the session contains the key
`authenticatedUserID`; when it does not, the answer is the redirect to `/login`
with the session untouched, in which the wrapped handler has no part. After the
`Destroy` of `logoutHandler` the session has no key, so every handler wrapped in
`requireAuthentication` answers with the redirect to `/login`. -/
theorem require_authentication_gate (st : Store) (env : Env) (sess : Session) (r : Request) :
    ((∀ next : Handler, requireAuthentication next st env sess r = next st env sess r) ↔
      sess.Exists "authenticatedUserID" = true) ∧
    (sess.Exists "authenticatedUserID" = false →
      ∀ next : Handler, requireAuthentication next st env sess r =
        ⟨⟨st, sess, .redirect "/login" StatusSeeOther⟩, []⟩) ∧
    (∀ (next : Handler) (fresh : String) (s : SessionState) (r' : Request),
      (logoutHandler r').reply = .response (.redirect "/login" StatusSeeOther) ∧
      (s.run fresh (logoutHandler r').ops).values.Exists "authenticatedUserID" = false ∧
      requireAuthentication next st env (s.run fresh (logoutHandler r').ops).values r =
        ⟨⟨st, [], .redirect "/login" StatusSeeOther⟩, []⟩) := by
  have hdeny : sess.Exists "authenticatedUserID" = false →
      ∀ next : Handler, requireAuthentication next st env sess r =
        ⟨⟨st, sess, .redirect "/login" StatusSeeOther⟩, []⟩ := by
    intro h next
    simp only [requireAuthentication, h, Bool.not_false, if_true]
  refine ⟨⟨fun hall => ?_, fun h next => ?_⟩, hdeny, fun next fresh s r' => ⟨rfl, rfl, rfl⟩⟩
  · cases h : sess.Exists "authenticatedUserID" with
    | true => rfl
    | false =>
      have h1 := hall (fixedHandler "")
      rw [hdeny h (fixedHandler "")] at h1
      have h2 := congrArg (fun s => s.outcome.response) h1
      simp [fixedHandler] at h2
  · simp only [requireAuthentication, h, Bool.not_true, if_false, Bool.false_eq_true]

/-- C16: `requireAdmin` on the route `/admin/`, which `main` registers as
`requireAuthentication(requireAdmin(adminRouter))`. The answer is the answer of
the admin router, whatever the router, exactly when the session contains
`authenticatedUserID` and its `userRole` is `admin`. A session without
`authenticatedUserID` is redirected to `/login` by the outer middleware,
whatever its role, and nothing is logged: the role check is not reached. A
session with `authenticatedUserID` whose role is not `admin` is redirected to
`/catalog` and the denial is logged with the requested path. In both cases the
admin router has no part in the answer. -/
theorem require_admin_gate (st : Store) (env : Env) (sess : Session) (r : Request) :
    ((∀ adminRouter : Handler, adminRoute adminRouter st env sess r =
        adminRouter st env sess r) ↔
      (sess.Exists "authenticatedUserID" = true ∧ sess.GetString "userRole" = "admin")) ∧
    (sess.Exists "authenticatedUserID" = false →
      ∀ adminRouter : Handler, adminRoute adminRouter st env sess r =
        ⟨⟨st, sess, .redirect "/login" StatusSeeOther⟩, []⟩) ∧
    (sess.Exists "authenticatedUserID" = true → sess.GetString "userRole" ≠ "admin" →
      ∀ adminRouter : Handler, adminRoute adminRouter st env sess r =
        ⟨⟨st, sess, .redirect "/catalog" StatusSeeOther⟩,
          ["Acceso denegado: Usuario no administrador intentó acceder a " ++ r.path]⟩) := by
  have hlogin : sess.Exists "authenticatedUserID" = false →
      ∀ adminRouter : Handler, adminRoute adminRouter st env sess r =
        ⟨⟨st, sess, .redirect "/login" StatusSeeOther⟩, []⟩ := by
    intro h adminRouter
    simp only [adminRoute, requireAuthentication, h, Bool.not_false, if_true]
  have hcatalog : sess.Exists "authenticatedUserID" = true →
      sess.GetString "userRole" ≠ "admin" →
      ∀ adminRouter : Handler, adminRoute adminRouter st env sess r =
        ⟨⟨st, sess, .redirect "/catalog" StatusSeeOther⟩,
          ["Acceso denegado: Usuario no administrador intentó acceder a " ++ r.path]⟩ := by
    intro h hrole adminRouter
    simp only [adminRoute, requireAuthentication, requireAdmin, h, Bool.not_true, if_false,
      Bool.false_eq_true, hrole, ne_eq, not_false_eq_true, if_true]
  refine ⟨⟨fun hall => ?_, fun h adminRouter => ?_⟩, hlogin, hcatalog⟩
  · cases h : sess.Exists "authenticatedUserID" with
    | false =>
      have h1 := hall (fixedHandler "")
      rw [hlogin h (fixedHandler "")] at h1
      have h2 := congrArg (fun s => s.outcome.response) h1
      simp [fixedHandler] at h2
    | true =>
      by_cases hrole : sess.GetString "userRole" = "admin"
      · exact ⟨rfl, hrole⟩
      · have h1 := hall (fixedHandler "")
        rw [hcatalog h hrole (fixedHandler "")] at h1
        have h2 := congrArg (fun s => s.outcome.response) h1
        simp [fixedHandler] at h2
  · simp only [adminRoute, requireAuthentication, requireAdmin, h.1, h.2, Bool.not_true,
      if_false, Bool.false_eq_true, ne_eq, not_true_eq_false]

/-- C17: an admin cannot delete their own account. When the `id` of the request
is the `authenticatedUserID` of the session, `adminUserDeleteHandler` answers
with the redirect to `/admin/dashboard?error=self_delete` and the store, so the
users table, is the one before the call, whether or not the `DELETE` would
fail. -/
theorem admin_cannot_delete_self (st : Store) (env : Env) (sess : Session) (r : Request)
    (u : Int) (hm : r.method = "POST") (hid : Atoi (r.QueryGet "id") = some u)
    (hsess : sess.GetInt "authenticatedUserID" = u) :
    (adminUserDeleteHandler st env sess r).store = st ∧
    (adminUserDeleteHandler st env sess r).store.users = st.users ∧
    (adminUserDeleteHandler st env sess r).session = sess ∧
    (adminUserDeleteHandler st env sess r).response =
      .redirect "/admin/dashboard?error=self_delete" StatusSeeOther := by
  have heq : adminUserDeleteHandler st env sess r =
      ⟨st, sess, .redirect "/admin/dashboard?error=self_delete" StatusSeeOther⟩ := by
    unfold adminUserDeleteHandler
    rw [if_neg (by rw [hm]; exact fun h => h rfl), hid]
    exact if_pos hsess.symm
  rw [heq]
  exact ⟨rfl, rfl, rfl, rfl⟩

theorem admin_cannot_delete_self_witness :
    (adminUserDeleteHandler credStore (envAt 10) (identitySession 1 "Administrador" "admin")
        (deleteUserRequest "1")).store = credStore ∧
    (adminUserDeleteHandler credStore (envAt 10) (identitySession 1 "Administrador" "admin")
        (deleteUserRequest "1")).store.users = credStore.users ∧
    (adminUserDeleteHandler credStore (envAt 10) (identitySession 1 "Administrador" "admin")
        (deleteUserRequest "1")).session = identitySession 1 "Administrador" "admin" ∧
    (adminUserDeleteHandler credStore (envAt 10) (identitySession 1 "Administrador" "admin")
        (deleteUserRequest "1")).response =
      .redirect "/admin/dashboard?error=self_delete" StatusSeeOther :=
  admin_cannot_delete_self credStore (envAt 10) (identitySession 1 "Administrador" "admin")
    (deleteUserRequest "1") 1 rfl (by decide) (by decide)

/-- C18: atomicity under storage errors. For a call of the loan workflow, at
whichever database call the run fails (`Begin`, the duplicate check, the stock
decrement, its `RowsAffected`, the loan insert, `Commit` for `createLoanHandler`;
`Begin`, the loan lookup, the status update, its `RowsAffected`, the stock
increment, `Commit` for `returnLoanHandler`), each under the condition that lets
the run reach it, the handler answers with a server error (status 500) and the
committed store is the store before the call. In particular, whatever fails,
the store `createLoanHandler` commits is either the old one or the old one
with both the stock decrement and the new loan row. -/
theorem storage_failure_rolls_back (st : Store) (env : Env) (sess : Session) (r : Request)
    (userID bookID : Int) (hc : IsCall sess r userID bookID) :
    (env.faults.beginFails = true → RolledBack st (createLoanHandler st env sess r)) ∧
    (env.faults.beginFails = false → env.faults.queryFails = true →
      RolledBack st (createLoanHandler st env sess r)) ∧
    (env.faults.beginFails = false → env.faults.queryFails = false →
      countActiveLoans st.loans userID bookID = 0 → env.faults.firstExecFails = true →
      RolledBack st (createLoanHandler st env sess r)) ∧
    (env.faults.beginFails = false → env.faults.queryFails = false →
      countActiveLoans st.loans userID bookID = 0 → env.faults.firstExecFails = false →
      env.faults.rowsAffectedFails = true →
      RolledBack st (createLoanHandler st env sess r)) ∧
    (env.faults.beginFails = false → env.faults.queryFails = false →
      countActiveLoans st.loans userID bookID = 0 → env.faults.firstExecFails = false →
      env.faults.rowsAffectedFails = false → (execDecrementStock st.books bookID).2 ≠ 0 →
      env.faults.secondExecFails = true →
      RolledBack st (createLoanHandler st env sess r)) ∧
    (env.faults.beginFails = false → env.faults.queryFails = false →
      countActiveLoans st.loans userID bookID = 0 → env.faults.firstExecFails = false →
      env.faults.rowsAffectedFails = false → (execDecrementStock st.books bookID).2 ≠ 0 →
      env.faults.secondExecFails = false → env.faults.commitFails = true →
      RolledBack st (createLoanHandler st env sess r)) ∧
    (env.faults.beginFails = true → RolledBack st (returnLoanHandler st env sess r)) ∧
    (env.faults.beginFails = false → env.faults.queryFails = true →
      RolledBack st (returnLoanHandler st env sess r)) ∧
    (∀ loanID, env.faults.beginFails = false → env.faults.queryFails = false →
      selectActiveLoan st.loans userID bookID = some loanID →
      env.faults.firstExecFails = true →
      RolledBack st (returnLoanHandler st env sess r)) ∧
    (∀ loanID, env.faults.beginFails = false → env.faults.queryFails = false →
      selectActiveLoan st.loans userID bookID = some loanID →
      env.faults.firstExecFails = false → env.faults.rowsAffectedFails = true →
      RolledBack st (returnLoanHandler st env sess r)) ∧
    (∀ loanID, env.faults.beginFails = false → env.faults.queryFails = false →
      selectActiveLoan st.loans userID bookID = some loanID →
      env.faults.firstExecFails = false → env.faults.rowsAffectedFails = false →
      0 < (execReturnLoan st.loans loanID env.now).2 → env.faults.secondExecFails = true →
      RolledBack st (returnLoanHandler st env sess r)) ∧
    (∀ loanID, env.faults.beginFails = false → env.faults.queryFails = false →
      selectActiveLoan st.loans userID bookID = some loanID →
      env.faults.firstExecFails = false → env.faults.rowsAffectedFails = false →
      0 < (execReturnLoan st.loans loanID env.now).2 → env.faults.secondExecFails = false →
      env.faults.commitFails = true →
      RolledBack st (returnLoanHandler st env sess r)) ∧
    ((createLoanHandler st env sess r).store = st ∨
      ((createLoanHandler st env sess r).store.books = (execDecrementStock st.books bookID).1 ∧
        (execDecrementStock st.books bookID).2 ≠ 0 ∧
        (createLoanHandler st env sess r).store.loans =
          st.loans ++ [⟨st.nextLoanID, userID, bookID, env.now, none, "active"⟩])) := by
  rw [createLoanHandler_call st env sess r userID bookID hc,
    returnLoanHandler_call st env sess r userID bookID hc]
  refine ⟨?_, ?_, ?_, ?_, ?_, ?_, ?_, ?_, ?_, ?_, ?_, ?_, ?_⟩
  · intro h1
    simp only [createLoanTx, h1, if_true]
    exact ⟨rfl, rfl⟩
  · intro h1 h2
    simp only [createLoanTx, h1, h2, if_true, if_false, Bool.false_eq_true]
    exact ⟨rfl, rfl⟩
  · intro h1 h2 hcount h3
    simp only [createLoanTx, h1, h2, h3, hcount, if_true, if_false, Bool.false_eq_true,
      gt_iff_lt, lt_self_iff_false]
    exact ⟨rfl, rfl⟩
  · intro h1 h2 hcount h3 h4
    simp only [createLoanTx, h1, h2, h3, h4, hcount, if_true, if_false, Bool.false_eq_true,
      gt_iff_lt, lt_self_iff_false]
    exact ⟨rfl, rfl⟩
  · intro h1 h2 hcount h3 h4 hrows h5
    simp only [createLoanTx, h1, h2, h3, h4, h5, hcount, hrows, if_true, if_false,
      Bool.false_eq_true, gt_iff_lt, lt_self_iff_false]
    exact ⟨rfl, rfl⟩
  · intro h1 h2 hcount h3 h4 hrows h5 h6
    simp only [createLoanTx, h1, h2, h3, h4, h5, h6, hcount, hrows, if_true, if_false,
      Bool.false_eq_true, gt_iff_lt, lt_self_iff_false]
    exact ⟨rfl, rfl⟩
  · intro h1
    simp only [returnLoanTx, h1, if_true]
    exact ⟨rfl, rfl⟩
  · intro h1 h2
    simp only [returnLoanTx, h1, h2, if_true, if_false, Bool.false_eq_true]
    exact ⟨rfl, rfl⟩
  · intro loanID h1 h2 hsel h3
    simp only [returnLoanTx, returnLoanUpdate, h1, h2, h3, hsel, if_true, if_false,
      Bool.false_eq_true]
    exact ⟨rfl, rfl⟩
  · intro loanID h1 h2 hsel h3 h4
    simp only [returnLoanTx, returnLoanUpdate, h1, h2, h3, h4, hsel, if_true, if_false,
      Bool.false_eq_true]
    exact ⟨rfl, rfl⟩
  · intro loanID h1 h2 hsel h3 h4 hrows h5
    simp only [returnLoanTx, returnLoanUpdate, h1, h2, h3, h4, h5, hsel, hrows, if_true,
      if_false, Bool.false_eq_true, gt_iff_lt]
    exact ⟨rfl, rfl⟩
  · intro loanID h1 h2 hsel h3 h4 hrows h5 h6
    simp only [returnLoanTx, returnLoanUpdate, h1, h2, h3, h4, h5, h6, hsel, hrows, if_true,
      if_false, Bool.false_eq_true, gt_iff_lt]
    exact ⟨rfl, rfl⟩
  · rcases createLoanTx_store st env sess userID bookID with h | ⟨_, h⟩
    · exact Or.inl h
    · by_cases hrows : (execDecrementStock st.books bookID).2 = 0
      · left
        unfold createLoanTx
        split_ifs <;> rfl
      · right
        rw [h]
        exact ⟨rfl, hrows, rfl⟩

theorem storage_failure_rolls_back_witness :
    RolledBack freshStore
      (createLoanHandler freshStore ⟨10, ⟨false, false, false, false, false, true⟩⟩ (sessionOf 7)
        (loanRequest "/loan/create" "1")) :=
  (storage_failure_rolls_back freshStore ⟨10, ⟨false, false, false, false, false, true⟩⟩
    (sessionOf 7) (loanRequest "/loan/create" "1") 7 1 (by decide)).2.2.2.2.2.1
    rfl rfl (by decide) rfl rfl (by decide) rfl rfl

/-- C19: validation precedes the transaction. When the `book_id` field of a POST
is not an integer `Atoi` accepts, `createLoanHandler` and `returnLoanHandler`
answer with the bad-request error "ID de libro inválido" (status 400), with the
store and the session untouched, whatever the storage failures: also when
`Begin` would fail, so no transaction is opened. -/
theorem invalid_book_id_rejected (st : Store) (env : Env) (sess : Session) (r : Request)
    (hm : r.method = "POST") (hbad : Atoi (r.FormValue "book_id") = none) :
    createLoanHandler st env sess r =
      ⟨st, sess, .error "ID de libro inválido" StatusBadRequest⟩ ∧
    returnLoanHandler st env sess r =
      ⟨st, sess, .error "ID de libro inválido" StatusBadRequest⟩ := by
  constructor
  · unfold createLoanHandler
    rw [if_neg (by rw [hm]; exact fun h => h rfl), hbad]
  · unfold returnLoanHandler
    rw [if_neg (by rw [hm]; exact fun h => h rfl), hbad]

theorem invalid_book_id_rejected_witness :
    createLoanHandler freshStore ⟨10, ⟨true, false, false, false, false, false⟩⟩ (sessionOf 7)
        (loanRequest "/loan/create" "12a") =
      ⟨freshStore, sessionOf 7, .error "ID de libro inválido" StatusBadRequest⟩ ∧
    returnLoanHandler freshStore ⟨10, ⟨true, false, false, false, false, false⟩⟩ (sessionOf 7)
        (loanRequest "/loan/create" "12a") =
      ⟨freshStore, sessionOf 7, .error "ID de libro inválido" StatusBadRequest⟩ :=
  invalid_book_id_rejected freshStore ⟨10, ⟨true, false, false, false, false, false⟩⟩
    (sessionOf 7) (loanRequest "/loan/create" "12a") rfl (by decide)

/-! ## The remaining properties of the loan workflow and of the login -/

/-- C25, where the code departs from the claim: the passwords `abcd` and `añod`
have the same length, 4 characters, and `loginHandler` answers them
differently for the existing username `admin`: `abcd` logs in, `añod`, which is
5 bytes long, is redirected to `/login?error=true`. -/
theorem login_same_characters_other_answer :
    "abcd".length = 4 ∧ "añod".length = 4 ∧
    (loginHandler credStore loginEnv (loginRequest "admin" "abcd")).reply =
      .response (.redirect "/catalog" StatusSeeOther) ∧
    (loginHandler credStore loginEnv (loginRequest "admin" "añod")).reply =
      .response (.redirect "/login?error=true" StatusSeeOther) := by
  decide

/-- C25 as amended: the outcome of `loginHandler` depends neither on the stored
password hashes nor on the content of the submitted password. For two stores
whose users tables differ only in the password hashes, and two requests with
the same method and username whose passwords have the same length in bytes,
the handler makes the same calls on the session and gives the same response,
so the resulting sessions are the same. In particular a password of 4 bytes
logs in as any existing username when the lookup does not fail. -/
theorem login_ignores_password (st₁ st₂ : Store) (env : LoginEnv) (sess : SessionState)
    (r₁ r₂ : Request)
    (husers : st₁.users.map User.withoutPassword = st₂.users.map User.withoutPassword)
    (hm : r₁.method = r₂.method)
    (hname : r₁.FormValue "username" = r₂.FormValue "username")
    (hlen : (r₁.FormValue "password").utf8ByteSize = (r₂.FormValue "password").utf8ByteSize) :
    loginHandler st₁ env r₁ = loginHandler st₂ env r₂ ∧
    sess.run env.freshToken (loginHandler st₁ env r₁).ops =
      sess.run env.freshToken (loginHandler st₂ env r₂).ops ∧
    (∀ u ∈ st₁.users, r₁.method = "POST" → r₁.FormValue "username" = u.Username →
      (r₁.FormValue "password").utf8ByteSize = 4 → env.queryFails = false →
      (loginHandler st₁ env r₁).reply = .response (.redirect "/catalog" StatusSeeOther) ∧
      ∃ v ∈ st₁.users, v.Username = u.Username ∧
        (sess.run env.freshToken (loginHandler st₁ env r₁).ops).values.GetInt
          "authenticatedUserID" = v.ID) := by
  have heq : loginHandler st₁ env r₁ = loginHandler st₂ env r₂ := by
    unfold loginHandler
    rw [← hm, ← hname, ← hlen, loginQuery_withoutPassword st₁ st₂ env _ husers]
  refine ⟨heq, by rw [heq], ?_⟩
  intro u hu hpost hun hfour hq
  obtain ⟨v, hsel, hv, hvn⟩ := selectUserByUsername_of_mem st₁.users u hu
  rw [loginHandler_post_pass st₁ env r₁ hpost hfour, hun, loginQuery_found st₁ env _ v hq hsel]
  exact ⟨rfl, v, hv, hvn, (SessionState.run_login env.freshToken sess v).2.1⟩

theorem login_ignores_password_witness :
    loginHandler credStore loginEnv (loginRequest "usuario1" "zzzz") =
      loginHandler ⟨credStore.users.map User.withoutPassword, [], [], 1⟩ loginEnv
        (loginRequest "usuario1" "1234") ∧
    guestSession.run loginEnv.freshToken
        (loginHandler credStore loginEnv (loginRequest "usuario1" "zzzz")).ops =
      guestSession.run loginEnv.freshToken
        (loginHandler ⟨credStore.users.map User.withoutPassword, [], [], 1⟩ loginEnv
          (loginRequest "usuario1" "1234")).ops :=
  ⟨(login_ignores_password credStore ⟨credStore.users.map User.withoutPassword, [], [], 1⟩
      loginEnv guestSession (loginRequest "usuario1" "zzzz") (loginRequest "usuario1" "1234")
      (by decide) rfl rfl (by decide)).1,
   (login_ignores_password credStore ⟨credStore.users.map User.withoutPassword, [], [], 1⟩
      loginEnv guestSession (loginRequest "usuario1" "zzzz") (loginRequest "usuario1" "1234")
      (by decide) rfl rfl (by decide)).2.1⟩

/-- C26: borrowing a book id that names no book row. When the user has no active
loan for the id and no row of the books table has it, `createLoanHandler`
answers with the flash error "No hay stock disponible para este libro." and
the redirect to the book page, the answer it gives for a book whose stock is 0,
and commits nothing: the store, and so the loans table, is the one before the
call. -/
theorem borrow_missing_book (st : Store) (env : Env) (sess : Session) (r : Request)
    (userID bookID : Int) (hc : IsCall sess r userID bookID)
    (hb : env.faults.beginFails = false) (hq : env.faults.queryFails = false)
    (he : env.faults.firstExecFails = false) (hr : env.faults.rowsAffectedFails = false)
    (hno : ∀ l ∈ st.loans, ¬(l.UserID = userID ∧ l.BookID = bookID ∧ l.Status = "active"))
    (hmissing : st.book? bookID = none) :
    (createLoanHandler st env sess r).store = st ∧
    (createLoanHandler st env sess r).store.loans = st.loans ∧
    (createLoanHandler st env sess r).session =
      sess.Put "flashError" (.str "No hay stock disponible para este libro.") ∧
    (createLoanHandler st env sess r).response =
      .redirect ("/book?id=" ++ toString bookID) StatusSeeOther ∧
    (∀ (st₀ : Store) (b₀ : Book), st₀.WF → st₀.book? bookID = some b₀ → b₀.Stock = 0 →
      (∀ l ∈ st₀.loans, ¬(l.UserID = userID ∧ l.BookID = bookID ∧ l.Status = "active")) →
      (createLoanHandler st₀ env sess r).session = (createLoanHandler st env sess r).session ∧
      (createLoanHandler st₀ env sess r).response =
        (createLoanHandler st env sess r).response) := by
  have h := createLoanTx_noRows st env sess userID bookID hb hq he hr
    (countActiveLoans_zero st.loans userID bookID hno)
    (execDecrementStock_absent st.books bookID (book?_none hmissing))
  rw [createLoanHandler_call st env sess r userID bookID hc, h]
  refine ⟨rfl, rfl, rfl, rfl, ?_⟩
  intro st₀ b₀ hwf hbook h0 hno₀
  obtain ⟨pre, post, hsplit, hid, hpre, hpost⟩ := hwf.books_split hbook
  have hrows : (execDecrementStock st₀.books bookID).2 = 0 := by
    rw [hsplit, execDecrementStock_split pre post b₀ bookID hpre hpost hid]
    simp [h0]
  rw [createLoanHandler_call st₀ env sess r userID bookID hc,
    createLoanTx_noRows st₀ env sess userID bookID hb hq he hr
      (countActiveLoans_zero st₀.loans userID bookID hno₀) hrows]
  exact ⟨rfl, rfl⟩

theorem borrow_missing_book_witness :
    (createLoanHandler freshStore (envAt 10) (sessionOf 7)
        (loanRequest "/loan/create" "99")).store = freshStore ∧
    (createLoanHandler freshStore (envAt 10) (sessionOf 7)
        (loanRequest "/loan/create" "99")).session =
      (sessionOf 7).Put "flashError" (.str "No hay stock disponible para este libro.") ∧
    (createLoanHandler freshStore (envAt 10) (sessionOf 7)
        (loanRequest "/loan/create" "99")).response =
      .redirect ("/book?id=" ++ toString (99 : Int)) StatusSeeOther :=
  ⟨(borrow_missing_book freshStore (envAt 10) (sessionOf 7) (loanRequest "/loan/create" "99")
      7 99 (by decide) rfl rfl rfl rfl (by decide) (by decide)).1,
   (borrow_missing_book freshStore (envAt 10) (sessionOf 7) (loanRequest "/loan/create" "99")
      7 99 (by decide) rfl rfl rfl rfl (by decide) (by decide)).2.2.1,
   (borrow_missing_book freshStore (envAt 10) (sessionOf 7) (loanRequest "/loan/create" "99")
      7 99 (by decide) rfl rfl rfl rfl (by decide) (by decide)).2.2.2.1⟩

/-- C27: `createLoanHandler` ignores the release date. For two stores that differ
only in the release date of a book, the handler gives the same session and
response, and the stores it commits differ again only in that release date:
the same loans table and the same stock of every book. In particular a book
the catalog query does not show (its release date is after the clock) is
borrowed with success when its stock is above 0, the user has no active loan
for it and no storage call fails. -/
theorem borrow_ignores_release_date (st : Store) (env : Env) (sess : Session) (r : Request)
    (k : Int) (date : String) :
    (createLoanHandler (st.withReleaseDate k date) env sess r).session =
      (createLoanHandler st env sess r).session ∧
    (createLoanHandler (st.withReleaseDate k date) env sess r).response =
      (createLoanHandler st env sess r).response ∧
    (createLoanHandler (st.withReleaseDate k date) env sess r).store =
      (createLoanHandler st env sess r).store.withReleaseDate k date ∧
    (createLoanHandler (st.withReleaseDate k date) env sess r).store.loans =
      (createLoanHandler st env sess r).store.loans ∧
    (∀ bookID, (createLoanHandler (st.withReleaseDate k date) env sess r).store.stock? bookID =
      (createLoanHandler st env sess r).store.stock? bookID) ∧
    (∀ (dueBy : String → Nat → Bool) (userID : Int) (b : Book), st.WF →
      IsCall sess r userID k → env.faults = Faults.none → st.book? k = some b →
      catalogShows dueBy env.now b = false → 0 < b.Stock →
      (∀ l ∈ st.loans, ¬(l.UserID = userID ∧ l.BookID = k ∧ l.Status = "active")) →
      (createLoanHandler st env sess r).session =
        sess.Put "flashSuccess" (.str "¡Libro prestado con éxito!") ∧
      (createLoanHandler st env sess r).store.stock? k = some (b.Stock - 1) ∧
      (createLoanHandler st env sess r).store.loans =
        st.loans ++ [⟨st.nextLoanID, userID, k, env.now, none, "active"⟩]) := by
  rw [createLoanHandler_withReleaseDate st env sess r k date]
  refine ⟨rfl, rfl, rfl, rfl, fun bookID => stock?_withReleaseDate _ k date bookID, ?_⟩
  intro dueBy userID b hwf hc hf hbook _ hpos hno
  obtain ⟨pre, post, hbs, hid, hpre, hpost⟩ := hwf.books_split hbook
  rw [createLoanHandler_step st env sess r userID k pre post b hc hf hbs hpre hpost hid hpos
    (countActiveLoans_zero st.loans userID k hno)]
  refine ⟨rfl, ?_, rfl⟩
  exact stock?_split _ pre post { b with Stock := b.Stock - 1 } k rfl hpre hid

theorem borrow_ignores_release_date_witness :
    catalogShows dueByToday 10 ⟨5, "Drácula", "Bram Stoker", "Gótico", 20, "", "dracula.jpg",
      "dracula.pdf", "2999-01-01"⟩ = false ∧
    (createLoanHandler upcomingStore (envAt 10) (sessionOf 7)
        (loanRequest "/loan/create" "5")).session =
      (sessionOf 7).Put "flashSuccess" (.str "¡Libro prestado con éxito!") ∧
    (createLoanHandler upcomingStore (envAt 10) (sessionOf 7)
        (loanRequest "/loan/create" "5")).store.stock? 5 = some (20 - 1) ∧
    (createLoanHandler upcomingStore (envAt 10) (sessionOf 7)
        (loanRequest "/loan/create" "5")).store.loans =
      upcomingStore.loans ++ [⟨upcomingStore.nextLoanID, 7, 5, 10, none, "active"⟩] :=
  ⟨by decide,
   (borrow_ignores_release_date upcomingStore (envAt 10) (sessionOf 7)
      (loanRequest "/loan/create" "5") 5 "2999-01-01").2.2.2.2.2 dueByToday 7
      ⟨5, "Drácula", "Bram Stoker", "Gótico", 20, "", "dracula.jpg", "dracula.pdf", "2999-01-01"⟩
      (by decide) (by decide) rfl (by decide) (by decide) (by decide) (by decide)⟩

/-- C23: loan history is append-only. In a store whose ids are primary keys, after
every call of `createLoanHandler` or `returnLoanHandler`, whatever its request,
session and storage failures, the loans table is the old table, row by row
with the same id, user, book and loan date, followed by the rows the call has
added; a row whose status was `returned` is the same row after the call. A
`createLoanHandler` that succeeds for a pair that has a returned loan and no
active one appends a row whose id no earlier row has, and the returned row
stays in the table as it was. -/
theorem loan_history_append_only (st : Store) (hwf : st.WF) :
    (∀ c : Call, ∃ rows extra, (c.run st).loans = rows ++ extra ∧
      List.Forall₂ LoanKept st.loans rows) ∧
    (∀ (env : Env) (sess : Session) (r : Request) (userID bookID : Int) (b : Book)
      (returned : Loan), IsCall sess r userID bookID → env.faults = Faults.none →
      st.book? bookID = some b → 0 < b.Stock → returned ∈ st.loans →
      returned.UserID = userID → returned.BookID = bookID → returned.Status = "returned" →
      (∀ l ∈ st.loans, ¬(l.UserID = userID ∧ l.BookID = bookID ∧ l.Status = "active")) →
      (createLoanHandler st env sess r).session =
        sess.Put "flashSuccess" (.str "¡Libro prestado con éxito!") ∧
      (createLoanHandler st env sess r).store.loans =
        st.loans ++ [⟨st.nextLoanID, userID, bookID, env.now, none, "active"⟩] ∧
      (∀ l ∈ st.loans, l.ID ≠ st.nextLoanID) ∧
      returned ∈ (createLoanHandler st env sess r).store.loans) := by
  refine ⟨fun c => Call.run_loans_kept st c hwf, ?_⟩
  intro env sess r userID bookID b returned hc hf hbook hpos hmem _ _ _ hno
  obtain ⟨pre, post, hbs, hid, hpre, hpost⟩ := hwf.books_split hbook
  rw [createLoanHandler_step st env sess r userID bookID pre post b hc hf hbs hpre hpost hid
    hpos (countActiveLoans_zero st.loans userID bookID hno)]
  refine ⟨rfl, rfl, fun l hl => ne_of_lt (hwf.2.2 l hl), ?_⟩
  exact List.mem_append_left _ hmem

theorem loan_history_append_only_witness :
    (∃ rows extra,
      (Call.run historyStore
        (.returnBook (envAt 300) (sessionOf 8) (loanRequest "/loan/return" "2"))).loans =
        rows ++ extra ∧ List.Forall₂ LoanKept historyStore.loans rows) ∧
    (createLoanHandler historyStore (envAt 300) (sessionOf 7)
        (loanRequest "/loan/create" "1")).store.loans =
      historyStore.loans ++ [⟨historyStore.nextLoanID, 7, 1, 300, none, "active"⟩] :=
  ⟨(loan_history_append_only historyStore (by decide)).1
      (.returnBook (envAt 300) (sessionOf 8) (loanRequest "/loan/return" "2")),
   ((loan_history_append_only historyStore (by decide)).2 (envAt 300) (sessionOf 7)
      (loanRequest "/loan/create" "1") 7 1 (sampleBook 1 2)
      ⟨1, 7, 1, 100, some 200, "returned"⟩ (by decide) rfl (by decide) (by decide) (by decide)
      rfl rfl rfl (by decide)).2.1⟩

/-- C24: conservation of copies. In a store whose ids are primary keys, for every
existing book the sum of its stock and of the number of its loans with status
`active` is the same before and after every call of `createLoanHandler` and of
`returnLoanHandler`, whatever the request, the session and the storage
failures, so whether the call succeeds or fails; hence it is the same in every
store a sequence of calls, executed one after another, goes through. -/
theorem copies_conserved (st : Store) (hwf : st.WF) :
    (∀ (c : Call) (bookID : Int), (c.run st).copies? bookID = st.copies? bookID) ∧
    (∀ (calls : List Call), ∀ s ∈ reached st calls, ∀ bookID : Int,
      s.copies? bookID = st.copies? bookID) := by
  refine ⟨fun c bookID => Call.run_copies? st c hwf bookID, ?_⟩
  intro calls s hs bookID
  have hinv := reached_invariant
    (fun s' => s'.WF ∧ ∀ b : Int, s'.copies? b = st.copies? b)
    (fun s' c h => ⟨Call.run_WF s' c h.1,
      fun b => (Call.run_copies? s' c h.1 b).trans (h.2 b)⟩)
    calls st ⟨hwf, fun _ => rfl⟩ s hs
  exact hinv.2 bookID

theorem copies_conserved_witness :
    lentStore.copies? 1 = some 1 ∧
    ∀ s ∈ reached lentStore sampleCalls, ∀ bookID : Int,
      s.copies? bookID = lentStore.copies? bookID :=
  ⟨by decide, (copies_conserved lentStore (by decide)).2 sampleCalls⟩

/-- C21, the code where it departs from the claim. Two borrow requests of user 7
for book 1, which has two copies, reach the server together: the duplicate
check of each counts 0 active loans on `twoCopiesStore`. The first request runs
to its end at time 10 and commits `oneCopyLentStore`; a duplicate check made
now would count 1. The second request, past its check, goes on with its
`UPDATE books` on the committed state at time 11: one row affected, a second
loan row inserted, success flashed. The pair ends with two active loans and
the stock is lowered twice. -/
theorem borrow_race_two_active_loans :
    countActiveLoans twoCopiesStore.loans 7 1 = 0 ∧
    (createLoanHandler twoCopiesStore (envAt 10) (sessionOf 7)
        (loanRequest "/loan/create" "1")).store = oneCopyLentStore ∧
    countActiveLoans oneCopyLentStore.loans 7 1 = 1 ∧
    (createLoanUpdate oneCopyLentStore (envAt 11) (sessionOf 7) 7 1).session =
      (sessionOf 7).Put "flashSuccess" (.str "¡Libro prestado con éxito!") ∧
    (createLoanUpdate oneCopyLentStore (envAt 11) (sessionOf 7) 7 1).store.loans =
      [⟨1, 7, 1, 10, none, "active"⟩, ⟨2, 7, 1, 11, none, "active"⟩] ∧
    countActiveLoans
      (createLoanUpdate oneCopyLentStore (envAt 11) (sessionOf 7) 7 1).store.loans 7 1 = 2 ∧
    (createLoanUpdate oneCopyLentStore (envAt 11) (sessionOf 7) 7 1).store.stock? 1 = some 0 := by
  decide

/-! ## C22: who changes stock and loan status -/

/-- C22, as stated, fails for `seedLoans`: on a store with the user `usuario1` and
the books "1984", "El Principito" and "Maus", each with stock 20, and no loan,
`seedLoans` lowers the stock of the existing books 1 and 3 to 19 and inserts
three loans, each statement on its own; and when the lowering of the stock of
book 1 fails after its loan was inserted, the active loan stays while the stock
stays 20. -/
theorem seedLoans_lowers_existing_stock :
    seededStore.stock? 1 = some 20 ∧
    seededStore.stock? 3 = some 20 ∧
    (Operation.run seededStore (.seedLoans 1793577600 SeedLoansFaults.none)).stock? 1 =
      some 19 ∧
    (Operation.run seededStore (.seedLoans 1793577600 SeedLoansFaults.none)).stock? 3 =
      some 19 ∧
    (Operation.run seededStore (.seedLoans 1793577600 SeedLoansFaults.none)).stock? 2 =
      some 20 ∧
    (Operation.run seededStore (.seedLoans 1793577600 SeedLoansFaults.none)).loans =
      [⟨1, 2, 1, 1792972800, none, "active"⟩,
        ⟨2, 2, 2, 1790985600, some 1792281600, "returned"⟩,
        ⟨3, 2, 3, 1793404800, none, "active"⟩] ∧
    (seedLoans seededStore 1793577600
        ⟨false, false, false, false, false, false, true, false, false, false⟩).stock? 1 =
      some 20 ∧
    countActiveLoans
      (seedLoans seededStore 1793577600
        ⟨false, false, false, false, false, false, true, false, false, false⟩).loans 2 1 = 1 := by
  decide

/-- C22, amended: every operation other than BorrowBook, ReturnBook and `seedLoans`
(login, logout, the handlers that only read, the admin handlers, `seedUsers`,
`seedBooks`) leaves the loans table as it was, so every loan keeps its status,
and leaves every existing book its stock, except that `adminBookDeleteHandler`
may remove the book; `seedLoans` changes nothing once the loans table has a
row and its count does not fail; and a request to `createLoanHandler` or
`returnLoanHandler` either leaves the store as it was or commits the change of
stock together with the loan row: the guarded lowering with the new active
loan, or the raising with the loan marked returned. -/
theorem stock_and_status_frame (st : Store) (op : Operation) (h : op.isSeedLoans = false) :
    (op.run st).loans = st.loans ∧
    (∀ bookID s, st.stock? bookID = some s →
      (op.run st).stock? bookID = some s ∨
      (op.isBookDelete = true ∧ (op.run st).stock? bookID = none)) ∧
    (∀ loanID s, st.loanStatus? loanID = some s → (op.run st).loanStatus? loanID = some s) ∧
    (∀ now f, st.loans ≠ [] → f.countFails = false → seedLoans st now f = st) ∧
    (∀ env sess r,
      (createLoanHandler st env sess r).store = st ∨
      ∃ userID bookID, (execDecrementStock st.books bookID).2 ≠ 0 ∧
        (createLoanHandler st env sess r).store =
          execInsertLoan { st with books := (execDecrementStock st.books bookID).1 }
            userID bookID env.now) ∧
    (∀ env sess r,
      (returnLoanHandler st env sess r).store = st ∨
      ∃ userID bookID loanID, selectActiveLoan st.loans userID bookID = some loanID ∧
        (returnLoanHandler st env sess r).store =
          { st with loans := (execReturnLoan st.loans loanID env.now).1,
                    books := execIncrementStock st.books bookID }) := by
  have hloans : (op.run st).loans = st.loans := by
    cases op with
    | login env r => rfl
    | logout r => rfl
    | view v r => rfl
    | adminBookSave env sess r => exact adminBookSaveHandler_loans st env sess r
    | adminBookDelete env sess r => exact adminBookDeleteHandler_loans st env sess r
    | adminUserSave env sess r => exact (adminUserSaveHandler_rows st env sess r).2
    | adminUserDelete env sess r => exact (adminUserDeleteHandler_rows st env sess r).2
    | seedUsers env => exact (seedUsers_rows st env).2
    | seedBooks env => exact seedBooks_loans st env
    | seedLoans now f => cases h
  refine ⟨hloans, ?_, ?_, fun now f hl hc => seedLoans_seeded st now f hl hc,
    fun env sess r => createLoanHandler_atomic st env sess r,
    fun env sess r => returnLoanHandler_atomic st env sess r⟩
  · intro bookID s hs
    cases op with
    | login env r => exact Or.inl hs
    | logout r => exact Or.inl hs
    | view v r => exact Or.inl hs
    | adminBookSave env sess r => exact Or.inl (adminBookSaveHandler_stock st env sess r _ _ hs)
    | adminBookDelete env sess r =>
      rcases adminBookDeleteHandler_stock st env sess r bookID s hs with h1 | h1
      · exact Or.inl h1
      · exact Or.inr ⟨rfl, h1⟩
    | adminUserSave env sess r =>
      exact Or.inl ((stock?_of_books st _ (adminUserSaveHandler_rows st env sess r).1 _).trans hs)
    | adminUserDelete env sess r =>
      exact Or.inl
        ((stock?_of_books st _ (adminUserDeleteHandler_rows st env sess r).1 _).trans hs)
    | seedUsers env =>
      exact Or.inl ((stock?_of_books st _ (seedUsers_rows st env).1 _).trans hs)
    | seedBooks env => exact Or.inl (seedBooks_stock st env _ _ hs)
    | seedLoans now f => cases h
  · intro loanID s hs
    unfold Store.loanStatus? at hs ⊢
    rw [hloans]
    exact hs

theorem stock_and_status_frame_witness :
    Operation.isSeedLoans (.adminBookSave bookSaveEnv (sessionOf 1) bookSaveRequest) = false ∧
    (Operation.run seededStore
      (.adminBookSave bookSaveEnv (sessionOf 1) bookSaveRequest)).loans = seededStore.loans ∧
    ((Operation.run seededStore
        (.adminBookSave bookSaveEnv (sessionOf 1) bookSaveRequest)).stock? 1 = some 20 ∨
      (Operation.isBookDelete (.adminBookSave bookSaveEnv (sessionOf 1) bookSaveRequest) = true ∧
        (Operation.run seededStore
          (.adminBookSave bookSaveEnv (sessionOf 1) bookSaveRequest)).stock? 1 = none)) ∧
    ((Operation.run seededStore
        (.adminBookSave bookSaveEnv (sessionOf 1) bookSaveRequest)).book? 1).map Book.Title =
      some "Mil novecientos ochenta y cuatro" :=
  ⟨rfl,
   (stock_and_status_frame seededStore
      (.adminBookSave bookSaveEnv (sessionOf 1) bookSaveRequest) rfl).1,
   (stock_and_status_frame seededStore
      (.adminBookSave bookSaveEnv (sessionOf 1) bookSaveRequest) rfl).2.1 1 20 (by decide),
   by decide⟩

end EBooks
